import Mathlib

/-!
Verification of the housing-affordability computational core: the mortgage
engine (`src/services/mortgage.ts`), the median/stat aggregator and nationwide
state aggregation (`src/services/housingData.ts`), and the affordability-aware
isochrone join.  All JavaScript numbers are modelled as exact rationals and
`Math.round` as `round` (floor of x + 1/2, which matches JS semantics for all
inputs).  Option models `number | null`.
-/

namespace Housing

/-- `AffordabilityTier` from src/types: affordable | stretch | unaffordable | unknown. -/
inductive AffordabilityTier where
  | affordable
  | stretch
  | unaffordable
  | unknown
deriving DecidableEq, Repr

/-- `AffordabilityInputs` from src/types (user-editable financial profile). -/
structure AffordabilityInputs where
  annualIncome : Option ℚ
  downPaymentPct : ℚ
  interestRate : ℚ
  loanTermYears : ℕ
  propertyTaxRate : ℚ
  annualInsurance : ℚ
  monthlyDebts : ℚ
  hoaMonthly : ℚ
  frontDtiPct : ℚ
  backDtiPct : ℚ
  monthlySpending : ℚ
  includeSpending : Bool
  manualMaxPrice : Option ℚ
  useManualMaxPrice : Bool
deriving DecidableEq, Repr

/-- The PMI rate constant from mortgage.ts (`const PMI_RATE = 0.007`). -/
def PMI_RATE : ℚ := 0.007

/-- `calculateMonthlyPayment` (mortgage.ts lines 9-23): standard amortization.
`principal <= 0` gives 0; `annualRate <= 0` gives straight-line division. -/
def calculateMonthlyPayment (principal annualRate : ℚ) (termYears : ℕ) : ℚ :=
  if principal ≤ 0 then 0
  else if annualRate ≤ 0 then principal / (termYears * 12)
  else
    let monthlyRate := annualRate / 100 / 12
    let numPayments := termYears * 12
    principal * monthlyRate * (1 + monthlyRate) ^ numPayments /
      ((1 + monthlyRate) ^ numPayments - 1)

/-- Result record of `calculateFullMonthlyPayment`. -/
structure PaymentBreakdown where
  total : ℚ
  principal : ℚ
  tax : ℚ
  insurance : ℚ
  pmi : ℚ
  hoa : ℚ
deriving DecidableEq, Repr

/-- `calculateFullMonthlyPayment` (mortgage.ts lines 28-48):
P&I + property tax + insurance + PMI + HOA. -/
def calculateFullMonthlyPayment (homePrice : ℚ) (inputs : AffordabilityInputs) :
    PaymentBreakdown :=
  let loanAmount := homePrice * (1 - inputs.downPaymentPct / 100)
  let principal := calculateMonthlyPayment loanAmount inputs.interestRate inputs.loanTermYears
  let taxRate := inputs.propertyTaxRate / 100
  let tax := homePrice * taxRate / 12
  let insurance := inputs.annualInsurance / 12
  let pmi := if inputs.downPaymentPct < 20 then loanAmount * PMI_RATE / 12 else 0
  let hoa := inputs.hoaMonthly
  { total := principal + tax + insurance + pmi + hoa
    principal := principal
    tax := tax
    insurance := insurance
    pmi := pmi
    hoa := hoa }

/-- The bisection test used by `calculateMaxHomePrice`:
`calculateFullMonthlyPayment(mid, inputs).total < availableForHousing`. -/
def mpTest (inputs : AffordabilityInputs) (availableForHousing : ℚ) (mid : ℚ) : Bool :=
  decide ((calculateFullMonthlyPayment mid inputs).total < availableForHousing)

/-- The `for (let i = 0; i < n; i++)` bisection loop of `calculateMaxHomePrice`
(mortgage.ts lines 65-75), narrowing `(low, high)` by the given test. -/
def bisectLoop (test : ℚ → Bool) : ℕ → ℚ × ℚ → ℚ × ℚ
  | 0, lh => lh
  | Nat.succ n, lh =>
      let mid := (lh.1 + lh.2) / 2
      bisectLoop test n (if test mid then (mid, lh.2) else (lh.1, mid))

/-- `calculateMaxHomePrice` (mortgage.ts lines 55-77): 0 for missing or
non-positive income and for a non-positive housing budget, otherwise a
50-iteration bisection over `[0, annualIncome * 10]`, returning the final
midpoint rounded to the nearest dollar (`Math.round`). -/
def calculateMaxHomePrice (inputs : AffordabilityInputs) : ℤ :=
  match inputs.annualIncome with
  | none => 0
  | some income =>
    if income ≤ 0 then 0
    else
      let maxMonthly := income / 12 * (inputs.frontDtiPct / 100)
      let availableForHousing := maxMonthly - inputs.monthlyDebts
      if availableForHousing ≤ 0 then 0
      else
        let lh := bisectLoop (mpTest inputs availableForHousing) 50 (0, income * 10)
        round ((lh.1 + lh.2) / 2)

/-- The base DTI tier of `getAffordabilityTier` (mortgage.ts lines 121-124):
affordable / stretch / unaffordable by front- and back-end DTI thresholds. -/
def baseDtiTier (dtiRatio : ℚ) (inputs : AffordabilityInputs) : AffordabilityTier :=
  if dtiRatio ≤ inputs.frontDtiPct / 100 then .affordable
  else if dtiRatio ≤ inputs.backDtiPct / 100 then .stretch
  else .unaffordable

/-- `getAffordabilityTier` (mortgage.ts lines 106-153): `unknown` for null price
or null/non-positive income, otherwise the base DTI tier followed by the
cash-flow downgrade cascade (two sequential `if`s, the second not an
`else if`). -/
def getAffordabilityTier (homePrice : Option ℚ) (inputs : AffordabilityInputs) :
    AffordabilityTier :=
  match homePrice, inputs.annualIncome with
  | none, _ => .unknown
  | _, none => .unknown
  | some hp, some income =>
    if income ≤ 0 then .unknown
    else
      let housingPayment := (calculateFullMonthlyPayment hp inputs).total
      let grossMonthlyIncome := income / 12
      let totalDebts := housingPayment + inputs.monthlyDebts
      let dtiRatio := totalDebts / grossMonthlyIncome
      let tier := baseDtiTier dtiRatio inputs
      if inputs.includeSpending ∧ inputs.monthlySpending > 0 then
        let remainingCashFlow := grossMonthlyIncome - totalDebts - inputs.monthlySpending
        let cashFlowPct := remainingCashFlow / grossMonthlyIncome
        let tier1 :=
          if remainingCashFlow < 0 then .unaffordable
          else if remainingCashFlow < 500 then .unaffordable
          else if cashFlowPct < 0.15 ∧ tier = .affordable then .stretch
          else tier
        if cashFlowPct < 0.25 ∧ tier1 = .stretch then .unaffordable else tier1
      else tier

/-- The housing budget computed by `calculateMaxHomePrice` before the search:
`maxMonthly - monthlyDebts` with `maxMonthly = (annualIncome / 12) * (frontDtiPct / 100)`. -/
def availFor (inputs : AffordabilityInputs) (income : ℚ) : ℚ :=
  income / 12 * (inputs.frontDtiPct / 100) - inputs.monthlyDebts

/-- Dyadic index of the subinterval the bisection has narrowed to: starting
from the `k`-th interval of width `H / 2 ^ m`, run `n` more bisection steps. -/
def bisectIdxFrom (test : ℚ → Bool) (H : ℚ) : ℕ → ℕ → ℕ → ℕ
  | _, k, 0 => k
  | m, k, Nat.succ n =>
      bisectIdxFrom test H (m + 1)
        (if test (H * (2 * (k : ℚ) + 1) / 2 ^ (m + 1)) then 2 * k + 1 else 2 * k) n

/-- The default `AffordabilityInputs` constructed in App.tsx (lines 33-46). -/
def defaultInputs : AffordabilityInputs where
  annualIncome := some 47000
  downPaymentPct := 20
  interestRate := 6.5
  loanTermYears := 30
  propertyTaxRate := 1.1
  annualInsurance := 1500
  monthlyDebts := 0
  hoaMonthly := 0
  frontDtiPct := 28
  backDtiPct := 36
  monthlySpending := 0
  includeSpending := false
  manualMaxPrice := none
  useManualMaxPrice := false

/-! ### Dyadic characterisation of the bisection loop -/

lemma midpoint_dyadic (H : ℚ) (k m : ℕ) :
    (H * k / 2 ^ m + H * ((k : ℚ) + 1) / 2 ^ m) / 2
      = H * (2 * (k : ℚ) + 1) / 2 ^ (m + 1) := by
  have h2 : (2 : ℚ) ^ m ≠ 0 := by positivity
  field_simp
  ring

lemma bisectLoop_idx (test : ℚ → Bool) (H : ℚ) :
    ∀ (n m k : ℕ),
      bisectLoop test n (H * k / 2 ^ m, H * ((k : ℚ) + 1) / 2 ^ m)
        = (H * (bisectIdxFrom test H m k n) / 2 ^ (m + n),
           H * ((bisectIdxFrom test H m k n : ℚ) + 1) / 2 ^ (m + n))
  | 0, m, k => by simp [bisectLoop, bisectIdxFrom]
  | n + 1, m, k => by
      rw [show n + 1 = Nat.succ n from rfl, bisectLoop, bisectIdxFrom]
      simp only [midpoint_dyadic H k m]
      by_cases ht : test (H * (2 * (k : ℚ) + 1) / 2 ^ (m + 1)) = true
      · have hA : H * (2 * (k : ℚ) + 1) / 2 ^ (m + 1)
            = H * ((2 * k + 1 : ℕ) : ℚ) / 2 ^ (m + 1) := by push_cast; ring
        have hB : H * ((k : ℚ) + 1) / 2 ^ m
            = H * ((((2 * k + 1 : ℕ) : ℚ)) + 1) / 2 ^ (m + 1) := by
          have h2 : (2 : ℚ) ^ m ≠ 0 := by positivity
          push_cast
          field_simp
          ring
        rw [if_pos ht, if_pos ht, hA, hB, bisectLoop_idx test H n (m + 1) (2 * k + 1),
          show m + Nat.succ n = m + 1 + n from by omega]
      · have hA : H * (k : ℚ) / 2 ^ m = H * ((2 * k : ℕ) : ℚ) / 2 ^ (m + 1) := by
          have h2 : (2 : ℚ) ^ m ≠ 0 := by positivity
          push_cast
          field_simp
          ring
        have hB : H * (2 * (k : ℚ) + 1) / 2 ^ (m + 1)
            = H * (((2 * k : ℕ) : ℚ) + 1) / 2 ^ (m + 1) := by push_cast; ring
        rw [if_neg ht, if_neg ht, hA, hB, bisectLoop_idx test H n (m + 1) (2 * k),
          show m + Nat.succ n = m + 1 + n from by omega]

lemma bisectIdxFrom_lt (test : ℚ → Bool) (H : ℚ) :
    ∀ (n m k : ℕ), bisectIdxFrom test H m k n < (k + 1) * 2 ^ n
  | 0, m, k => by simp [bisectIdxFrom]
  | n + 1, m, k => by
      rw [show n + 1 = Nat.succ n from rfl, bisectIdxFrom]
      split
      · calc bisectIdxFrom test H (m + 1) (2 * k + 1) n
            < (2 * k + 1 + 1) * 2 ^ n := bisectIdxFrom_lt test H n (m + 1) (2 * k + 1)
          _ ≤ (k + 1) * 2 ^ (n + 1) := le_of_eq (by ring)
      · calc bisectIdxFrom test H (m + 1) (2 * k) n
            < (2 * k + 1) * 2 ^ n := bisectIdxFrom_lt test H n (m + 1) (2 * k)
          _ ≤ (2 * k + 2) * 2 ^ n := Nat.mul_le_mul_right _ (by omega)
          _ = (k + 1) * 2 ^ (n + 1) := by ring

lemma bisectIdxFrom_ge (test : ℚ → Bool) (H : ℚ) :
    ∀ (n m k : ℕ), k * 2 ^ n ≤ bisectIdxFrom test H m k n
  | 0, m, k => by simp [bisectIdxFrom]
  | n + 1, m, k => by
      rw [show n + 1 = Nat.succ n from rfl, bisectIdxFrom]
      split
      · calc k * 2 ^ (n + 1) = 2 * k * 2 ^ n := by ring
          _ ≤ (2 * k + 1) * 2 ^ n := Nat.mul_le_mul_right _ (by omega)
          _ ≤ bisectIdxFrom test H (m + 1) (2 * k + 1) n :=
              bisectIdxFrom_ge test H n (m + 1) (2 * k + 1)
      · calc k * 2 ^ (n + 1) = 2 * k * 2 ^ n := by ring
          _ ≤ bisectIdxFrom test H (m + 1) (2 * k) n :=
              bisectIdxFrom_ge test H n (m + 1) (2 * k)

/-- Coupled monotonicity of the bisection index: if every grid point at which
the first test succeeds makes the second test (on the second grid) succeed as
well, the first search never ends in a later subinterval than the second. -/
lemma bisectIdxFrom_mono (t1 t2 : ℚ → Bool) (H1 H2 : ℚ)
    (himp : ∀ m k : ℕ, t1 (H1 * (2 * (k : ℚ) + 1) / 2 ^ (m + 1)) = true →
      t2 (H2 * (2 * (k : ℚ) + 1) / 2 ^ (m + 1)) = true) :
    ∀ (n m k1 k2 : ℕ), k1 ≤ k2 →
      bisectIdxFrom t1 H1 m k1 n ≤ bisectIdxFrom t2 H2 m k2 n
  | 0, m, k1, k2, hk => by simpa [bisectIdxFrom] using hk
  | n + 1, m, k1, k2, hk => by
      rw [show n + 1 = Nat.succ n from rfl, bisectIdxFrom, bisectIdxFrom]
      rcases Nat.lt_or_ge k1 k2 with hlt | hge
      · have hub : bisectIdxFrom t1 H1 (m + 1)
            (if t1 (H1 * (2 * (k1 : ℚ) + 1) / 2 ^ (m + 1)) then 2 * k1 + 1 else 2 * k1) n
            < (2 * k1 + 1 + 1) * 2 ^ n := by
          split
          · exact bisectIdxFrom_lt t1 H1 n (m + 1) (2 * k1 + 1)
          · exact lt_trans (bisectIdxFrom_lt t1 H1 n (m + 1) (2 * k1)) (by gcongr; omega)
        have hlb : 2 * k2 * 2 ^ n ≤ bisectIdxFrom t2 H2 (m + 1)
            (if t2 (H2 * (2 * (k2 : ℚ) + 1) / 2 ^ (m + 1)) then 2 * k2 + 1 else 2 * k2) n := by
          split
          · exact le_trans (by gcongr; omega) (bisectIdxFrom_ge t2 H2 n (m + 1) (2 * k2 + 1))
          · exact bisectIdxFrom_ge t2 H2 n (m + 1) (2 * k2)
        have hstep : (2 * k1 + 1 + 1) * 2 ^ n ≤ 2 * k2 * 2 ^ n := by
          have : 2 * k1 + 2 ≤ 2 * k2 := by omega
          exact Nat.mul_le_mul_right _ this
        omega
      · have hkk : k1 = k2 := le_antisymm hk hge
        subst hkk
        by_cases ht : t1 (H1 * (2 * (k1 : ℚ) + 1) / 2 ^ (m + 1)) = true
        · rw [if_pos ht, if_pos (himp m k1 ht)]
          exact bisectIdxFrom_mono t1 t2 H1 H2 himp n (m + 1) _ _ le_rfl
        · rw [if_neg ht]
          have hle : 2 * k1 ≤ (if t2 (H2 * (2 * (k1 : ℚ) + 1) / 2 ^ (m + 1))
              then 2 * k1 + 1 else 2 * k1) := by split <;> omega
          exact bisectIdxFrom_mono t1 t2 H1 H2 himp n (m + 1) _ _ hle

/-! ### Basic payment lemmas -/

lemma roundMono {x y : ℚ} (h : x ≤ y) : round x ≤ round y := by
  rw [round_eq, round_eq]
  exact Int.floor_le_floor (by linarith)

lemma calculateMonthlyPayment_nonneg (p r : ℚ) (n : ℕ) (hp : 0 ≤ p) :
    0 ≤ calculateMonthlyPayment p r n := by
  unfold calculateMonthlyPayment
  split_ifs with h1 h2
  · exact le_rfl
  · positivity
  · have hr : 0 < r := not_le.1 h2
    have hx : (1 : ℚ) ≤ 1 + r / 100 / 12 := by linarith
    have hX : (1 : ℚ) ≤ (1 + r / 100 / 12) ^ (n * 12) := one_le_pow₀ hx
    have hnum : 0 ≤ p * (r / 100 / 12) * (1 + r / 100 / 12) ^ (n * 12) := by positivity
    exact div_nonneg hnum (by linarith)

lemma calculateMonthlyPayment_mono (r : ℚ) (n : ℕ) {p1 p2 : ℚ} (hp : p1 ≤ p2) :
    calculateMonthlyPayment p1 r n ≤ calculateMonthlyPayment p2 r n := by
  by_cases h1 : p1 ≤ 0
  · have hz : calculateMonthlyPayment p1 r n = 0 := by
      unfold calculateMonthlyPayment
      rw [if_pos h1]
    rw [hz]
    by_cases h2 : p2 ≤ 0
    · have : calculateMonthlyPayment p2 r n = 0 := by
        unfold calculateMonthlyPayment
        rw [if_pos h2]
      rw [this]
    · exact calculateMonthlyPayment_nonneg p2 r n (le_of_not_le h2)
  · have h2 : ¬ p2 ≤ 0 := fun h => h1 (le_trans hp h)
    unfold calculateMonthlyPayment
    rw [if_neg h1, if_neg h2]
    dsimp only
    split_ifs with hr
    · rw [div_eq_mul_inv, div_eq_mul_inv]
      exact mul_le_mul_of_nonneg_right hp (by positivity)
    · have hrr : 0 < r := not_le.1 hr
      have hmr : (0 : ℚ) < r / 100 / 12 := by linarith
      have hx : (1 : ℚ) ≤ 1 + r / 100 / 12 := by linarith
      have hX : (1 : ℚ) ≤ (1 + r / 100 / 12) ^ (n * 12) := one_le_pow₀ hx
      rcases eq_or_lt_of_le hX with hXe | hXl
      · rw [← hXe, sub_self, div_zero, div_zero]
      · have hden : (0 : ℚ) < (1 + r / 100 / 12) ^ (n * 12) - 1 := by linarith
        have hnum : p1 * (r / 100 / 12) * (1 + r / 100 / 12) ^ (n * 12)
            ≤ p2 * (r / 100 / 12) * (1 + r / 100 / 12) ^ (n * 12) := by
          apply mul_le_mul_of_nonneg_right _ (by linarith)
          exact mul_le_mul_of_nonneg_right hp (le_of_lt hmr)
        exact (div_le_div_iff_of_pos_right hden).2 hnum

/-- The amortization coefficient: monthly principal + interest per dollar of
loan amount, so that `calculateMonthlyPayment loan r n = amortRate r n * loan`
for non-negative loans. -/
def amortRate (annualRate : ℚ) (termYears : ℕ) : ℚ :=
  if annualRate ≤ 0 then 1 / (termYears * 12)
  else
    let monthlyRate := annualRate / 100 / 12
    monthlyRate * (1 + monthlyRate) ^ (termYears * 12) /
      ((1 + monthlyRate) ^ (termYears * 12) - 1)

lemma calculateMonthlyPayment_eq_amortRate (p r : ℚ) (n : ℕ) (hp : 0 ≤ p) :
    calculateMonthlyPayment p r n = amortRate r n * p := by
  unfold calculateMonthlyPayment amortRate
  rcases eq_or_lt_of_le hp with hp0 | hp0
  · rw [← hp0]
    simp
  · rw [if_neg (not_le.2 hp0)]
    split_ifs with hr
    · rw [div_eq_mul_inv, div_eq_mul_inv, one_mul]
      ring
    · rw [div_eq_mul_inv, div_eq_mul_inv]
      ring

/-- The fixed (price-independent) part of the full monthly payment:
insurance plus HOA. -/
def fixedPart (inputs : AffordabilityInputs) : ℚ :=
  inputs.annualInsurance / 12 + inputs.hoaMonthly

/-- The per-dollar-of-price part of the full monthly payment: amortized
principal and interest on the financed share, property tax, and PMI. -/
def priceCoeff (inputs : AffordabilityInputs) : ℚ :=
  (1 - inputs.downPaymentPct / 100) * amortRate inputs.interestRate inputs.loanTermYears
    + inputs.propertyTaxRate / 100 / 12
    + (if inputs.downPaymentPct < 20 then (1 - inputs.downPaymentPct / 100) * PMI_RATE / 12 else 0)

/-- On non-negative prices (with a down-payment share of at most 100%), the
full monthly payment is an affine function of the home price. -/
lemma fullPayment_total_linear (inputs : AffordabilityInputs) (p : ℚ) (hp : 0 ≤ p)
    (hd : inputs.downPaymentPct ≤ 100) :
    (calculateFullMonthlyPayment p inputs).total = priceCoeff inputs * p + fixedPart inputs := by
  have hl : (0 : ℚ) ≤ p * (1 - inputs.downPaymentPct / 100) := by
    apply mul_nonneg hp
    linarith
  unfold calculateFullMonthlyPayment priceCoeff fixedPart
  simp only
  rw [calculateMonthlyPayment_eq_amortRate _ _ _ hl]
  split_ifs
  · ring
  · ring

lemma fullPayment_total_anti_down (inputs : AffordabilityInputs) {d1 d2 p : ℚ}
    (hd : d1 ≤ d2) (hp : 0 ≤ p) :
    (calculateFullMonthlyPayment p { inputs with downPaymentPct := d2 }).total
      ≤ (calculateFullMonthlyPayment p { inputs with downPaymentPct := d1 }).total := by
  unfold calculateFullMonthlyPayment
  simp only
  have hloan : p * (1 - d2 / 100) ≤ p * (1 - d1 / 100) := by
    apply mul_le_mul_of_nonneg_left _ hp
    linarith
  have hprin : calculateMonthlyPayment (p * (1 - d2 / 100)) inputs.interestRate
        inputs.loanTermYears
      ≤ calculateMonthlyPayment (p * (1 - d1 / 100)) inputs.interestRate
        inputs.loanTermYears :=
    calculateMonthlyPayment_mono _ _ hloan
  have hpmi : (if d2 < 20 then p * (1 - d2 / 100) * PMI_RATE / 12 else 0)
      ≤ (if d1 < 20 then p * (1 - d1 / 100) * PMI_RATE / 12 else 0) := by
    split_ifs with h2 h1 h1
    · have hmul := mul_le_mul_of_nonneg_right hloan (by norm_num [PMI_RATE] : (0 : ℚ) ≤ PMI_RATE)
      have h12 : (0 : ℚ) < 12 := by norm_num
      exact (div_le_div_iff_of_pos_right h12).2 hmul
    · exact absurd (lt_of_le_of_lt hd h2) h1
    · have hl1 : (0 : ℚ) ≤ p * (1 - d1 / 100) := by
        apply mul_nonneg hp
        linarith
      apply div_nonneg _ (by norm_num)
      apply mul_nonneg hl1
      norm_num [PMI_RATE]
    · exact le_rfl
  linarith

/-! ### Branch lemmas for `calculateMaxHomePrice` -/

lemma maxPrice_of_none (inputs : AffordabilityInputs) (h : inputs.annualIncome = none) :
    calculateMaxHomePrice inputs = 0 := by
  unfold calculateMaxHomePrice
  rw [h]

lemma maxPrice_of_nonpos (inputs : AffordabilityInputs) (y : ℚ)
    (h : inputs.annualIncome = some y) (hy : y ≤ 0) : calculateMaxHomePrice inputs = 0 := by
  unfold calculateMaxHomePrice
  rw [h]
  dsimp only
  rw [if_pos hy]

lemma maxPrice_of_avail_nonpos (inputs : AffordabilityInputs) (y : ℚ)
    (h : inputs.annualIncome = some y) (hy : ¬ y ≤ 0) (hav : availFor inputs y ≤ 0) :
    calculateMaxHomePrice inputs = 0 := by
  unfold calculateMaxHomePrice
  rw [h]
  dsimp only
  rw [if_neg hy, if_pos (by simpa [availFor] using hav)]

lemma maxPrice_eq_round (inputs : AffordabilityInputs) (y : ℚ)
    (h : inputs.annualIncome = some y) (hy : ¬ y ≤ 0) (hav : ¬ availFor inputs y ≤ 0) :
    calculateMaxHomePrice inputs
      = round (y * 10 *
          (2 * (bisectIdxFrom (mpTest inputs (availFor inputs y)) (y * 10) 0 0 50 : ℚ) + 1)
            / 2 ^ 51) := by
  unfold calculateMaxHomePrice
  rw [h]
  dsimp only
  rw [if_neg hy, if_neg (by simpa [availFor] using hav)]
  have h0 : (0 : ℚ) = y * 10 * ((0 : ℕ) : ℚ) / 2 ^ 0 := by norm_num
  have h1 : y * 10 = y * 10 * (((0 : ℕ) : ℚ) + 1) / 2 ^ 0 := by norm_num
  have hloop := bisectLoop_idx (mpTest inputs (availFor inputs y)) (y * 10) 50 0 0
  have hpair : (0, y * 10)
      = ((y * 10 * ((0 : ℕ) : ℚ) / 2 ^ 0 : ℚ), (y * 10 * (((0 : ℕ) : ℚ) + 1) / 2 ^ 0 : ℚ)) := by
    rw [← h0, ← h1]
  show round ((((bisectLoop (mpTest inputs (availFor inputs y)) 50 (0, y * 10)).1
      + (bisectLoop (mpTest inputs (availFor inputs y)) 50 (0, y * 10)).2) / 2)) = _
  rw [show (0 : ℚ) = (availFor inputs y) - (availFor inputs y) + 0 from by ring] at hpair
  rw [show (availFor inputs y) - (availFor inputs y) + 0 = (0 : ℚ) from by ring] at hpair
  rw [hpair, hloop]
  simp only
  rw [midpoint_dyadic (y * 10) (bisectIdxFrom (mpTest inputs (availFor inputs y)) (y * 10) 0 0 50)
    (0 + 50)]

lemma maxPrice_nonneg (inputs : AffordabilityInputs) : 0 ≤ calculateMaxHomePrice inputs := by
  rcases hI : inputs.annualIncome with _ | y
  · rw [maxPrice_of_none inputs hI]
  · by_cases hy : y ≤ 0
    · rw [maxPrice_of_nonpos inputs y hI hy]
    · by_cases hav : availFor inputs y ≤ 0
      · rw [maxPrice_of_avail_nonpos inputs y hI hy hav]
      · rw [maxPrice_eq_round inputs y hI hy hav]
        have hy0 : 0 < y := not_le.1 hy
        have hm : (0 : ℚ) ≤ y * 10 *
            (2 * (bisectIdxFrom (mpTest inputs (availFor inputs y)) (y * 10) 0 0 50 : ℚ) + 1)
              / 2 ^ 51 := by positivity
        calc (0 : ℤ) = round (0 : ℚ) := by norm_num
          _ ≤ _ := roundMono hm

lemma maxPrice_le_bound (inputs : AffordabilityInputs) (y : ℚ)
    (h : inputs.annualIncome = some y) (hy : ¬ y ≤ 0) (hav : ¬ availFor inputs y ≤ 0) :
    calculateMaxHomePrice inputs ≤ round (y * 10) := by
  rw [maxPrice_eq_round inputs y h hy hav]
  apply roundMono
  have hy0 : 0 < y := not_le.1 hy
  have hK : bisectIdxFrom (mpTest inputs (availFor inputs y)) (y * 10) 0 0 50 < 2 ^ 50 := by
    have := bisectIdxFrom_lt (mpTest inputs (availFor inputs y)) (y * 10) 50 0 0
    simpa using this
  have hKq : ((bisectIdxFrom (mpTest inputs (availFor inputs y)) (y * 10) 0 0 50 : ℕ) : ℚ)
      ≤ 2 ^ 50 - 1 := by
    have h1 : (bisectIdxFrom (mpTest inputs (availFor inputs y)) (y * 10) 0 0 50 : ℕ)
        ≤ 2 ^ 50 - 1 := by omega
    calc ((bisectIdxFrom (mpTest inputs (availFor inputs y)) (y * 10) 0 0 50 : ℕ) : ℚ)
        ≤ ((2 ^ 50 - 1 : ℕ) : ℚ) := by exact_mod_cast h1
      _ = 2 ^ 50 - 1 := by norm_num
  rw [div_le_iff₀ (by positivity : (0 : ℚ) < 2 ^ 51)]
  have hcoef : (2 * ((bisectIdxFrom (mpTest inputs (availFor inputs y)) (y * 10) 0 0 50 : ℕ) : ℚ)
      + 1) ≤ 2 ^ 51 := by nlinarith
  calc y * 10 * (2 * ((bisectIdxFrom (mpTest inputs (availFor inputs y)) (y * 10) 0 0 50 : ℕ) : ℚ)
        + 1) ≤ y * 10 * 2 ^ 51 := by
          apply mul_le_mul_of_nonneg_left hcoef
          positivity
    _ = y * 10 * 2 ^ 51 := rfl

/-- Positive-branch comparison: with both searches in the bisection branch and
a pointwise implication between their tests on corresponding grid points, the
first computed max price is at most the second. -/
lemma maxPrice_le_maxPrice (i1 i2 : AffordabilityInputs) (y1 y2 : ℚ)
    (hI1 : i1.annualIncome = some y1) (hI2 : i2.annualIncome = some y2)
    (hy1 : 0 < y1) (hy2 : 0 < y2) (hy : y1 ≤ y2)
    (hav1 : ¬ availFor i1 y1 ≤ 0) (hav2 : ¬ availFor i2 y2 ≤ 0)
    (himp : ∀ m k : ℕ,
      mpTest i1 (availFor i1 y1) (y1 * 10 * (2 * (k : ℚ) + 1) / 2 ^ (m + 1)) = true →
      mpTest i2 (availFor i2 y2) (y2 * 10 * (2 * (k : ℚ) + 1) / 2 ^ (m + 1)) = true) :
    calculateMaxHomePrice i1 ≤ calculateMaxHomePrice i2 := by
  rw [maxPrice_eq_round i1 y1 hI1 (not_le.2 hy1) hav1,
    maxPrice_eq_round i2 y2 hI2 (not_le.2 hy2) hav2]
  apply roundMono
  have hK : bisectIdxFrom (mpTest i1 (availFor i1 y1)) (y1 * 10) 0 0 50
      ≤ bisectIdxFrom (mpTest i2 (availFor i2 y2)) (y2 * 10) 0 0 50 :=
    bisectIdxFrom_mono _ _ _ _ himp 50 0 0 0 le_rfl
  have hKq : ((bisectIdxFrom (mpTest i1 (availFor i1 y1)) (y1 * 10) 0 0 50 : ℕ) : ℚ)
      ≤ ((bisectIdxFrom (mpTest i2 (availFor i2 y2)) (y2 * 10) 0 0 50 : ℕ) : ℚ) := by
    exact_mod_cast hK
  apply (div_le_div_iff_of_pos_right (by positivity : (0 : ℚ) < 2 ^ 51)).2
  exact mul_le_mul (by nlinarith) (by nlinarith) (by positivity) (by nlinarith)

/-- C2: `calculateMaxHomePrice` returns 0 when `annualIncome` is null or
non-positive and when the available housing budget
`(annualIncome / 12) * (frontDtiPct / 100) - monthlyDebts` is non-positive;
otherwise it runs exactly 50 bisection iterations on `[0, annualIncome * 10]`
with the test `calculateFullMonthlyPayment(mid).total < availableForHousing`
and returns the final midpoint rounded to the nearest integer dollar, so the
result is a terminating, non-negative integer at most
`round(annualIncome * 10)`. -/
theorem C2_maxHomePrice_solver (inputs : AffordabilityInputs) :
    (inputs.annualIncome = none → calculateMaxHomePrice inputs = 0) ∧
    (∀ y : ℚ, inputs.annualIncome = some y → y ≤ 0 → calculateMaxHomePrice inputs = 0) ∧
    (∀ y : ℚ, inputs.annualIncome = some y → 0 < y → availFor inputs y ≤ 0 →
      calculateMaxHomePrice inputs = 0) ∧
    (∀ y : ℚ, inputs.annualIncome = some y → 0 < y → 0 < availFor inputs y →
      calculateMaxHomePrice inputs
          = round (((bisectLoop (mpTest inputs (availFor inputs y)) 50 (0, y * 10)).1
              + (bisectLoop (mpTest inputs (availFor inputs y)) 50 (0, y * 10)).2) / 2) ∧
        0 ≤ calculateMaxHomePrice inputs ∧
        calculateMaxHomePrice inputs ≤ round (y * 10)) := by
  refine ⟨maxPrice_of_none inputs, fun y hI hy => maxPrice_of_nonpos inputs y hI hy,
    fun y hI hy hav => maxPrice_of_avail_nonpos inputs y hI (not_le.2 hy) hav,
    fun y hI hy hav => ⟨?_, maxPrice_nonneg inputs,
      maxPrice_le_bound inputs y hI (not_le.2 hy) (not_le.2 hav)⟩⟩
  unfold calculateMaxHomePrice
  rw [hI]
  dsimp only
  rw [if_neg (not_le.2 hy), if_neg (by simpa [availFor] using not_le.2 hav)]
  rfl

/-- Witness inputs for C2: default profile with income 48000 and zero rate,
tax, and insurance. -/
def c2WitnessInputs : AffordabilityInputs :=
  { defaultInputs with
      annualIncome := some 48000
      interestRate := 0
      propertyTaxRate := 0
      annualInsurance := 0 }

theorem C2_maxHomePrice_solver_witness :
    0 < (48000 : ℚ) ∧ 0 < availFor c2WitnessInputs 48000 ∧
    0 ≤ calculateMaxHomePrice c2WitnessInputs ∧
    calculateMaxHomePrice c2WitnessInputs ≤ round ((48000 : ℚ) * 10) := by
  obtain ⟨-, -, -, h4⟩ := C2_maxHomePrice_solver c2WitnessInputs
  have hy : (0 : ℚ) < 48000 := by norm_num
  have hav : 0 < availFor c2WitnessInputs 48000 := by
    norm_num [availFor, c2WitnessInputs, defaultInputs]
  obtain ⟨-, h2, h3⟩ := h4 48000 rfl hy hav
  exact ⟨hy, hav, h2, h3⟩

/-! ### Monotonicity of `calculateMaxHomePrice` (claim C4) -/

lemma fullPayment_update_income (p : ℚ) (i : AffordabilityInputs) (v : Option ℚ) :
    calculateFullMonthlyPayment p { i with annualIncome := v }
      = calculateFullMonthlyPayment p i := rfl

lemma fullPayment_update_front (p : ℚ) (i : AffordabilityInputs) (f : ℚ) :
    calculateFullMonthlyPayment p { i with frontDtiPct := f }
      = calculateFullMonthlyPayment p i := rfl

lemma fullPayment_update_debts (p : ℚ) (i : AffordabilityInputs) (d : ℚ) :
    calculateFullMonthlyPayment p { i with monthlyDebts := d }
      = calculateFullMonthlyPayment p i := rfl

lemma availFor_update_income (i : AffordabilityInputs) (v : Option ℚ) (y : ℚ) :
    availFor { i with annualIncome := v } y = availFor i y := rfl

lemma availFor_update_down (i : AffordabilityInputs) (d y : ℚ) :
    availFor { i with downPaymentPct := d } y = availFor i y := rfl

lemma availFor_update_debts (i : AffordabilityInputs) (d y : ℚ) :
    availFor { i with monthlyDebts := d } y = y / 12 * (i.frontDtiPct / 100) - d := rfl

lemma availFor_update_front (i : AffordabilityInputs) (f y : ℚ) :
    availFor { i with frontDtiPct := f } y = y / 12 * (f / 100) - i.monthlyDebts := rfl

lemma maxPrice_anti_debts (i : AffordabilityInputs) (D1 D2 : ℚ) (hD : D1 ≤ D2) :
    calculateMaxHomePrice { i with monthlyDebts := D2 }
      ≤ calculateMaxHomePrice { i with monthlyDebts := D1 } := by
  by_cases hN : i.annualIncome = none
  · rw [maxPrice_of_none { i with monthlyDebts := D2 } hN,
      maxPrice_of_none { i with monthlyDebts := D1 } hN]
  · obtain ⟨y, hI⟩ := Option.ne_none_iff_exists'.1 hN
    by_cases hy : y ≤ 0
    · rw [maxPrice_of_nonpos { i with monthlyDebts := D2 } y hI hy,
        maxPrice_of_nonpos { i with monthlyDebts := D1 } y hI hy]
    · have hy0 : 0 < y := not_le.1 hy
      have havLe : availFor { i with monthlyDebts := D2 } y
          ≤ availFor { i with monthlyDebts := D1 } y := by
        rw [availFor_update_debts, availFor_update_debts]
        linarith
      by_cases hav1 : availFor { i with monthlyDebts := D1 } y ≤ 0
      · rw [maxPrice_of_avail_nonpos { i with monthlyDebts := D1 } y hI hy hav1,
          maxPrice_of_avail_nonpos { i with monthlyDebts := D2 } y hI hy
            (le_trans havLe hav1)]
      · by_cases hav2 : availFor { i with monthlyDebts := D2 } y ≤ 0
        · rw [maxPrice_of_avail_nonpos { i with monthlyDebts := D2 } y hI hy hav2]
          exact maxPrice_nonneg _
        · apply maxPrice_le_maxPrice { i with monthlyDebts := D2 }
            { i with monthlyDebts := D1 } y y hI hI hy0 hy0 le_rfl hav2 hav1
          intro m k hmk
          rw [mpTest, decide_eq_true_eq] at hmk ⊢
          rw [fullPayment_update_debts] at hmk ⊢
          exact lt_of_lt_of_le hmk havLe

lemma maxPrice_mono_front (i : AffordabilityInputs) (f1 f2 : ℚ) (hf : f1 ≤ f2) :
    calculateMaxHomePrice { i with frontDtiPct := f1 }
      ≤ calculateMaxHomePrice { i with frontDtiPct := f2 } := by
  by_cases hN : i.annualIncome = none
  · rw [maxPrice_of_none { i with frontDtiPct := f1 } hN,
      maxPrice_of_none { i with frontDtiPct := f2 } hN]
  · obtain ⟨y, hI⟩ := Option.ne_none_iff_exists'.1 hN
    by_cases hy : y ≤ 0
    · rw [maxPrice_of_nonpos { i with frontDtiPct := f1 } y hI hy,
        maxPrice_of_nonpos { i with frontDtiPct := f2 } y hI hy]
    · have hy0 : 0 < y := not_le.1 hy
      have havLe : availFor { i with frontDtiPct := f1 } y
          ≤ availFor { i with frontDtiPct := f2 } y := by
        rw [availFor_update_front, availFor_update_front]
        nlinarith [mul_nonneg (le_of_lt hy0) (sub_nonneg.2 hf)]
      by_cases hav1 : availFor { i with frontDtiPct := f1 } y ≤ 0
      · rw [maxPrice_of_avail_nonpos { i with frontDtiPct := f1 } y hI hy hav1]
        exact maxPrice_nonneg _
      · have hav2 : ¬ availFor { i with frontDtiPct := f2 } y ≤ 0 :=
          fun h => hav1 (le_trans havLe h)
        apply maxPrice_le_maxPrice { i with frontDtiPct := f1 }
          { i with frontDtiPct := f2 } y y hI hI hy0 hy0 le_rfl hav1 hav2
        intro m k hmk
        rw [mpTest, decide_eq_true_eq] at hmk ⊢
        rw [fullPayment_update_front] at hmk ⊢
        exact lt_of_lt_of_le hmk havLe

lemma maxPrice_mono_down (i : AffordabilityInputs) (d1 d2 : ℚ) (hd : d1 ≤ d2) :
    calculateMaxHomePrice { i with downPaymentPct := d1 }
      ≤ calculateMaxHomePrice { i with downPaymentPct := d2 } := by
  by_cases hN : i.annualIncome = none
  · rw [maxPrice_of_none { i with downPaymentPct := d1 } hN,
      maxPrice_of_none { i with downPaymentPct := d2 } hN]
  · obtain ⟨y, hI⟩ := Option.ne_none_iff_exists'.1 hN
    by_cases hy : y ≤ 0
    · rw [maxPrice_of_nonpos { i with downPaymentPct := d1 } y hI hy,
        maxPrice_of_nonpos { i with downPaymentPct := d2 } y hI hy]
    · have hy0 : 0 < y := not_le.1 hy
      by_cases hav : availFor i y ≤ 0
      · rw [maxPrice_of_avail_nonpos { i with downPaymentPct := d1 } y hI hy
            (by rwa [availFor_update_down]),
          maxPrice_of_avail_nonpos { i with downPaymentPct := d2 } y hI hy
            (by rwa [availFor_update_down])]
      · apply maxPrice_le_maxPrice { i with downPaymentPct := d1 }
          { i with downPaymentPct := d2 } y y hI hI hy0 hy0 le_rfl
          (by rwa [availFor_update_down]) (by rwa [availFor_update_down])
        intro m k hmk
        rw [mpTest, decide_eq_true_eq] at hmk ⊢
        rw [availFor_update_down] at hmk ⊢
        have hp : (0 : ℚ) ≤ y * 10 * (2 * (k : ℚ) + 1) / 2 ^ (m + 1) := by
          apply div_nonneg _ (by positivity)
          apply mul_nonneg (by linarith) (by positivity)
        exact lt_of_le_of_lt (fullPayment_total_anti_down i hd hp) hmk

lemma maxPrice_mono_income (i : AffordabilityInputs) (y1 y2 : ℚ)
    (hdeb : 0 ≤ i.monthlyDebts) (hins : 0 ≤ i.annualInsurance) (hhoa : 0 ≤ i.hoaMonthly)
    (hfront : 0 ≤ i.frontDtiPct) (hdp : i.downPaymentPct ≤ 100) (hy : y1 ≤ y2) :
    calculateMaxHomePrice { i with annualIncome := some y1 }
      ≤ calculateMaxHomePrice { i with annualIncome := some y2 } := by
  by_cases hy1 : y1 ≤ 0
  · rw [maxPrice_of_nonpos { i with annualIncome := some y1 } y1 rfl hy1]
    exact maxPrice_nonneg _
  · have hy1p : 0 < y1 := not_le.1 hy1
    have hy2p : 0 < y2 := lt_of_lt_of_le hy1p hy
    have havLe : availFor i y1 ≤ availFor i y2 := by
      unfold availFor
      nlinarith [mul_nonneg (sub_nonneg.2 hy) hfront]
    by_cases hav1 : availFor i y1 ≤ 0
    · rw [maxPrice_of_avail_nonpos { i with annualIncome := some y1 } y1 rfl hy1
        (by rwa [availFor_update_income])]
      exact maxPrice_nonneg _
    · have hav2 : ¬ availFor i y2 ≤ 0 := fun h => hav1 (le_trans havLe h)
      apply maxPrice_le_maxPrice { i with annualIncome := some y1 }
        { i with annualIncome := some y2 } y1 y2 rfl rfl hy1p hy2p hy
        (by rwa [availFor_update_income]) (by rwa [availFor_update_income])
      intro m k hmk
      rw [mpTest, decide_eq_true_eq] at hmk ⊢
      rw [fullPayment_update_income, availFor_update_income] at hmk ⊢
      have hq0 : (0 : ℚ) < (2 * (k : ℚ) + 1) / 2 ^ (m + 1) := by positivity
      have hg1 : y1 * 10 * (2 * (k : ℚ) + 1) / 2 ^ (m + 1)
          = y1 * 10 * ((2 * (k : ℚ) + 1) / 2 ^ (m + 1)) := by ring
      have hg2 : y2 * 10 * (2 * (k : ℚ) + 1) / 2 ^ (m + 1)
          = y2 * 10 * ((2 * (k : ℚ) + 1) / 2 ^ (m + 1)) := by ring
      rw [hg1] at hmk
      rw [hg2]
      have hp1 : (0 : ℚ) ≤ y1 * 10 * ((2 * (k : ℚ) + 1) / 2 ^ (m + 1)) := by
        apply le_of_lt
        exact mul_pos (by linarith) hq0
      have hp2 : (0 : ℚ) ≤ y2 * 10 * ((2 * (k : ℚ) + 1) / 2 ^ (m + 1)) := by
        apply le_of_lt
        exact mul_pos (by linarith) hq0
      rw [fullPayment_total_linear i _ hp1 hdp] at hmk
      rw [fullPayment_total_linear i _ hp2 hdp]
      have hE : 0 ≤ i.monthlyDebts + fixedPart i := by
        have hq : 0 ≤ i.annualInsurance / 12 := by linarith
        unfold fixedPart
        linarith
      have key : (availFor i y1 - fixedPart i) * (y2 * 10)
          ≤ (availFor i y2 - fixedPart i) * (y1 * 10) := by
        unfold availFor
        nlinarith [mul_nonneg hE (sub_nonneg.2 hy)]
      have h1 : priceCoeff i * (y1 * 10 * ((2 * (k : ℚ) + 1) / 2 ^ (m + 1)))
          < availFor i y1 - fixedPart i := by linarith
      have h2 : priceCoeff i * (y1 * 10 * ((2 * (k : ℚ) + 1) / 2 ^ (m + 1))) * (y2 * 10)
          < (availFor i y1 - fixedPart i) * (y2 * 10) :=
        mul_lt_mul_of_pos_right h1 (by linarith)
      have h3 : priceCoeff i * (y2 * 10 * ((2 * (k : ℚ) + 1) / 2 ^ (m + 1))) * (y1 * 10)
          = priceCoeff i * (y1 * 10 * ((2 * (k : ℚ) + 1) / 2 ^ (m + 1))) * (y2 * 10) := by
        ring
      have h4 : priceCoeff i * (y2 * 10 * ((2 * (k : ℚ) + 1) / 2 ^ (m + 1))) * (y1 * 10)
          < (availFor i y2 - fixedPart i) * (y1 * 10) := by
        rw [h3]
        exact lt_of_lt_of_le h2 key
      have h5 : priceCoeff i * (y2 * 10 * ((2 * (k : ℚ) + 1) / 2 ^ (m + 1)))
          < availFor i y2 - fixedPart i :=
        lt_of_mul_lt_mul_right h4 (by linarith)
      linarith

/-- Inputs on which `calculateMaxHomePrice` is not monotone in `annualIncome`:
a zero interest rate, 20% down, no taxes or insurance, a zero front-end DTI
percentage and a negative `monthlyDebts`, with income tuned so that the final
bisection grid points fall on opposite sides of the fixed budget threshold. -/
def c4CexInputs : AffordabilityInputs where
  annualIncome := some (900001 * 2 ^ 47 / 2501)
  downPaymentPct := 20
  interestRate := 0
  loanTermYears := 30
  propertyTaxRate := 0
  annualInsurance := 0
  monthlyDebts := -(1000 + 1 / 900)
  hoaMonthly := 0
  frontDtiPct := 0
  backDtiPct := 36
  monthlySpending := 0
  includeSpending := false
  manualMaxPrice := none
  useManualMaxPrice := false

/-- The same inputs with a strictly larger annual income. -/
def c4CexInputsHigher : AffordabilityInputs :=
  { c4CexInputs with annualIncome := some (900001 * 2 ^ 47 / 2499) }

/-- One unfolding step of `bisectIdxFrom`. -/
lemma bisectIdxFrom_succ (test : ℚ → Bool) (H : ℚ) (m k n : ℕ) :
    bisectIdxFrom test H m k (n + 1)
      = bisectIdxFrom test H (m + 1)
          (if test (H * (2 * (k : ℚ) + 1) / 2 ^ (m + 1)) then 2 * k + 1 else 2 * k) n := rfl

/-- The lower counterexample income. -/
def c4y1 : ℚ := 900001 * 2 ^ 47 / 2501

/-- The higher counterexample income. -/
def c4y2 : ℚ := 900001 * 2 ^ 47 / 2499

/-- The bisection test of `calculateMaxHomePrice` at the lower income. -/
def c4T1 : ℚ → Bool := mpTest c4CexInputs (availFor c4CexInputs c4y1)

/-- The search-interval upper end at the lower income. -/
def c4H1 : ℚ := c4y1 * 10

/-- The bisection test of `calculateMaxHomePrice` at the higher income. -/
def c4T2 : ℚ → Bool := mpTest c4CexInputsHigher (availFor c4CexInputsHigher c4y2)

/-- The search-interval upper end at the higher income. -/
def c4H2 : ℚ := c4y2 * 10

lemma c4a0 : bisectIdxFrom c4T1 c4H1 0 0 50 = bisectIdxFrom c4T1 c4H1 1 0 49 := by
  have hc : c4T1 (c4H1 * (2 * ((0 : ℕ) : ℚ) + 1) / 2 ^ (0 + 1)) = false := by
    norm_num [c4T1, mpTest, calculateFullMonthlyPayment, calculateMonthlyPayment,
        c4CexInputs, availFor, c4H1, c4y1, PMI_RATE]
  have hc2 : ¬ (c4T1 (c4H1 * (2 * ((0 : ℕ) : ℚ) + 1) / 2 ^ (0 + 1)) = true) := by
    rw [hc]; exact Bool.false_ne_true
  show bisectIdxFrom c4T1 c4H1 0 0 (49 + 1) = _
  rw [bisectIdxFrom_succ c4T1 c4H1 0 0 49, if_neg hc2]

lemma c4a1 : bisectIdxFrom c4T1 c4H1 1 0 49 = bisectIdxFrom c4T1 c4H1 2 0 48 := by
  have hc : c4T1 (c4H1 * (2 * ((0 : ℕ) : ℚ) + 1) / 2 ^ (1 + 1)) = false := by
    norm_num [c4T1, mpTest, calculateFullMonthlyPayment, calculateMonthlyPayment,
        c4CexInputs, availFor, c4H1, c4y1, PMI_RATE]
  have hc2 : ¬ (c4T1 (c4H1 * (2 * ((0 : ℕ) : ℚ) + 1) / 2 ^ (1 + 1)) = true) := by
    rw [hc]; exact Bool.false_ne_true
  show bisectIdxFrom c4T1 c4H1 1 0 (48 + 1) = _
  rw [bisectIdxFrom_succ c4T1 c4H1 1 0 48, if_neg hc2]

lemma c4a2 : bisectIdxFrom c4T1 c4H1 2 0 48 = bisectIdxFrom c4T1 c4H1 3 0 47 := by
  have hc : c4T1 (c4H1 * (2 * ((0 : ℕ) : ℚ) + 1) / 2 ^ (2 + 1)) = false := by
    norm_num [c4T1, mpTest, calculateFullMonthlyPayment, calculateMonthlyPayment,
        c4CexInputs, availFor, c4H1, c4y1, PMI_RATE]
  have hc2 : ¬ (c4T1 (c4H1 * (2 * ((0 : ℕ) : ℚ) + 1) / 2 ^ (2 + 1)) = true) := by
    rw [hc]; exact Bool.false_ne_true
  show bisectIdxFrom c4T1 c4H1 2 0 (47 + 1) = _
  rw [bisectIdxFrom_succ c4T1 c4H1 2 0 47, if_neg hc2]

lemma c4a3 : bisectIdxFrom c4T1 c4H1 3 0 47 = bisectIdxFrom c4T1 c4H1 4 0 46 := by
  have hc : c4T1 (c4H1 * (2 * ((0 : ℕ) : ℚ) + 1) / 2 ^ (3 + 1)) = false := by
    norm_num [c4T1, mpTest, calculateFullMonthlyPayment, calculateMonthlyPayment,
        c4CexInputs, availFor, c4H1, c4y1, PMI_RATE]
  have hc2 : ¬ (c4T1 (c4H1 * (2 * ((0 : ℕ) : ℚ) + 1) / 2 ^ (3 + 1)) = true) := by
    rw [hc]; exact Bool.false_ne_true
  show bisectIdxFrom c4T1 c4H1 3 0 (46 + 1) = _
  rw [bisectIdxFrom_succ c4T1 c4H1 3 0 46, if_neg hc2]

lemma c4a4 : bisectIdxFrom c4T1 c4H1 4 0 46 = bisectIdxFrom c4T1 c4H1 5 0 45 := by
  have hc : c4T1 (c4H1 * (2 * ((0 : ℕ) : ℚ) + 1) / 2 ^ (4 + 1)) = false := by
    norm_num [c4T1, mpTest, calculateFullMonthlyPayment, calculateMonthlyPayment,
        c4CexInputs, availFor, c4H1, c4y1, PMI_RATE]
  have hc2 : ¬ (c4T1 (c4H1 * (2 * ((0 : ℕ) : ℚ) + 1) / 2 ^ (4 + 1)) = true) := by
    rw [hc]; exact Bool.false_ne_true
  show bisectIdxFrom c4T1 c4H1 4 0 (45 + 1) = _
  rw [bisectIdxFrom_succ c4T1 c4H1 4 0 45, if_neg hc2]

lemma c4a5 : bisectIdxFrom c4T1 c4H1 5 0 45 = bisectIdxFrom c4T1 c4H1 6 0 44 := by
  have hc : c4T1 (c4H1 * (2 * ((0 : ℕ) : ℚ) + 1) / 2 ^ (5 + 1)) = false := by
    norm_num [c4T1, mpTest, calculateFullMonthlyPayment, calculateMonthlyPayment,
        c4CexInputs, availFor, c4H1, c4y1, PMI_RATE]
  have hc2 : ¬ (c4T1 (c4H1 * (2 * ((0 : ℕ) : ℚ) + 1) / 2 ^ (5 + 1)) = true) := by
    rw [hc]; exact Bool.false_ne_true
  show bisectIdxFrom c4T1 c4H1 5 0 (44 + 1) = _
  rw [bisectIdxFrom_succ c4T1 c4H1 5 0 44, if_neg hc2]

lemma c4a6 : bisectIdxFrom c4T1 c4H1 6 0 44 = bisectIdxFrom c4T1 c4H1 7 0 43 := by
  have hc : c4T1 (c4H1 * (2 * ((0 : ℕ) : ℚ) + 1) / 2 ^ (6 + 1)) = false := by
    norm_num [c4T1, mpTest, calculateFullMonthlyPayment, calculateMonthlyPayment,
        c4CexInputs, availFor, c4H1, c4y1, PMI_RATE]
  have hc2 : ¬ (c4T1 (c4H1 * (2 * ((0 : ℕ) : ℚ) + 1) / 2 ^ (6 + 1)) = true) := by
    rw [hc]; exact Bool.false_ne_true
  show bisectIdxFrom c4T1 c4H1 6 0 (43 + 1) = _
  rw [bisectIdxFrom_succ c4T1 c4H1 6 0 43, if_neg hc2]

lemma c4a7 : bisectIdxFrom c4T1 c4H1 7 0 43 = bisectIdxFrom c4T1 c4H1 8 0 42 := by
  have hc : c4T1 (c4H1 * (2 * ((0 : ℕ) : ℚ) + 1) / 2 ^ (7 + 1)) = false := by
    norm_num [c4T1, mpTest, calculateFullMonthlyPayment, calculateMonthlyPayment,
        c4CexInputs, availFor, c4H1, c4y1, PMI_RATE]
  have hc2 : ¬ (c4T1 (c4H1 * (2 * ((0 : ℕ) : ℚ) + 1) / 2 ^ (7 + 1)) = true) := by
    rw [hc]; exact Bool.false_ne_true
  show bisectIdxFrom c4T1 c4H1 7 0 (42 + 1) = _
  rw [bisectIdxFrom_succ c4T1 c4H1 7 0 42, if_neg hc2]

lemma c4a8 : bisectIdxFrom c4T1 c4H1 8 0 42 = bisectIdxFrom c4T1 c4H1 9 0 41 := by
  have hc : c4T1 (c4H1 * (2 * ((0 : ℕ) : ℚ) + 1) / 2 ^ (8 + 1)) = false := by
    norm_num [c4T1, mpTest, calculateFullMonthlyPayment, calculateMonthlyPayment,
        c4CexInputs, availFor, c4H1, c4y1, PMI_RATE]
  have hc2 : ¬ (c4T1 (c4H1 * (2 * ((0 : ℕ) : ℚ) + 1) / 2 ^ (8 + 1)) = true) := by
    rw [hc]; exact Bool.false_ne_true
  show bisectIdxFrom c4T1 c4H1 8 0 (41 + 1) = _
  rw [bisectIdxFrom_succ c4T1 c4H1 8 0 41, if_neg hc2]

lemma c4a9 : bisectIdxFrom c4T1 c4H1 9 0 41 = bisectIdxFrom c4T1 c4H1 10 0 40 := by
  have hc : c4T1 (c4H1 * (2 * ((0 : ℕ) : ℚ) + 1) / 2 ^ (9 + 1)) = false := by
    norm_num [c4T1, mpTest, calculateFullMonthlyPayment, calculateMonthlyPayment,
        c4CexInputs, availFor, c4H1, c4y1, PMI_RATE]
  have hc2 : ¬ (c4T1 (c4H1 * (2 * ((0 : ℕ) : ℚ) + 1) / 2 ^ (9 + 1)) = true) := by
    rw [hc]; exact Bool.false_ne_true
  show bisectIdxFrom c4T1 c4H1 9 0 (40 + 1) = _
  rw [bisectIdxFrom_succ c4T1 c4H1 9 0 40, if_neg hc2]

lemma c4a10 : bisectIdxFrom c4T1 c4H1 10 0 40 = bisectIdxFrom c4T1 c4H1 11 0 39 := by
  have hc : c4T1 (c4H1 * (2 * ((0 : ℕ) : ℚ) + 1) / 2 ^ (10 + 1)) = false := by
    norm_num [c4T1, mpTest, calculateFullMonthlyPayment, calculateMonthlyPayment,
        c4CexInputs, availFor, c4H1, c4y1, PMI_RATE]
  have hc2 : ¬ (c4T1 (c4H1 * (2 * ((0 : ℕ) : ℚ) + 1) / 2 ^ (10 + 1)) = true) := by
    rw [hc]; exact Bool.false_ne_true
  show bisectIdxFrom c4T1 c4H1 10 0 (39 + 1) = _
  rw [bisectIdxFrom_succ c4T1 c4H1 10 0 39, if_neg hc2]

lemma c4a11 : bisectIdxFrom c4T1 c4H1 11 0 39 = bisectIdxFrom c4T1 c4H1 12 0 38 := by
  have hc : c4T1 (c4H1 * (2 * ((0 : ℕ) : ℚ) + 1) / 2 ^ (11 + 1)) = false := by
    norm_num [c4T1, mpTest, calculateFullMonthlyPayment, calculateMonthlyPayment,
        c4CexInputs, availFor, c4H1, c4y1, PMI_RATE]
  have hc2 : ¬ (c4T1 (c4H1 * (2 * ((0 : ℕ) : ℚ) + 1) / 2 ^ (11 + 1)) = true) := by
    rw [hc]; exact Bool.false_ne_true
  show bisectIdxFrom c4T1 c4H1 11 0 (38 + 1) = _
  rw [bisectIdxFrom_succ c4T1 c4H1 11 0 38, if_neg hc2]

lemma c4a12 : bisectIdxFrom c4T1 c4H1 12 0 38 = bisectIdxFrom c4T1 c4H1 13 0 37 := by
  have hc : c4T1 (c4H1 * (2 * ((0 : ℕ) : ℚ) + 1) / 2 ^ (12 + 1)) = false := by
    norm_num [c4T1, mpTest, calculateFullMonthlyPayment, calculateMonthlyPayment,
        c4CexInputs, availFor, c4H1, c4y1, PMI_RATE]
  have hc2 : ¬ (c4T1 (c4H1 * (2 * ((0 : ℕ) : ℚ) + 1) / 2 ^ (12 + 1)) = true) := by
    rw [hc]; exact Bool.false_ne_true
  show bisectIdxFrom c4T1 c4H1 12 0 (37 + 1) = _
  rw [bisectIdxFrom_succ c4T1 c4H1 12 0 37, if_neg hc2]

lemma c4a13 : bisectIdxFrom c4T1 c4H1 13 0 37 = bisectIdxFrom c4T1 c4H1 14 0 36 := by
  have hc : c4T1 (c4H1 * (2 * ((0 : ℕ) : ℚ) + 1) / 2 ^ (13 + 1)) = false := by
    norm_num [c4T1, mpTest, calculateFullMonthlyPayment, calculateMonthlyPayment,
        c4CexInputs, availFor, c4H1, c4y1, PMI_RATE]
  have hc2 : ¬ (c4T1 (c4H1 * (2 * ((0 : ℕ) : ℚ) + 1) / 2 ^ (13 + 1)) = true) := by
    rw [hc]; exact Bool.false_ne_true
  show bisectIdxFrom c4T1 c4H1 13 0 (36 + 1) = _
  rw [bisectIdxFrom_succ c4T1 c4H1 13 0 36, if_neg hc2]

lemma c4a14 : bisectIdxFrom c4T1 c4H1 14 0 36 = bisectIdxFrom c4T1 c4H1 15 0 35 := by
  have hc : c4T1 (c4H1 * (2 * ((0 : ℕ) : ℚ) + 1) / 2 ^ (14 + 1)) = false := by
    norm_num [c4T1, mpTest, calculateFullMonthlyPayment, calculateMonthlyPayment,
        c4CexInputs, availFor, c4H1, c4y1, PMI_RATE]
  have hc2 : ¬ (c4T1 (c4H1 * (2 * ((0 : ℕ) : ℚ) + 1) / 2 ^ (14 + 1)) = true) := by
    rw [hc]; exact Bool.false_ne_true
  show bisectIdxFrom c4T1 c4H1 14 0 (35 + 1) = _
  rw [bisectIdxFrom_succ c4T1 c4H1 14 0 35, if_neg hc2]

lemma c4a15 : bisectIdxFrom c4T1 c4H1 15 0 35 = bisectIdxFrom c4T1 c4H1 16 0 34 := by
  have hc : c4T1 (c4H1 * (2 * ((0 : ℕ) : ℚ) + 1) / 2 ^ (15 + 1)) = false := by
    norm_num [c4T1, mpTest, calculateFullMonthlyPayment, calculateMonthlyPayment,
        c4CexInputs, availFor, c4H1, c4y1, PMI_RATE]
  have hc2 : ¬ (c4T1 (c4H1 * (2 * ((0 : ℕ) : ℚ) + 1) / 2 ^ (15 + 1)) = true) := by
    rw [hc]; exact Bool.false_ne_true
  show bisectIdxFrom c4T1 c4H1 15 0 (34 + 1) = _
  rw [bisectIdxFrom_succ c4T1 c4H1 15 0 34, if_neg hc2]

lemma c4a16 : bisectIdxFrom c4T1 c4H1 16 0 34 = bisectIdxFrom c4T1 c4H1 17 0 33 := by
  have hc : c4T1 (c4H1 * (2 * ((0 : ℕ) : ℚ) + 1) / 2 ^ (16 + 1)) = false := by
    norm_num [c4T1, mpTest, calculateFullMonthlyPayment, calculateMonthlyPayment,
        c4CexInputs, availFor, c4H1, c4y1, PMI_RATE]
  have hc2 : ¬ (c4T1 (c4H1 * (2 * ((0 : ℕ) : ℚ) + 1) / 2 ^ (16 + 1)) = true) := by
    rw [hc]; exact Bool.false_ne_true
  show bisectIdxFrom c4T1 c4H1 16 0 (33 + 1) = _
  rw [bisectIdxFrom_succ c4T1 c4H1 16 0 33, if_neg hc2]

lemma c4a17 : bisectIdxFrom c4T1 c4H1 17 0 33 = bisectIdxFrom c4T1 c4H1 18 0 32 := by
  have hc : c4T1 (c4H1 * (2 * ((0 : ℕ) : ℚ) + 1) / 2 ^ (17 + 1)) = false := by
    norm_num [c4T1, mpTest, calculateFullMonthlyPayment, calculateMonthlyPayment,
        c4CexInputs, availFor, c4H1, c4y1, PMI_RATE]
  have hc2 : ¬ (c4T1 (c4H1 * (2 * ((0 : ℕ) : ℚ) + 1) / 2 ^ (17 + 1)) = true) := by
    rw [hc]; exact Bool.false_ne_true
  show bisectIdxFrom c4T1 c4H1 17 0 (32 + 1) = _
  rw [bisectIdxFrom_succ c4T1 c4H1 17 0 32, if_neg hc2]

lemma c4a18 : bisectIdxFrom c4T1 c4H1 18 0 32 = bisectIdxFrom c4T1 c4H1 19 0 31 := by
  have hc : c4T1 (c4H1 * (2 * ((0 : ℕ) : ℚ) + 1) / 2 ^ (18 + 1)) = false := by
    norm_num [c4T1, mpTest, calculateFullMonthlyPayment, calculateMonthlyPayment,
        c4CexInputs, availFor, c4H1, c4y1, PMI_RATE]
  have hc2 : ¬ (c4T1 (c4H1 * (2 * ((0 : ℕ) : ℚ) + 1) / 2 ^ (18 + 1)) = true) := by
    rw [hc]; exact Bool.false_ne_true
  show bisectIdxFrom c4T1 c4H1 18 0 (31 + 1) = _
  rw [bisectIdxFrom_succ c4T1 c4H1 18 0 31, if_neg hc2]

lemma c4a19 : bisectIdxFrom c4T1 c4H1 19 0 31 = bisectIdxFrom c4T1 c4H1 20 0 30 := by
  have hc : c4T1 (c4H1 * (2 * ((0 : ℕ) : ℚ) + 1) / 2 ^ (19 + 1)) = false := by
    norm_num [c4T1, mpTest, calculateFullMonthlyPayment, calculateMonthlyPayment,
        c4CexInputs, availFor, c4H1, c4y1, PMI_RATE]
  have hc2 : ¬ (c4T1 (c4H1 * (2 * ((0 : ℕ) : ℚ) + 1) / 2 ^ (19 + 1)) = true) := by
    rw [hc]; exact Bool.false_ne_true
  show bisectIdxFrom c4T1 c4H1 19 0 (30 + 1) = _
  rw [bisectIdxFrom_succ c4T1 c4H1 19 0 30, if_neg hc2]

lemma c4a20 : bisectIdxFrom c4T1 c4H1 20 0 30 = bisectIdxFrom c4T1 c4H1 21 0 29 := by
  have hc : c4T1 (c4H1 * (2 * ((0 : ℕ) : ℚ) + 1) / 2 ^ (20 + 1)) = false := by
    norm_num [c4T1, mpTest, calculateFullMonthlyPayment, calculateMonthlyPayment,
        c4CexInputs, availFor, c4H1, c4y1, PMI_RATE]
  have hc2 : ¬ (c4T1 (c4H1 * (2 * ((0 : ℕ) : ℚ) + 1) / 2 ^ (20 + 1)) = true) := by
    rw [hc]; exact Bool.false_ne_true
  show bisectIdxFrom c4T1 c4H1 20 0 (29 + 1) = _
  rw [bisectIdxFrom_succ c4T1 c4H1 20 0 29, if_neg hc2]

lemma c4a21 : bisectIdxFrom c4T1 c4H1 21 0 29 = bisectIdxFrom c4T1 c4H1 22 0 28 := by
  have hc : c4T1 (c4H1 * (2 * ((0 : ℕ) : ℚ) + 1) / 2 ^ (21 + 1)) = false := by
    norm_num [c4T1, mpTest, calculateFullMonthlyPayment, calculateMonthlyPayment,
        c4CexInputs, availFor, c4H1, c4y1, PMI_RATE]
  have hc2 : ¬ (c4T1 (c4H1 * (2 * ((0 : ℕ) : ℚ) + 1) / 2 ^ (21 + 1)) = true) := by
    rw [hc]; exact Bool.false_ne_true
  show bisectIdxFrom c4T1 c4H1 21 0 (28 + 1) = _
  rw [bisectIdxFrom_succ c4T1 c4H1 21 0 28, if_neg hc2]

lemma c4a22 : bisectIdxFrom c4T1 c4H1 22 0 28 = bisectIdxFrom c4T1 c4H1 23 0 27 := by
  have hc : c4T1 (c4H1 * (2 * ((0 : ℕ) : ℚ) + 1) / 2 ^ (22 + 1)) = false := by
    norm_num [c4T1, mpTest, calculateFullMonthlyPayment, calculateMonthlyPayment,
        c4CexInputs, availFor, c4H1, c4y1, PMI_RATE]
  have hc2 : ¬ (c4T1 (c4H1 * (2 * ((0 : ℕ) : ℚ) + 1) / 2 ^ (22 + 1)) = true) := by
    rw [hc]; exact Bool.false_ne_true
  show bisectIdxFrom c4T1 c4H1 22 0 (27 + 1) = _
  rw [bisectIdxFrom_succ c4T1 c4H1 22 0 27, if_neg hc2]

lemma c4a23 : bisectIdxFrom c4T1 c4H1 23 0 27 = bisectIdxFrom c4T1 c4H1 24 0 26 := by
  have hc : c4T1 (c4H1 * (2 * ((0 : ℕ) : ℚ) + 1) / 2 ^ (23 + 1)) = false := by
    norm_num [c4T1, mpTest, calculateFullMonthlyPayment, calculateMonthlyPayment,
        c4CexInputs, availFor, c4H1, c4y1, PMI_RATE]
  have hc2 : ¬ (c4T1 (c4H1 * (2 * ((0 : ℕ) : ℚ) + 1) / 2 ^ (23 + 1)) = true) := by
    rw [hc]; exact Bool.false_ne_true
  show bisectIdxFrom c4T1 c4H1 23 0 (26 + 1) = _
  rw [bisectIdxFrom_succ c4T1 c4H1 23 0 26, if_neg hc2]

lemma c4a24 : bisectIdxFrom c4T1 c4H1 24 0 26 = bisectIdxFrom c4T1 c4H1 25 0 25 := by
  have hc : c4T1 (c4H1 * (2 * ((0 : ℕ) : ℚ) + 1) / 2 ^ (24 + 1)) = false := by
    norm_num [c4T1, mpTest, calculateFullMonthlyPayment, calculateMonthlyPayment,
        c4CexInputs, availFor, c4H1, c4y1, PMI_RATE]
  have hc2 : ¬ (c4T1 (c4H1 * (2 * ((0 : ℕ) : ℚ) + 1) / 2 ^ (24 + 1)) = true) := by
    rw [hc]; exact Bool.false_ne_true
  show bisectIdxFrom c4T1 c4H1 24 0 (25 + 1) = _
  rw [bisectIdxFrom_succ c4T1 c4H1 24 0 25, if_neg hc2]

lemma c4a25 : bisectIdxFrom c4T1 c4H1 25 0 25 = bisectIdxFrom c4T1 c4H1 26 0 24 := by
  have hc : c4T1 (c4H1 * (2 * ((0 : ℕ) : ℚ) + 1) / 2 ^ (25 + 1)) = false := by
    norm_num [c4T1, mpTest, calculateFullMonthlyPayment, calculateMonthlyPayment,
        c4CexInputs, availFor, c4H1, c4y1, PMI_RATE]
  have hc2 : ¬ (c4T1 (c4H1 * (2 * ((0 : ℕ) : ℚ) + 1) / 2 ^ (25 + 1)) = true) := by
    rw [hc]; exact Bool.false_ne_true
  show bisectIdxFrom c4T1 c4H1 25 0 (24 + 1) = _
  rw [bisectIdxFrom_succ c4T1 c4H1 25 0 24, if_neg hc2]

lemma c4a26 : bisectIdxFrom c4T1 c4H1 26 0 24 = bisectIdxFrom c4T1 c4H1 27 0 23 := by
  have hc : c4T1 (c4H1 * (2 * ((0 : ℕ) : ℚ) + 1) / 2 ^ (26 + 1)) = false := by
    norm_num [c4T1, mpTest, calculateFullMonthlyPayment, calculateMonthlyPayment,
        c4CexInputs, availFor, c4H1, c4y1, PMI_RATE]
  have hc2 : ¬ (c4T1 (c4H1 * (2 * ((0 : ℕ) : ℚ) + 1) / 2 ^ (26 + 1)) = true) := by
    rw [hc]; exact Bool.false_ne_true
  show bisectIdxFrom c4T1 c4H1 26 0 (23 + 1) = _
  rw [bisectIdxFrom_succ c4T1 c4H1 26 0 23, if_neg hc2]

lemma c4a27 : bisectIdxFrom c4T1 c4H1 27 0 23 = bisectIdxFrom c4T1 c4H1 28 0 22 := by
  have hc : c4T1 (c4H1 * (2 * ((0 : ℕ) : ℚ) + 1) / 2 ^ (27 + 1)) = false := by
    norm_num [c4T1, mpTest, calculateFullMonthlyPayment, calculateMonthlyPayment,
        c4CexInputs, availFor, c4H1, c4y1, PMI_RATE]
  have hc2 : ¬ (c4T1 (c4H1 * (2 * ((0 : ℕ) : ℚ) + 1) / 2 ^ (27 + 1)) = true) := by
    rw [hc]; exact Bool.false_ne_true
  show bisectIdxFrom c4T1 c4H1 27 0 (22 + 1) = _
  rw [bisectIdxFrom_succ c4T1 c4H1 27 0 22, if_neg hc2]

lemma c4a28 : bisectIdxFrom c4T1 c4H1 28 0 22 = bisectIdxFrom c4T1 c4H1 29 0 21 := by
  have hc : c4T1 (c4H1 * (2 * ((0 : ℕ) : ℚ) + 1) / 2 ^ (28 + 1)) = false := by
    norm_num [c4T1, mpTest, calculateFullMonthlyPayment, calculateMonthlyPayment,
        c4CexInputs, availFor, c4H1, c4y1, PMI_RATE]
  have hc2 : ¬ (c4T1 (c4H1 * (2 * ((0 : ℕ) : ℚ) + 1) / 2 ^ (28 + 1)) = true) := by
    rw [hc]; exact Bool.false_ne_true
  show bisectIdxFrom c4T1 c4H1 28 0 (21 + 1) = _
  rw [bisectIdxFrom_succ c4T1 c4H1 28 0 21, if_neg hc2]

lemma c4a29 : bisectIdxFrom c4T1 c4H1 29 0 21 = bisectIdxFrom c4T1 c4H1 30 0 20 := by
  have hc : c4T1 (c4H1 * (2 * ((0 : ℕ) : ℚ) + 1) / 2 ^ (29 + 1)) = false := by
    norm_num [c4T1, mpTest, calculateFullMonthlyPayment, calculateMonthlyPayment,
        c4CexInputs, availFor, c4H1, c4y1, PMI_RATE]
  have hc2 : ¬ (c4T1 (c4H1 * (2 * ((0 : ℕ) : ℚ) + 1) / 2 ^ (29 + 1)) = true) := by
    rw [hc]; exact Bool.false_ne_true
  show bisectIdxFrom c4T1 c4H1 29 0 (20 + 1) = _
  rw [bisectIdxFrom_succ c4T1 c4H1 29 0 20, if_neg hc2]

lemma c4a30 : bisectIdxFrom c4T1 c4H1 30 0 20 = bisectIdxFrom c4T1 c4H1 31 0 19 := by
  have hc : c4T1 (c4H1 * (2 * ((0 : ℕ) : ℚ) + 1) / 2 ^ (30 + 1)) = false := by
    norm_num [c4T1, mpTest, calculateFullMonthlyPayment, calculateMonthlyPayment,
        c4CexInputs, availFor, c4H1, c4y1, PMI_RATE]
  have hc2 : ¬ (c4T1 (c4H1 * (2 * ((0 : ℕ) : ℚ) + 1) / 2 ^ (30 + 1)) = true) := by
    rw [hc]; exact Bool.false_ne_true
  show bisectIdxFrom c4T1 c4H1 30 0 (19 + 1) = _
  rw [bisectIdxFrom_succ c4T1 c4H1 30 0 19, if_neg hc2]

lemma c4a31 : bisectIdxFrom c4T1 c4H1 31 0 19 = bisectIdxFrom c4T1 c4H1 32 0 18 := by
  have hc : c4T1 (c4H1 * (2 * ((0 : ℕ) : ℚ) + 1) / 2 ^ (31 + 1)) = false := by
    norm_num [c4T1, mpTest, calculateFullMonthlyPayment, calculateMonthlyPayment,
        c4CexInputs, availFor, c4H1, c4y1, PMI_RATE]
  have hc2 : ¬ (c4T1 (c4H1 * (2 * ((0 : ℕ) : ℚ) + 1) / 2 ^ (31 + 1)) = true) := by
    rw [hc]; exact Bool.false_ne_true
  show bisectIdxFrom c4T1 c4H1 31 0 (18 + 1) = _
  rw [bisectIdxFrom_succ c4T1 c4H1 31 0 18, if_neg hc2]

lemma c4a32 : bisectIdxFrom c4T1 c4H1 32 0 18 = bisectIdxFrom c4T1 c4H1 33 0 17 := by
  have hc : c4T1 (c4H1 * (2 * ((0 : ℕ) : ℚ) + 1) / 2 ^ (32 + 1)) = false := by
    norm_num [c4T1, mpTest, calculateFullMonthlyPayment, calculateMonthlyPayment,
        c4CexInputs, availFor, c4H1, c4y1, PMI_RATE]
  have hc2 : ¬ (c4T1 (c4H1 * (2 * ((0 : ℕ) : ℚ) + 1) / 2 ^ (32 + 1)) = true) := by
    rw [hc]; exact Bool.false_ne_true
  show bisectIdxFrom c4T1 c4H1 32 0 (17 + 1) = _
  rw [bisectIdxFrom_succ c4T1 c4H1 32 0 17, if_neg hc2]

lemma c4a33 : bisectIdxFrom c4T1 c4H1 33 0 17 = bisectIdxFrom c4T1 c4H1 34 0 16 := by
  have hc : c4T1 (c4H1 * (2 * ((0 : ℕ) : ℚ) + 1) / 2 ^ (33 + 1)) = false := by
    norm_num [c4T1, mpTest, calculateFullMonthlyPayment, calculateMonthlyPayment,
        c4CexInputs, availFor, c4H1, c4y1, PMI_RATE]
  have hc2 : ¬ (c4T1 (c4H1 * (2 * ((0 : ℕ) : ℚ) + 1) / 2 ^ (33 + 1)) = true) := by
    rw [hc]; exact Bool.false_ne_true
  show bisectIdxFrom c4T1 c4H1 33 0 (16 + 1) = _
  rw [bisectIdxFrom_succ c4T1 c4H1 33 0 16, if_neg hc2]

lemma c4a34 : bisectIdxFrom c4T1 c4H1 34 0 16 = bisectIdxFrom c4T1 c4H1 35 0 15 := by
  have hc : c4T1 (c4H1 * (2 * ((0 : ℕ) : ℚ) + 1) / 2 ^ (34 + 1)) = false := by
    norm_num [c4T1, mpTest, calculateFullMonthlyPayment, calculateMonthlyPayment,
        c4CexInputs, availFor, c4H1, c4y1, PMI_RATE]
  have hc2 : ¬ (c4T1 (c4H1 * (2 * ((0 : ℕ) : ℚ) + 1) / 2 ^ (34 + 1)) = true) := by
    rw [hc]; exact Bool.false_ne_true
  show bisectIdxFrom c4T1 c4H1 34 0 (15 + 1) = _
  rw [bisectIdxFrom_succ c4T1 c4H1 34 0 15, if_neg hc2]

lemma c4a35 : bisectIdxFrom c4T1 c4H1 35 0 15 = bisectIdxFrom c4T1 c4H1 36 0 14 := by
  have hc : c4T1 (c4H1 * (2 * ((0 : ℕ) : ℚ) + 1) / 2 ^ (35 + 1)) = false := by
    norm_num [c4T1, mpTest, calculateFullMonthlyPayment, calculateMonthlyPayment,
        c4CexInputs, availFor, c4H1, c4y1, PMI_RATE]
  have hc2 : ¬ (c4T1 (c4H1 * (2 * ((0 : ℕ) : ℚ) + 1) / 2 ^ (35 + 1)) = true) := by
    rw [hc]; exact Bool.false_ne_true
  show bisectIdxFrom c4T1 c4H1 35 0 (14 + 1) = _
  rw [bisectIdxFrom_succ c4T1 c4H1 35 0 14, if_neg hc2]

lemma c4a36 : bisectIdxFrom c4T1 c4H1 36 0 14 = bisectIdxFrom c4T1 c4H1 37 0 13 := by
  have hc : c4T1 (c4H1 * (2 * ((0 : ℕ) : ℚ) + 1) / 2 ^ (36 + 1)) = false := by
    norm_num [c4T1, mpTest, calculateFullMonthlyPayment, calculateMonthlyPayment,
        c4CexInputs, availFor, c4H1, c4y1, PMI_RATE]
  have hc2 : ¬ (c4T1 (c4H1 * (2 * ((0 : ℕ) : ℚ) + 1) / 2 ^ (36 + 1)) = true) := by
    rw [hc]; exact Bool.false_ne_true
  show bisectIdxFrom c4T1 c4H1 36 0 (13 + 1) = _
  rw [bisectIdxFrom_succ c4T1 c4H1 36 0 13, if_neg hc2]

lemma c4a37 : bisectIdxFrom c4T1 c4H1 37 0 13 = bisectIdxFrom c4T1 c4H1 38 0 12 := by
  have hc : c4T1 (c4H1 * (2 * ((0 : ℕ) : ℚ) + 1) / 2 ^ (37 + 1)) = false := by
    norm_num [c4T1, mpTest, calculateFullMonthlyPayment, calculateMonthlyPayment,
        c4CexInputs, availFor, c4H1, c4y1, PMI_RATE]
  have hc2 : ¬ (c4T1 (c4H1 * (2 * ((0 : ℕ) : ℚ) + 1) / 2 ^ (37 + 1)) = true) := by
    rw [hc]; exact Bool.false_ne_true
  show bisectIdxFrom c4T1 c4H1 37 0 (12 + 1) = _
  rw [bisectIdxFrom_succ c4T1 c4H1 37 0 12, if_neg hc2]

lemma c4a38 : bisectIdxFrom c4T1 c4H1 38 0 12 = bisectIdxFrom c4T1 c4H1 39 0 11 := by
  have hc : c4T1 (c4H1 * (2 * ((0 : ℕ) : ℚ) + 1) / 2 ^ (38 + 1)) = false := by
    norm_num [c4T1, mpTest, calculateFullMonthlyPayment, calculateMonthlyPayment,
        c4CexInputs, availFor, c4H1, c4y1, PMI_RATE]
  have hc2 : ¬ (c4T1 (c4H1 * (2 * ((0 : ℕ) : ℚ) + 1) / 2 ^ (38 + 1)) = true) := by
    rw [hc]; exact Bool.false_ne_true
  show bisectIdxFrom c4T1 c4H1 38 0 (11 + 1) = _
  rw [bisectIdxFrom_succ c4T1 c4H1 38 0 11, if_neg hc2]

lemma c4a39 : bisectIdxFrom c4T1 c4H1 39 0 11 = bisectIdxFrom c4T1 c4H1 40 0 10 := by
  have hc : c4T1 (c4H1 * (2 * ((0 : ℕ) : ℚ) + 1) / 2 ^ (39 + 1)) = false := by
    norm_num [c4T1, mpTest, calculateFullMonthlyPayment, calculateMonthlyPayment,
        c4CexInputs, availFor, c4H1, c4y1, PMI_RATE]
  have hc2 : ¬ (c4T1 (c4H1 * (2 * ((0 : ℕ) : ℚ) + 1) / 2 ^ (39 + 1)) = true) := by
    rw [hc]; exact Bool.false_ne_true
  show bisectIdxFrom c4T1 c4H1 39 0 (10 + 1) = _
  rw [bisectIdxFrom_succ c4T1 c4H1 39 0 10, if_neg hc2]

lemma c4a40 : bisectIdxFrom c4T1 c4H1 40 0 10 = bisectIdxFrom c4T1 c4H1 41 1 9 := by
  have hc : c4T1 (c4H1 * (2 * ((0 : ℕ) : ℚ) + 1) / 2 ^ (40 + 1)) = true := by
    norm_num [c4T1, mpTest, calculateFullMonthlyPayment, calculateMonthlyPayment,
        c4CexInputs, availFor, c4H1, c4y1, PMI_RATE]
  show bisectIdxFrom c4T1 c4H1 40 0 (9 + 1) = _
  rw [bisectIdxFrom_succ c4T1 c4H1 40 0 9, if_pos hc]

lemma c4a41 : bisectIdxFrom c4T1 c4H1 41 1 9 = bisectIdxFrom c4T1 c4H1 42 3 8 := by
  have hc : c4T1 (c4H1 * (2 * ((1 : ℕ) : ℚ) + 1) / 2 ^ (41 + 1)) = true := by
    norm_num [c4T1, mpTest, calculateFullMonthlyPayment, calculateMonthlyPayment,
        c4CexInputs, availFor, c4H1, c4y1, PMI_RATE]
  show bisectIdxFrom c4T1 c4H1 41 1 (8 + 1) = _
  rw [bisectIdxFrom_succ c4T1 c4H1 41 1 8, if_pos hc]

lemma c4a42 : bisectIdxFrom c4T1 c4H1 42 3 8 = bisectIdxFrom c4T1 c4H1 43 7 7 := by
  have hc : c4T1 (c4H1 * (2 * ((3 : ℕ) : ℚ) + 1) / 2 ^ (42 + 1)) = true := by
    norm_num [c4T1, mpTest, calculateFullMonthlyPayment, calculateMonthlyPayment,
        c4CexInputs, availFor, c4H1, c4y1, PMI_RATE]
  show bisectIdxFrom c4T1 c4H1 42 3 (7 + 1) = _
  rw [bisectIdxFrom_succ c4T1 c4H1 42 3 7, if_pos hc]

lemma c4a43 : bisectIdxFrom c4T1 c4H1 43 7 7 = bisectIdxFrom c4T1 c4H1 44 15 6 := by
  have hc : c4T1 (c4H1 * (2 * ((7 : ℕ) : ℚ) + 1) / 2 ^ (43 + 1)) = true := by
    norm_num [c4T1, mpTest, calculateFullMonthlyPayment, calculateMonthlyPayment,
        c4CexInputs, availFor, c4H1, c4y1, PMI_RATE]
  show bisectIdxFrom c4T1 c4H1 43 7 (6 + 1) = _
  rw [bisectIdxFrom_succ c4T1 c4H1 43 7 6, if_pos hc]

lemma c4a44 : bisectIdxFrom c4T1 c4H1 44 15 6 = bisectIdxFrom c4T1 c4H1 45 31 5 := by
  have hc : c4T1 (c4H1 * (2 * ((15 : ℕ) : ℚ) + 1) / 2 ^ (44 + 1)) = true := by
    norm_num [c4T1, mpTest, calculateFullMonthlyPayment, calculateMonthlyPayment,
        c4CexInputs, availFor, c4H1, c4y1, PMI_RATE]
  show bisectIdxFrom c4T1 c4H1 44 15 (5 + 1) = _
  rw [bisectIdxFrom_succ c4T1 c4H1 44 15 5, if_pos hc]

lemma c4a45 : bisectIdxFrom c4T1 c4H1 45 31 5 = bisectIdxFrom c4T1 c4H1 46 62 4 := by
  have hc : c4T1 (c4H1 * (2 * ((31 : ℕ) : ℚ) + 1) / 2 ^ (45 + 1)) = false := by
    norm_num [c4T1, mpTest, calculateFullMonthlyPayment, calculateMonthlyPayment,
        c4CexInputs, availFor, c4H1, c4y1, PMI_RATE]
  have hc2 : ¬ (c4T1 (c4H1 * (2 * ((31 : ℕ) : ℚ) + 1) / 2 ^ (45 + 1)) = true) := by
    rw [hc]; exact Bool.false_ne_true
  show bisectIdxFrom c4T1 c4H1 45 31 (4 + 1) = _
  rw [bisectIdxFrom_succ c4T1 c4H1 45 31 4, if_neg hc2]

lemma c4a46 : bisectIdxFrom c4T1 c4H1 46 62 4 = bisectIdxFrom c4T1 c4H1 47 125 3 := by
  have hc : c4T1 (c4H1 * (2 * ((62 : ℕ) : ℚ) + 1) / 2 ^ (46 + 1)) = true := by
    norm_num [c4T1, mpTest, calculateFullMonthlyPayment, calculateMonthlyPayment,
        c4CexInputs, availFor, c4H1, c4y1, PMI_RATE]
  show bisectIdxFrom c4T1 c4H1 46 62 (3 + 1) = _
  rw [bisectIdxFrom_succ c4T1 c4H1 46 62 3, if_pos hc]

lemma c4a47 : bisectIdxFrom c4T1 c4H1 47 125 3 = bisectIdxFrom c4T1 c4H1 48 250 2 := by
  have hc : c4T1 (c4H1 * (2 * ((125 : ℕ) : ℚ) + 1) / 2 ^ (47 + 1)) = false := by
    norm_num [c4T1, mpTest, calculateFullMonthlyPayment, calculateMonthlyPayment,
        c4CexInputs, availFor, c4H1, c4y1, PMI_RATE]
  have hc2 : ¬ (c4T1 (c4H1 * (2 * ((125 : ℕ) : ℚ) + 1) / 2 ^ (47 + 1)) = true) := by
    rw [hc]; exact Bool.false_ne_true
  show bisectIdxFrom c4T1 c4H1 47 125 (2 + 1) = _
  rw [bisectIdxFrom_succ c4T1 c4H1 47 125 2, if_neg hc2]

lemma c4a48 : bisectIdxFrom c4T1 c4H1 48 250 2 = bisectIdxFrom c4T1 c4H1 49 500 1 := by
  have hc : c4T1 (c4H1 * (2 * ((250 : ℕ) : ℚ) + 1) / 2 ^ (48 + 1)) = false := by
    norm_num [c4T1, mpTest, calculateFullMonthlyPayment, calculateMonthlyPayment,
        c4CexInputs, availFor, c4H1, c4y1, PMI_RATE]
  have hc2 : ¬ (c4T1 (c4H1 * (2 * ((250 : ℕ) : ℚ) + 1) / 2 ^ (48 + 1)) = true) := by
    rw [hc]; exact Bool.false_ne_true
  show bisectIdxFrom c4T1 c4H1 48 250 (1 + 1) = _
  rw [bisectIdxFrom_succ c4T1 c4H1 48 250 1, if_neg hc2]

lemma c4a49 : bisectIdxFrom c4T1 c4H1 49 500 1 = bisectIdxFrom c4T1 c4H1 50 1000 0 := by
  have hc : c4T1 (c4H1 * (2 * ((500 : ℕ) : ℚ) + 1) / 2 ^ (49 + 1)) = false := by
    norm_num [c4T1, mpTest, calculateFullMonthlyPayment, calculateMonthlyPayment,
        c4CexInputs, availFor, c4H1, c4y1, PMI_RATE]
  have hc2 : ¬ (c4T1 (c4H1 * (2 * ((500 : ℕ) : ℚ) + 1) / 2 ^ (49 + 1)) = true) := by
    rw [hc]; exact Bool.false_ne_true
  show bisectIdxFrom c4T1 c4H1 49 500 (0 + 1) = _
  rw [bisectIdxFrom_succ c4T1 c4H1 49 500 0, if_neg hc2]

/-- The dyadic index reached by the 50 bisection steps at the lower income. -/
lemma c4KA : bisectIdxFrom c4T1 c4H1 0 0 50 = 1000 := by
  rw [c4a0, c4a1, c4a2, c4a3, c4a4, c4a5, c4a6, c4a7, c4a8, c4a9, c4a10, c4a11, c4a12, c4a13, c4a14, c4a15, c4a16, c4a17, c4a18, c4a19, c4a20, c4a21, c4a22, c4a23, c4a24, c4a25, c4a26, c4a27, c4a28, c4a29, c4a30, c4a31, c4a32, c4a33, c4a34, c4a35, c4a36, c4a37, c4a38, c4a39, c4a40, c4a41, c4a42, c4a43, c4a44, c4a45, c4a46, c4a47, c4a48, c4a49]
  rfl

lemma c4b0 : bisectIdxFrom c4T2 c4H2 0 0 50 = bisectIdxFrom c4T2 c4H2 1 0 49 := by
  have hc : c4T2 (c4H2 * (2 * ((0 : ℕ) : ℚ) + 1) / 2 ^ (0 + 1)) = false := by
    norm_num [c4T2, mpTest, calculateFullMonthlyPayment, calculateMonthlyPayment,
        c4CexInputs, c4CexInputsHigher, availFor, c4H2, c4y2, PMI_RATE]
  have hc2 : ¬ (c4T2 (c4H2 * (2 * ((0 : ℕ) : ℚ) + 1) / 2 ^ (0 + 1)) = true) := by
    rw [hc]; exact Bool.false_ne_true
  show bisectIdxFrom c4T2 c4H2 0 0 (49 + 1) = _
  rw [bisectIdxFrom_succ c4T2 c4H2 0 0 49, if_neg hc2]

lemma c4b1 : bisectIdxFrom c4T2 c4H2 1 0 49 = bisectIdxFrom c4T2 c4H2 2 0 48 := by
  have hc : c4T2 (c4H2 * (2 * ((0 : ℕ) : ℚ) + 1) / 2 ^ (1 + 1)) = false := by
    norm_num [c4T2, mpTest, calculateFullMonthlyPayment, calculateMonthlyPayment,
        c4CexInputs, c4CexInputsHigher, availFor, c4H2, c4y2, PMI_RATE]
  have hc2 : ¬ (c4T2 (c4H2 * (2 * ((0 : ℕ) : ℚ) + 1) / 2 ^ (1 + 1)) = true) := by
    rw [hc]; exact Bool.false_ne_true
  show bisectIdxFrom c4T2 c4H2 1 0 (48 + 1) = _
  rw [bisectIdxFrom_succ c4T2 c4H2 1 0 48, if_neg hc2]

lemma c4b2 : bisectIdxFrom c4T2 c4H2 2 0 48 = bisectIdxFrom c4T2 c4H2 3 0 47 := by
  have hc : c4T2 (c4H2 * (2 * ((0 : ℕ) : ℚ) + 1) / 2 ^ (2 + 1)) = false := by
    norm_num [c4T2, mpTest, calculateFullMonthlyPayment, calculateMonthlyPayment,
        c4CexInputs, c4CexInputsHigher, availFor, c4H2, c4y2, PMI_RATE]
  have hc2 : ¬ (c4T2 (c4H2 * (2 * ((0 : ℕ) : ℚ) + 1) / 2 ^ (2 + 1)) = true) := by
    rw [hc]; exact Bool.false_ne_true
  show bisectIdxFrom c4T2 c4H2 2 0 (47 + 1) = _
  rw [bisectIdxFrom_succ c4T2 c4H2 2 0 47, if_neg hc2]

lemma c4b3 : bisectIdxFrom c4T2 c4H2 3 0 47 = bisectIdxFrom c4T2 c4H2 4 0 46 := by
  have hc : c4T2 (c4H2 * (2 * ((0 : ℕ) : ℚ) + 1) / 2 ^ (3 + 1)) = false := by
    norm_num [c4T2, mpTest, calculateFullMonthlyPayment, calculateMonthlyPayment,
        c4CexInputs, c4CexInputsHigher, availFor, c4H2, c4y2, PMI_RATE]
  have hc2 : ¬ (c4T2 (c4H2 * (2 * ((0 : ℕ) : ℚ) + 1) / 2 ^ (3 + 1)) = true) := by
    rw [hc]; exact Bool.false_ne_true
  show bisectIdxFrom c4T2 c4H2 3 0 (46 + 1) = _
  rw [bisectIdxFrom_succ c4T2 c4H2 3 0 46, if_neg hc2]

lemma c4b4 : bisectIdxFrom c4T2 c4H2 4 0 46 = bisectIdxFrom c4T2 c4H2 5 0 45 := by
  have hc : c4T2 (c4H2 * (2 * ((0 : ℕ) : ℚ) + 1) / 2 ^ (4 + 1)) = false := by
    norm_num [c4T2, mpTest, calculateFullMonthlyPayment, calculateMonthlyPayment,
        c4CexInputs, c4CexInputsHigher, availFor, c4H2, c4y2, PMI_RATE]
  have hc2 : ¬ (c4T2 (c4H2 * (2 * ((0 : ℕ) : ℚ) + 1) / 2 ^ (4 + 1)) = true) := by
    rw [hc]; exact Bool.false_ne_true
  show bisectIdxFrom c4T2 c4H2 4 0 (45 + 1) = _
  rw [bisectIdxFrom_succ c4T2 c4H2 4 0 45, if_neg hc2]

lemma c4b5 : bisectIdxFrom c4T2 c4H2 5 0 45 = bisectIdxFrom c4T2 c4H2 6 0 44 := by
  have hc : c4T2 (c4H2 * (2 * ((0 : ℕ) : ℚ) + 1) / 2 ^ (5 + 1)) = false := by
    norm_num [c4T2, mpTest, calculateFullMonthlyPayment, calculateMonthlyPayment,
        c4CexInputs, c4CexInputsHigher, availFor, c4H2, c4y2, PMI_RATE]
  have hc2 : ¬ (c4T2 (c4H2 * (2 * ((0 : ℕ) : ℚ) + 1) / 2 ^ (5 + 1)) = true) := by
    rw [hc]; exact Bool.false_ne_true
  show bisectIdxFrom c4T2 c4H2 5 0 (44 + 1) = _
  rw [bisectIdxFrom_succ c4T2 c4H2 5 0 44, if_neg hc2]

lemma c4b6 : bisectIdxFrom c4T2 c4H2 6 0 44 = bisectIdxFrom c4T2 c4H2 7 0 43 := by
  have hc : c4T2 (c4H2 * (2 * ((0 : ℕ) : ℚ) + 1) / 2 ^ (6 + 1)) = false := by
    norm_num [c4T2, mpTest, calculateFullMonthlyPayment, calculateMonthlyPayment,
        c4CexInputs, c4CexInputsHigher, availFor, c4H2, c4y2, PMI_RATE]
  have hc2 : ¬ (c4T2 (c4H2 * (2 * ((0 : ℕ) : ℚ) + 1) / 2 ^ (6 + 1)) = true) := by
    rw [hc]; exact Bool.false_ne_true
  show bisectIdxFrom c4T2 c4H2 6 0 (43 + 1) = _
  rw [bisectIdxFrom_succ c4T2 c4H2 6 0 43, if_neg hc2]

lemma c4b7 : bisectIdxFrom c4T2 c4H2 7 0 43 = bisectIdxFrom c4T2 c4H2 8 0 42 := by
  have hc : c4T2 (c4H2 * (2 * ((0 : ℕ) : ℚ) + 1) / 2 ^ (7 + 1)) = false := by
    norm_num [c4T2, mpTest, calculateFullMonthlyPayment, calculateMonthlyPayment,
        c4CexInputs, c4CexInputsHigher, availFor, c4H2, c4y2, PMI_RATE]
  have hc2 : ¬ (c4T2 (c4H2 * (2 * ((0 : ℕ) : ℚ) + 1) / 2 ^ (7 + 1)) = true) := by
    rw [hc]; exact Bool.false_ne_true
  show bisectIdxFrom c4T2 c4H2 7 0 (42 + 1) = _
  rw [bisectIdxFrom_succ c4T2 c4H2 7 0 42, if_neg hc2]

lemma c4b8 : bisectIdxFrom c4T2 c4H2 8 0 42 = bisectIdxFrom c4T2 c4H2 9 0 41 := by
  have hc : c4T2 (c4H2 * (2 * ((0 : ℕ) : ℚ) + 1) / 2 ^ (8 + 1)) = false := by
    norm_num [c4T2, mpTest, calculateFullMonthlyPayment, calculateMonthlyPayment,
        c4CexInputs, c4CexInputsHigher, availFor, c4H2, c4y2, PMI_RATE]
  have hc2 : ¬ (c4T2 (c4H2 * (2 * ((0 : ℕ) : ℚ) + 1) / 2 ^ (8 + 1)) = true) := by
    rw [hc]; exact Bool.false_ne_true
  show bisectIdxFrom c4T2 c4H2 8 0 (41 + 1) = _
  rw [bisectIdxFrom_succ c4T2 c4H2 8 0 41, if_neg hc2]

lemma c4b9 : bisectIdxFrom c4T2 c4H2 9 0 41 = bisectIdxFrom c4T2 c4H2 10 0 40 := by
  have hc : c4T2 (c4H2 * (2 * ((0 : ℕ) : ℚ) + 1) / 2 ^ (9 + 1)) = false := by
    norm_num [c4T2, mpTest, calculateFullMonthlyPayment, calculateMonthlyPayment,
        c4CexInputs, c4CexInputsHigher, availFor, c4H2, c4y2, PMI_RATE]
  have hc2 : ¬ (c4T2 (c4H2 * (2 * ((0 : ℕ) : ℚ) + 1) / 2 ^ (9 + 1)) = true) := by
    rw [hc]; exact Bool.false_ne_true
  show bisectIdxFrom c4T2 c4H2 9 0 (40 + 1) = _
  rw [bisectIdxFrom_succ c4T2 c4H2 9 0 40, if_neg hc2]

lemma c4b10 : bisectIdxFrom c4T2 c4H2 10 0 40 = bisectIdxFrom c4T2 c4H2 11 0 39 := by
  have hc : c4T2 (c4H2 * (2 * ((0 : ℕ) : ℚ) + 1) / 2 ^ (10 + 1)) = false := by
    norm_num [c4T2, mpTest, calculateFullMonthlyPayment, calculateMonthlyPayment,
        c4CexInputs, c4CexInputsHigher, availFor, c4H2, c4y2, PMI_RATE]
  have hc2 : ¬ (c4T2 (c4H2 * (2 * ((0 : ℕ) : ℚ) + 1) / 2 ^ (10 + 1)) = true) := by
    rw [hc]; exact Bool.false_ne_true
  show bisectIdxFrom c4T2 c4H2 10 0 (39 + 1) = _
  rw [bisectIdxFrom_succ c4T2 c4H2 10 0 39, if_neg hc2]

lemma c4b11 : bisectIdxFrom c4T2 c4H2 11 0 39 = bisectIdxFrom c4T2 c4H2 12 0 38 := by
  have hc : c4T2 (c4H2 * (2 * ((0 : ℕ) : ℚ) + 1) / 2 ^ (11 + 1)) = false := by
    norm_num [c4T2, mpTest, calculateFullMonthlyPayment, calculateMonthlyPayment,
        c4CexInputs, c4CexInputsHigher, availFor, c4H2, c4y2, PMI_RATE]
  have hc2 : ¬ (c4T2 (c4H2 * (2 * ((0 : ℕ) : ℚ) + 1) / 2 ^ (11 + 1)) = true) := by
    rw [hc]; exact Bool.false_ne_true
  show bisectIdxFrom c4T2 c4H2 11 0 (38 + 1) = _
  rw [bisectIdxFrom_succ c4T2 c4H2 11 0 38, if_neg hc2]

lemma c4b12 : bisectIdxFrom c4T2 c4H2 12 0 38 = bisectIdxFrom c4T2 c4H2 13 0 37 := by
  have hc : c4T2 (c4H2 * (2 * ((0 : ℕ) : ℚ) + 1) / 2 ^ (12 + 1)) = false := by
    norm_num [c4T2, mpTest, calculateFullMonthlyPayment, calculateMonthlyPayment,
        c4CexInputs, c4CexInputsHigher, availFor, c4H2, c4y2, PMI_RATE]
  have hc2 : ¬ (c4T2 (c4H2 * (2 * ((0 : ℕ) : ℚ) + 1) / 2 ^ (12 + 1)) = true) := by
    rw [hc]; exact Bool.false_ne_true
  show bisectIdxFrom c4T2 c4H2 12 0 (37 + 1) = _
  rw [bisectIdxFrom_succ c4T2 c4H2 12 0 37, if_neg hc2]

lemma c4b13 : bisectIdxFrom c4T2 c4H2 13 0 37 = bisectIdxFrom c4T2 c4H2 14 0 36 := by
  have hc : c4T2 (c4H2 * (2 * ((0 : ℕ) : ℚ) + 1) / 2 ^ (13 + 1)) = false := by
    norm_num [c4T2, mpTest, calculateFullMonthlyPayment, calculateMonthlyPayment,
        c4CexInputs, c4CexInputsHigher, availFor, c4H2, c4y2, PMI_RATE]
  have hc2 : ¬ (c4T2 (c4H2 * (2 * ((0 : ℕ) : ℚ) + 1) / 2 ^ (13 + 1)) = true) := by
    rw [hc]; exact Bool.false_ne_true
  show bisectIdxFrom c4T2 c4H2 13 0 (36 + 1) = _
  rw [bisectIdxFrom_succ c4T2 c4H2 13 0 36, if_neg hc2]

lemma c4b14 : bisectIdxFrom c4T2 c4H2 14 0 36 = bisectIdxFrom c4T2 c4H2 15 0 35 := by
  have hc : c4T2 (c4H2 * (2 * ((0 : ℕ) : ℚ) + 1) / 2 ^ (14 + 1)) = false := by
    norm_num [c4T2, mpTest, calculateFullMonthlyPayment, calculateMonthlyPayment,
        c4CexInputs, c4CexInputsHigher, availFor, c4H2, c4y2, PMI_RATE]
  have hc2 : ¬ (c4T2 (c4H2 * (2 * ((0 : ℕ) : ℚ) + 1) / 2 ^ (14 + 1)) = true) := by
    rw [hc]; exact Bool.false_ne_true
  show bisectIdxFrom c4T2 c4H2 14 0 (35 + 1) = _
  rw [bisectIdxFrom_succ c4T2 c4H2 14 0 35, if_neg hc2]

lemma c4b15 : bisectIdxFrom c4T2 c4H2 15 0 35 = bisectIdxFrom c4T2 c4H2 16 0 34 := by
  have hc : c4T2 (c4H2 * (2 * ((0 : ℕ) : ℚ) + 1) / 2 ^ (15 + 1)) = false := by
    norm_num [c4T2, mpTest, calculateFullMonthlyPayment, calculateMonthlyPayment,
        c4CexInputs, c4CexInputsHigher, availFor, c4H2, c4y2, PMI_RATE]
  have hc2 : ¬ (c4T2 (c4H2 * (2 * ((0 : ℕ) : ℚ) + 1) / 2 ^ (15 + 1)) = true) := by
    rw [hc]; exact Bool.false_ne_true
  show bisectIdxFrom c4T2 c4H2 15 0 (34 + 1) = _
  rw [bisectIdxFrom_succ c4T2 c4H2 15 0 34, if_neg hc2]

lemma c4b16 : bisectIdxFrom c4T2 c4H2 16 0 34 = bisectIdxFrom c4T2 c4H2 17 0 33 := by
  have hc : c4T2 (c4H2 * (2 * ((0 : ℕ) : ℚ) + 1) / 2 ^ (16 + 1)) = false := by
    norm_num [c4T2, mpTest, calculateFullMonthlyPayment, calculateMonthlyPayment,
        c4CexInputs, c4CexInputsHigher, availFor, c4H2, c4y2, PMI_RATE]
  have hc2 : ¬ (c4T2 (c4H2 * (2 * ((0 : ℕ) : ℚ) + 1) / 2 ^ (16 + 1)) = true) := by
    rw [hc]; exact Bool.false_ne_true
  show bisectIdxFrom c4T2 c4H2 16 0 (33 + 1) = _
  rw [bisectIdxFrom_succ c4T2 c4H2 16 0 33, if_neg hc2]

lemma c4b17 : bisectIdxFrom c4T2 c4H2 17 0 33 = bisectIdxFrom c4T2 c4H2 18 0 32 := by
  have hc : c4T2 (c4H2 * (2 * ((0 : ℕ) : ℚ) + 1) / 2 ^ (17 + 1)) = false := by
    norm_num [c4T2, mpTest, calculateFullMonthlyPayment, calculateMonthlyPayment,
        c4CexInputs, c4CexInputsHigher, availFor, c4H2, c4y2, PMI_RATE]
  have hc2 : ¬ (c4T2 (c4H2 * (2 * ((0 : ℕ) : ℚ) + 1) / 2 ^ (17 + 1)) = true) := by
    rw [hc]; exact Bool.false_ne_true
  show bisectIdxFrom c4T2 c4H2 17 0 (32 + 1) = _
  rw [bisectIdxFrom_succ c4T2 c4H2 17 0 32, if_neg hc2]

lemma c4b18 : bisectIdxFrom c4T2 c4H2 18 0 32 = bisectIdxFrom c4T2 c4H2 19 0 31 := by
  have hc : c4T2 (c4H2 * (2 * ((0 : ℕ) : ℚ) + 1) / 2 ^ (18 + 1)) = false := by
    norm_num [c4T2, mpTest, calculateFullMonthlyPayment, calculateMonthlyPayment,
        c4CexInputs, c4CexInputsHigher, availFor, c4H2, c4y2, PMI_RATE]
  have hc2 : ¬ (c4T2 (c4H2 * (2 * ((0 : ℕ) : ℚ) + 1) / 2 ^ (18 + 1)) = true) := by
    rw [hc]; exact Bool.false_ne_true
  show bisectIdxFrom c4T2 c4H2 18 0 (31 + 1) = _
  rw [bisectIdxFrom_succ c4T2 c4H2 18 0 31, if_neg hc2]

lemma c4b19 : bisectIdxFrom c4T2 c4H2 19 0 31 = bisectIdxFrom c4T2 c4H2 20 0 30 := by
  have hc : c4T2 (c4H2 * (2 * ((0 : ℕ) : ℚ) + 1) / 2 ^ (19 + 1)) = false := by
    norm_num [c4T2, mpTest, calculateFullMonthlyPayment, calculateMonthlyPayment,
        c4CexInputs, c4CexInputsHigher, availFor, c4H2, c4y2, PMI_RATE]
  have hc2 : ¬ (c4T2 (c4H2 * (2 * ((0 : ℕ) : ℚ) + 1) / 2 ^ (19 + 1)) = true) := by
    rw [hc]; exact Bool.false_ne_true
  show bisectIdxFrom c4T2 c4H2 19 0 (30 + 1) = _
  rw [bisectIdxFrom_succ c4T2 c4H2 19 0 30, if_neg hc2]

lemma c4b20 : bisectIdxFrom c4T2 c4H2 20 0 30 = bisectIdxFrom c4T2 c4H2 21 0 29 := by
  have hc : c4T2 (c4H2 * (2 * ((0 : ℕ) : ℚ) + 1) / 2 ^ (20 + 1)) = false := by
    norm_num [c4T2, mpTest, calculateFullMonthlyPayment, calculateMonthlyPayment,
        c4CexInputs, c4CexInputsHigher, availFor, c4H2, c4y2, PMI_RATE]
  have hc2 : ¬ (c4T2 (c4H2 * (2 * ((0 : ℕ) : ℚ) + 1) / 2 ^ (20 + 1)) = true) := by
    rw [hc]; exact Bool.false_ne_true
  show bisectIdxFrom c4T2 c4H2 20 0 (29 + 1) = _
  rw [bisectIdxFrom_succ c4T2 c4H2 20 0 29, if_neg hc2]

lemma c4b21 : bisectIdxFrom c4T2 c4H2 21 0 29 = bisectIdxFrom c4T2 c4H2 22 0 28 := by
  have hc : c4T2 (c4H2 * (2 * ((0 : ℕ) : ℚ) + 1) / 2 ^ (21 + 1)) = false := by
    norm_num [c4T2, mpTest, calculateFullMonthlyPayment, calculateMonthlyPayment,
        c4CexInputs, c4CexInputsHigher, availFor, c4H2, c4y2, PMI_RATE]
  have hc2 : ¬ (c4T2 (c4H2 * (2 * ((0 : ℕ) : ℚ) + 1) / 2 ^ (21 + 1)) = true) := by
    rw [hc]; exact Bool.false_ne_true
  show bisectIdxFrom c4T2 c4H2 21 0 (28 + 1) = _
  rw [bisectIdxFrom_succ c4T2 c4H2 21 0 28, if_neg hc2]

lemma c4b22 : bisectIdxFrom c4T2 c4H2 22 0 28 = bisectIdxFrom c4T2 c4H2 23 0 27 := by
  have hc : c4T2 (c4H2 * (2 * ((0 : ℕ) : ℚ) + 1) / 2 ^ (22 + 1)) = false := by
    norm_num [c4T2, mpTest, calculateFullMonthlyPayment, calculateMonthlyPayment,
        c4CexInputs, c4CexInputsHigher, availFor, c4H2, c4y2, PMI_RATE]
  have hc2 : ¬ (c4T2 (c4H2 * (2 * ((0 : ℕ) : ℚ) + 1) / 2 ^ (22 + 1)) = true) := by
    rw [hc]; exact Bool.false_ne_true
  show bisectIdxFrom c4T2 c4H2 22 0 (27 + 1) = _
  rw [bisectIdxFrom_succ c4T2 c4H2 22 0 27, if_neg hc2]

lemma c4b23 : bisectIdxFrom c4T2 c4H2 23 0 27 = bisectIdxFrom c4T2 c4H2 24 0 26 := by
  have hc : c4T2 (c4H2 * (2 * ((0 : ℕ) : ℚ) + 1) / 2 ^ (23 + 1)) = false := by
    norm_num [c4T2, mpTest, calculateFullMonthlyPayment, calculateMonthlyPayment,
        c4CexInputs, c4CexInputsHigher, availFor, c4H2, c4y2, PMI_RATE]
  have hc2 : ¬ (c4T2 (c4H2 * (2 * ((0 : ℕ) : ℚ) + 1) / 2 ^ (23 + 1)) = true) := by
    rw [hc]; exact Bool.false_ne_true
  show bisectIdxFrom c4T2 c4H2 23 0 (26 + 1) = _
  rw [bisectIdxFrom_succ c4T2 c4H2 23 0 26, if_neg hc2]

lemma c4b24 : bisectIdxFrom c4T2 c4H2 24 0 26 = bisectIdxFrom c4T2 c4H2 25 0 25 := by
  have hc : c4T2 (c4H2 * (2 * ((0 : ℕ) : ℚ) + 1) / 2 ^ (24 + 1)) = false := by
    norm_num [c4T2, mpTest, calculateFullMonthlyPayment, calculateMonthlyPayment,
        c4CexInputs, c4CexInputsHigher, availFor, c4H2, c4y2, PMI_RATE]
  have hc2 : ¬ (c4T2 (c4H2 * (2 * ((0 : ℕ) : ℚ) + 1) / 2 ^ (24 + 1)) = true) := by
    rw [hc]; exact Bool.false_ne_true
  show bisectIdxFrom c4T2 c4H2 24 0 (25 + 1) = _
  rw [bisectIdxFrom_succ c4T2 c4H2 24 0 25, if_neg hc2]

lemma c4b25 : bisectIdxFrom c4T2 c4H2 25 0 25 = bisectIdxFrom c4T2 c4H2 26 0 24 := by
  have hc : c4T2 (c4H2 * (2 * ((0 : ℕ) : ℚ) + 1) / 2 ^ (25 + 1)) = false := by
    norm_num [c4T2, mpTest, calculateFullMonthlyPayment, calculateMonthlyPayment,
        c4CexInputs, c4CexInputsHigher, availFor, c4H2, c4y2, PMI_RATE]
  have hc2 : ¬ (c4T2 (c4H2 * (2 * ((0 : ℕ) : ℚ) + 1) / 2 ^ (25 + 1)) = true) := by
    rw [hc]; exact Bool.false_ne_true
  show bisectIdxFrom c4T2 c4H2 25 0 (24 + 1) = _
  rw [bisectIdxFrom_succ c4T2 c4H2 25 0 24, if_neg hc2]

lemma c4b26 : bisectIdxFrom c4T2 c4H2 26 0 24 = bisectIdxFrom c4T2 c4H2 27 0 23 := by
  have hc : c4T2 (c4H2 * (2 * ((0 : ℕ) : ℚ) + 1) / 2 ^ (26 + 1)) = false := by
    norm_num [c4T2, mpTest, calculateFullMonthlyPayment, calculateMonthlyPayment,
        c4CexInputs, c4CexInputsHigher, availFor, c4H2, c4y2, PMI_RATE]
  have hc2 : ¬ (c4T2 (c4H2 * (2 * ((0 : ℕ) : ℚ) + 1) / 2 ^ (26 + 1)) = true) := by
    rw [hc]; exact Bool.false_ne_true
  show bisectIdxFrom c4T2 c4H2 26 0 (23 + 1) = _
  rw [bisectIdxFrom_succ c4T2 c4H2 26 0 23, if_neg hc2]

lemma c4b27 : bisectIdxFrom c4T2 c4H2 27 0 23 = bisectIdxFrom c4T2 c4H2 28 0 22 := by
  have hc : c4T2 (c4H2 * (2 * ((0 : ℕ) : ℚ) + 1) / 2 ^ (27 + 1)) = false := by
    norm_num [c4T2, mpTest, calculateFullMonthlyPayment, calculateMonthlyPayment,
        c4CexInputs, c4CexInputsHigher, availFor, c4H2, c4y2, PMI_RATE]
  have hc2 : ¬ (c4T2 (c4H2 * (2 * ((0 : ℕ) : ℚ) + 1) / 2 ^ (27 + 1)) = true) := by
    rw [hc]; exact Bool.false_ne_true
  show bisectIdxFrom c4T2 c4H2 27 0 (22 + 1) = _
  rw [bisectIdxFrom_succ c4T2 c4H2 27 0 22, if_neg hc2]

lemma c4b28 : bisectIdxFrom c4T2 c4H2 28 0 22 = bisectIdxFrom c4T2 c4H2 29 0 21 := by
  have hc : c4T2 (c4H2 * (2 * ((0 : ℕ) : ℚ) + 1) / 2 ^ (28 + 1)) = false := by
    norm_num [c4T2, mpTest, calculateFullMonthlyPayment, calculateMonthlyPayment,
        c4CexInputs, c4CexInputsHigher, availFor, c4H2, c4y2, PMI_RATE]
  have hc2 : ¬ (c4T2 (c4H2 * (2 * ((0 : ℕ) : ℚ) + 1) / 2 ^ (28 + 1)) = true) := by
    rw [hc]; exact Bool.false_ne_true
  show bisectIdxFrom c4T2 c4H2 28 0 (21 + 1) = _
  rw [bisectIdxFrom_succ c4T2 c4H2 28 0 21, if_neg hc2]

lemma c4b29 : bisectIdxFrom c4T2 c4H2 29 0 21 = bisectIdxFrom c4T2 c4H2 30 0 20 := by
  have hc : c4T2 (c4H2 * (2 * ((0 : ℕ) : ℚ) + 1) / 2 ^ (29 + 1)) = false := by
    norm_num [c4T2, mpTest, calculateFullMonthlyPayment, calculateMonthlyPayment,
        c4CexInputs, c4CexInputsHigher, availFor, c4H2, c4y2, PMI_RATE]
  have hc2 : ¬ (c4T2 (c4H2 * (2 * ((0 : ℕ) : ℚ) + 1) / 2 ^ (29 + 1)) = true) := by
    rw [hc]; exact Bool.false_ne_true
  show bisectIdxFrom c4T2 c4H2 29 0 (20 + 1) = _
  rw [bisectIdxFrom_succ c4T2 c4H2 29 0 20, if_neg hc2]

lemma c4b30 : bisectIdxFrom c4T2 c4H2 30 0 20 = bisectIdxFrom c4T2 c4H2 31 0 19 := by
  have hc : c4T2 (c4H2 * (2 * ((0 : ℕ) : ℚ) + 1) / 2 ^ (30 + 1)) = false := by
    norm_num [c4T2, mpTest, calculateFullMonthlyPayment, calculateMonthlyPayment,
        c4CexInputs, c4CexInputsHigher, availFor, c4H2, c4y2, PMI_RATE]
  have hc2 : ¬ (c4T2 (c4H2 * (2 * ((0 : ℕ) : ℚ) + 1) / 2 ^ (30 + 1)) = true) := by
    rw [hc]; exact Bool.false_ne_true
  show bisectIdxFrom c4T2 c4H2 30 0 (19 + 1) = _
  rw [bisectIdxFrom_succ c4T2 c4H2 30 0 19, if_neg hc2]

lemma c4b31 : bisectIdxFrom c4T2 c4H2 31 0 19 = bisectIdxFrom c4T2 c4H2 32 0 18 := by
  have hc : c4T2 (c4H2 * (2 * ((0 : ℕ) : ℚ) + 1) / 2 ^ (31 + 1)) = false := by
    norm_num [c4T2, mpTest, calculateFullMonthlyPayment, calculateMonthlyPayment,
        c4CexInputs, c4CexInputsHigher, availFor, c4H2, c4y2, PMI_RATE]
  have hc2 : ¬ (c4T2 (c4H2 * (2 * ((0 : ℕ) : ℚ) + 1) / 2 ^ (31 + 1)) = true) := by
    rw [hc]; exact Bool.false_ne_true
  show bisectIdxFrom c4T2 c4H2 31 0 (18 + 1) = _
  rw [bisectIdxFrom_succ c4T2 c4H2 31 0 18, if_neg hc2]

lemma c4b32 : bisectIdxFrom c4T2 c4H2 32 0 18 = bisectIdxFrom c4T2 c4H2 33 0 17 := by
  have hc : c4T2 (c4H2 * (2 * ((0 : ℕ) : ℚ) + 1) / 2 ^ (32 + 1)) = false := by
    norm_num [c4T2, mpTest, calculateFullMonthlyPayment, calculateMonthlyPayment,
        c4CexInputs, c4CexInputsHigher, availFor, c4H2, c4y2, PMI_RATE]
  have hc2 : ¬ (c4T2 (c4H2 * (2 * ((0 : ℕ) : ℚ) + 1) / 2 ^ (32 + 1)) = true) := by
    rw [hc]; exact Bool.false_ne_true
  show bisectIdxFrom c4T2 c4H2 32 0 (17 + 1) = _
  rw [bisectIdxFrom_succ c4T2 c4H2 32 0 17, if_neg hc2]

lemma c4b33 : bisectIdxFrom c4T2 c4H2 33 0 17 = bisectIdxFrom c4T2 c4H2 34 0 16 := by
  have hc : c4T2 (c4H2 * (2 * ((0 : ℕ) : ℚ) + 1) / 2 ^ (33 + 1)) = false := by
    norm_num [c4T2, mpTest, calculateFullMonthlyPayment, calculateMonthlyPayment,
        c4CexInputs, c4CexInputsHigher, availFor, c4H2, c4y2, PMI_RATE]
  have hc2 : ¬ (c4T2 (c4H2 * (2 * ((0 : ℕ) : ℚ) + 1) / 2 ^ (33 + 1)) = true) := by
    rw [hc]; exact Bool.false_ne_true
  show bisectIdxFrom c4T2 c4H2 33 0 (16 + 1) = _
  rw [bisectIdxFrom_succ c4T2 c4H2 33 0 16, if_neg hc2]

lemma c4b34 : bisectIdxFrom c4T2 c4H2 34 0 16 = bisectIdxFrom c4T2 c4H2 35 0 15 := by
  have hc : c4T2 (c4H2 * (2 * ((0 : ℕ) : ℚ) + 1) / 2 ^ (34 + 1)) = false := by
    norm_num [c4T2, mpTest, calculateFullMonthlyPayment, calculateMonthlyPayment,
        c4CexInputs, c4CexInputsHigher, availFor, c4H2, c4y2, PMI_RATE]
  have hc2 : ¬ (c4T2 (c4H2 * (2 * ((0 : ℕ) : ℚ) + 1) / 2 ^ (34 + 1)) = true) := by
    rw [hc]; exact Bool.false_ne_true
  show bisectIdxFrom c4T2 c4H2 34 0 (15 + 1) = _
  rw [bisectIdxFrom_succ c4T2 c4H2 34 0 15, if_neg hc2]

lemma c4b35 : bisectIdxFrom c4T2 c4H2 35 0 15 = bisectIdxFrom c4T2 c4H2 36 0 14 := by
  have hc : c4T2 (c4H2 * (2 * ((0 : ℕ) : ℚ) + 1) / 2 ^ (35 + 1)) = false := by
    norm_num [c4T2, mpTest, calculateFullMonthlyPayment, calculateMonthlyPayment,
        c4CexInputs, c4CexInputsHigher, availFor, c4H2, c4y2, PMI_RATE]
  have hc2 : ¬ (c4T2 (c4H2 * (2 * ((0 : ℕ) : ℚ) + 1) / 2 ^ (35 + 1)) = true) := by
    rw [hc]; exact Bool.false_ne_true
  show bisectIdxFrom c4T2 c4H2 35 0 (14 + 1) = _
  rw [bisectIdxFrom_succ c4T2 c4H2 35 0 14, if_neg hc2]

lemma c4b36 : bisectIdxFrom c4T2 c4H2 36 0 14 = bisectIdxFrom c4T2 c4H2 37 0 13 := by
  have hc : c4T2 (c4H2 * (2 * ((0 : ℕ) : ℚ) + 1) / 2 ^ (36 + 1)) = false := by
    norm_num [c4T2, mpTest, calculateFullMonthlyPayment, calculateMonthlyPayment,
        c4CexInputs, c4CexInputsHigher, availFor, c4H2, c4y2, PMI_RATE]
  have hc2 : ¬ (c4T2 (c4H2 * (2 * ((0 : ℕ) : ℚ) + 1) / 2 ^ (36 + 1)) = true) := by
    rw [hc]; exact Bool.false_ne_true
  show bisectIdxFrom c4T2 c4H2 36 0 (13 + 1) = _
  rw [bisectIdxFrom_succ c4T2 c4H2 36 0 13, if_neg hc2]

lemma c4b37 : bisectIdxFrom c4T2 c4H2 37 0 13 = bisectIdxFrom c4T2 c4H2 38 0 12 := by
  have hc : c4T2 (c4H2 * (2 * ((0 : ℕ) : ℚ) + 1) / 2 ^ (37 + 1)) = false := by
    norm_num [c4T2, mpTest, calculateFullMonthlyPayment, calculateMonthlyPayment,
        c4CexInputs, c4CexInputsHigher, availFor, c4H2, c4y2, PMI_RATE]
  have hc2 : ¬ (c4T2 (c4H2 * (2 * ((0 : ℕ) : ℚ) + 1) / 2 ^ (37 + 1)) = true) := by
    rw [hc]; exact Bool.false_ne_true
  show bisectIdxFrom c4T2 c4H2 37 0 (12 + 1) = _
  rw [bisectIdxFrom_succ c4T2 c4H2 37 0 12, if_neg hc2]

lemma c4b38 : bisectIdxFrom c4T2 c4H2 38 0 12 = bisectIdxFrom c4T2 c4H2 39 0 11 := by
  have hc : c4T2 (c4H2 * (2 * ((0 : ℕ) : ℚ) + 1) / 2 ^ (38 + 1)) = false := by
    norm_num [c4T2, mpTest, calculateFullMonthlyPayment, calculateMonthlyPayment,
        c4CexInputs, c4CexInputsHigher, availFor, c4H2, c4y2, PMI_RATE]
  have hc2 : ¬ (c4T2 (c4H2 * (2 * ((0 : ℕ) : ℚ) + 1) / 2 ^ (38 + 1)) = true) := by
    rw [hc]; exact Bool.false_ne_true
  show bisectIdxFrom c4T2 c4H2 38 0 (11 + 1) = _
  rw [bisectIdxFrom_succ c4T2 c4H2 38 0 11, if_neg hc2]

lemma c4b39 : bisectIdxFrom c4T2 c4H2 39 0 11 = bisectIdxFrom c4T2 c4H2 40 0 10 := by
  have hc : c4T2 (c4H2 * (2 * ((0 : ℕ) : ℚ) + 1) / 2 ^ (39 + 1)) = false := by
    norm_num [c4T2, mpTest, calculateFullMonthlyPayment, calculateMonthlyPayment,
        c4CexInputs, c4CexInputsHigher, availFor, c4H2, c4y2, PMI_RATE]
  have hc2 : ¬ (c4T2 (c4H2 * (2 * ((0 : ℕ) : ℚ) + 1) / 2 ^ (39 + 1)) = true) := by
    rw [hc]; exact Bool.false_ne_true
  show bisectIdxFrom c4T2 c4H2 39 0 (10 + 1) = _
  rw [bisectIdxFrom_succ c4T2 c4H2 39 0 10, if_neg hc2]

lemma c4b40 : bisectIdxFrom c4T2 c4H2 40 0 10 = bisectIdxFrom c4T2 c4H2 41 1 9 := by
  have hc : c4T2 (c4H2 * (2 * ((0 : ℕ) : ℚ) + 1) / 2 ^ (40 + 1)) = true := by
    norm_num [c4T2, mpTest, calculateFullMonthlyPayment, calculateMonthlyPayment,
        c4CexInputs, c4CexInputsHigher, availFor, c4H2, c4y2, PMI_RATE]
  show bisectIdxFrom c4T2 c4H2 40 0 (9 + 1) = _
  rw [bisectIdxFrom_succ c4T2 c4H2 40 0 9, if_pos hc]

lemma c4b41 : bisectIdxFrom c4T2 c4H2 41 1 9 = bisectIdxFrom c4T2 c4H2 42 3 8 := by
  have hc : c4T2 (c4H2 * (2 * ((1 : ℕ) : ℚ) + 1) / 2 ^ (41 + 1)) = true := by
    norm_num [c4T2, mpTest, calculateFullMonthlyPayment, calculateMonthlyPayment,
        c4CexInputs, c4CexInputsHigher, availFor, c4H2, c4y2, PMI_RATE]
  show bisectIdxFrom c4T2 c4H2 41 1 (8 + 1) = _
  rw [bisectIdxFrom_succ c4T2 c4H2 41 1 8, if_pos hc]

lemma c4b42 : bisectIdxFrom c4T2 c4H2 42 3 8 = bisectIdxFrom c4T2 c4H2 43 7 7 := by
  have hc : c4T2 (c4H2 * (2 * ((3 : ℕ) : ℚ) + 1) / 2 ^ (42 + 1)) = true := by
    norm_num [c4T2, mpTest, calculateFullMonthlyPayment, calculateMonthlyPayment,
        c4CexInputs, c4CexInputsHigher, availFor, c4H2, c4y2, PMI_RATE]
  show bisectIdxFrom c4T2 c4H2 42 3 (7 + 1) = _
  rw [bisectIdxFrom_succ c4T2 c4H2 42 3 7, if_pos hc]

lemma c4b43 : bisectIdxFrom c4T2 c4H2 43 7 7 = bisectIdxFrom c4T2 c4H2 44 15 6 := by
  have hc : c4T2 (c4H2 * (2 * ((7 : ℕ) : ℚ) + 1) / 2 ^ (43 + 1)) = true := by
    norm_num [c4T2, mpTest, calculateFullMonthlyPayment, calculateMonthlyPayment,
        c4CexInputs, c4CexInputsHigher, availFor, c4H2, c4y2, PMI_RATE]
  show bisectIdxFrom c4T2 c4H2 43 7 (6 + 1) = _
  rw [bisectIdxFrom_succ c4T2 c4H2 43 7 6, if_pos hc]

lemma c4b44 : bisectIdxFrom c4T2 c4H2 44 15 6 = bisectIdxFrom c4T2 c4H2 45 31 5 := by
  have hc : c4T2 (c4H2 * (2 * ((15 : ℕ) : ℚ) + 1) / 2 ^ (44 + 1)) = true := by
    norm_num [c4T2, mpTest, calculateFullMonthlyPayment, calculateMonthlyPayment,
        c4CexInputs, c4CexInputsHigher, availFor, c4H2, c4y2, PMI_RATE]
  show bisectIdxFrom c4T2 c4H2 44 15 (5 + 1) = _
  rw [bisectIdxFrom_succ c4T2 c4H2 44 15 5, if_pos hc]

lemma c4b45 : bisectIdxFrom c4T2 c4H2 45 31 5 = bisectIdxFrom c4T2 c4H2 46 62 4 := by
  have hc : c4T2 (c4H2 * (2 * ((31 : ℕ) : ℚ) + 1) / 2 ^ (45 + 1)) = false := by
    norm_num [c4T2, mpTest, calculateFullMonthlyPayment, calculateMonthlyPayment,
        c4CexInputs, c4CexInputsHigher, availFor, c4H2, c4y2, PMI_RATE]
  have hc2 : ¬ (c4T2 (c4H2 * (2 * ((31 : ℕ) : ℚ) + 1) / 2 ^ (45 + 1)) = true) := by
    rw [hc]; exact Bool.false_ne_true
  show bisectIdxFrom c4T2 c4H2 45 31 (4 + 1) = _
  rw [bisectIdxFrom_succ c4T2 c4H2 45 31 4, if_neg hc2]

lemma c4b46 : bisectIdxFrom c4T2 c4H2 46 62 4 = bisectIdxFrom c4T2 c4H2 47 124 3 := by
  have hc : c4T2 (c4H2 * (2 * ((62 : ℕ) : ℚ) + 1) / 2 ^ (46 + 1)) = false := by
    norm_num [c4T2, mpTest, calculateFullMonthlyPayment, calculateMonthlyPayment,
        c4CexInputs, c4CexInputsHigher, availFor, c4H2, c4y2, PMI_RATE]
  have hc2 : ¬ (c4T2 (c4H2 * (2 * ((62 : ℕ) : ℚ) + 1) / 2 ^ (46 + 1)) = true) := by
    rw [hc]; exact Bool.false_ne_true
  show bisectIdxFrom c4T2 c4H2 46 62 (3 + 1) = _
  rw [bisectIdxFrom_succ c4T2 c4H2 46 62 3, if_neg hc2]

lemma c4b47 : bisectIdxFrom c4T2 c4H2 47 124 3 = bisectIdxFrom c4T2 c4H2 48 249 2 := by
  have hc : c4T2 (c4H2 * (2 * ((124 : ℕ) : ℚ) + 1) / 2 ^ (47 + 1)) = true := by
    norm_num [c4T2, mpTest, calculateFullMonthlyPayment, calculateMonthlyPayment,
        c4CexInputs, c4CexInputsHigher, availFor, c4H2, c4y2, PMI_RATE]
  show bisectIdxFrom c4T2 c4H2 47 124 (2 + 1) = _
  rw [bisectIdxFrom_succ c4T2 c4H2 47 124 2, if_pos hc]

lemma c4b48 : bisectIdxFrom c4T2 c4H2 48 249 2 = bisectIdxFrom c4T2 c4H2 49 499 1 := by
  have hc : c4T2 (c4H2 * (2 * ((249 : ℕ) : ℚ) + 1) / 2 ^ (48 + 1)) = true := by
    norm_num [c4T2, mpTest, calculateFullMonthlyPayment, calculateMonthlyPayment,
        c4CexInputs, c4CexInputsHigher, availFor, c4H2, c4y2, PMI_RATE]
  show bisectIdxFrom c4T2 c4H2 48 249 (1 + 1) = _
  rw [bisectIdxFrom_succ c4T2 c4H2 48 249 1, if_pos hc]

lemma c4b49 : bisectIdxFrom c4T2 c4H2 49 499 1 = bisectIdxFrom c4T2 c4H2 50 999 0 := by
  have hc : c4T2 (c4H2 * (2 * ((499 : ℕ) : ℚ) + 1) / 2 ^ (49 + 1)) = true := by
    norm_num [c4T2, mpTest, calculateFullMonthlyPayment, calculateMonthlyPayment,
        c4CexInputs, c4CexInputsHigher, availFor, c4H2, c4y2, PMI_RATE]
  show bisectIdxFrom c4T2 c4H2 49 499 (0 + 1) = _
  rw [bisectIdxFrom_succ c4T2 c4H2 49 499 0, if_pos hc]

/-- The dyadic index reached by the 50 bisection steps at the higher income. -/
lemma c4KB : bisectIdxFrom c4T2 c4H2 0 0 50 = 999 := by
  rw [c4b0, c4b1, c4b2, c4b3, c4b4, c4b5, c4b6, c4b7, c4b8, c4b9, c4b10, c4b11, c4b12, c4b13, c4b14, c4b15, c4b16, c4b17, c4b18, c4b19, c4b20, c4b21, c4b22, c4b23, c4b24, c4b25, c4b26, c4b27, c4b28, c4b29, c4b30, c4b31, c4b32, c4b33, c4b34, c4b35, c4b36, c4b37, c4b38, c4b39, c4b40, c4b41, c4b42, c4b43, c4b44, c4b45, c4b46, c4b47, c4b48, c4b49]
  rfl

/-- Concrete value of `calculateMaxHomePrice` at the lower income. -/
lemma c4eval1 : calculateMaxHomePrice c4CexInputs = 450045 := by
  have hI : c4CexInputs.annualIncome = some c4y1 := rfl
  have hy : ¬ (c4y1 ≤ 0) := by norm_num [c4y1]
  have hav : ¬ (availFor c4CexInputs c4y1 ≤ 0) := by
    norm_num [availFor, c4CexInputs, c4y1]
  rw [maxPrice_eq_round c4CexInputs c4y1 hI hy hav,
    show mpTest c4CexInputs (availFor c4CexInputs c4y1) = c4T1 from rfl,
    show c4y1 * 10 = c4H1 from rfl, c4KA]
  norm_num [c4H1, c4y1, round_eq]

/-- Concrete value of `calculateMaxHomePrice` at the higher income. -/
lemma c4eval2 : calculateMaxHomePrice c4CexInputsHigher = 449955 := by
  have hI : c4CexInputsHigher.annualIncome = some c4y2 := rfl
  have hy : ¬ (c4y2 ≤ 0) := by norm_num [c4y2]
  have hav : ¬ (availFor c4CexInputsHigher c4y2 ≤ 0) := by
    norm_num [availFor, c4CexInputsHigher, c4CexInputs, c4y2]
  rw [maxPrice_eq_round c4CexInputsHigher c4y2 hI hy hav,
    show mpTest c4CexInputsHigher (availFor c4CexInputsHigher c4y2) = c4T2 from rfl,
    show c4y2 * 10 = c4H2 from rfl, c4KB]
  norm_num [c4H2, c4y2, round_eq]

/-- C4 counterexample: the claim that `calculateMaxHomePrice` is non-decreasing
in `annualIncome` with all other inputs fixed fails at these concrete inputs:
the income grows but the computed max price drops from 450045 to 449955. -/
theorem C4_counterexample :
    c4CexInputsHigher = { c4CexInputs with annualIncome := some (900001 * 2 ^ 47 / 2499) } ∧
    (900001 * 2 ^ 47 / 2501 : ℚ) < 900001 * 2 ^ 47 / 2499 ∧
    calculateMaxHomePrice c4CexInputsHigher < calculateMaxHomePrice c4CexInputs := by
  refine ⟨rfl, by norm_num, ?_⟩
  rw [c4eval1, c4eval2]
  norm_num

/-- C4 (amended): `calculateMaxHomePrice` is non-decreasing in `frontDtiPct`
and in `downPaymentPct` (including across the 20%-down PMI threshold) and
non-increasing in `monthlyDebts`, each with all other inputs fixed; it is
non-decreasing in `annualIncome` provided `monthlyDebts`, `annualInsurance`,
`hoaMonthly` and `frontDtiPct` are non-negative and `downPaymentPct` is at
most 100 (without the sign restriction the income direction fails, see the
counterexample). -/
theorem C4_maxPrice_monotone_amended (i : AffordabilityInputs) :
    (∀ y1 y2 : ℚ, 0 ≤ i.monthlyDebts → 0 ≤ i.annualInsurance → 0 ≤ i.hoaMonthly →
      0 ≤ i.frontDtiPct → i.downPaymentPct ≤ 100 → y1 ≤ y2 →
      calculateMaxHomePrice { i with annualIncome := some y1 }
        ≤ calculateMaxHomePrice { i with annualIncome := some y2 }) ∧
    (∀ f1 f2 : ℚ, f1 ≤ f2 →
      calculateMaxHomePrice { i with frontDtiPct := f1 }
        ≤ calculateMaxHomePrice { i with frontDtiPct := f2 }) ∧
    (∀ d1 d2 : ℚ, d1 ≤ d2 →
      calculateMaxHomePrice { i with downPaymentPct := d1 }
        ≤ calculateMaxHomePrice { i with downPaymentPct := d2 }) ∧
    (∀ D1 D2 : ℚ, D1 ≤ D2 →
      calculateMaxHomePrice { i with monthlyDebts := D2 }
        ≤ calculateMaxHomePrice { i with monthlyDebts := D1 }) :=
  ⟨fun y1 y2 h1 h2 h3 h4 h5 h6 => maxPrice_mono_income i y1 y2 h1 h2 h3 h4 h5 h6,
   fun f1 f2 hf => maxPrice_mono_front i f1 f2 hf,
   fun d1 d2 hd => maxPrice_mono_down i d1 d2 hd,
   fun D1 D2 hD => maxPrice_anti_debts i D1 D2 hD⟩

theorem C4_maxPrice_monotone_amended_witness :
    (0 : ℚ) ≤ defaultInputs.monthlyDebts ∧ (0 : ℚ) ≤ defaultInputs.annualInsurance ∧
    (0 : ℚ) ≤ defaultInputs.hoaMonthly ∧ (0 : ℚ) ≤ defaultInputs.frontDtiPct ∧
    defaultInputs.downPaymentPct ≤ 100 ∧
    calculateMaxHomePrice { defaultInputs with annualIncome := some 50000 }
      ≤ calculateMaxHomePrice { defaultInputs with annualIncome := some 150000 } ∧
    calculateMaxHomePrice { defaultInputs with frontDtiPct := 25 }
      ≤ calculateMaxHomePrice { defaultInputs with frontDtiPct := 35 } ∧
    calculateMaxHomePrice { defaultInputs with downPaymentPct := 5 }
      ≤ calculateMaxHomePrice { defaultInputs with downPaymentPct := 30 } ∧
    calculateMaxHomePrice { defaultInputs with monthlyDebts := 1500 }
      ≤ calculateMaxHomePrice { defaultInputs with monthlyDebts := 0 } := by
  obtain ⟨h1, h2, h3, h4⟩ := C4_maxPrice_monotone_amended defaultInputs
  refine ⟨by norm_num [defaultInputs], by norm_num [defaultInputs], by norm_num [defaultInputs],
    by norm_num [defaultInputs], by norm_num [defaultInputs], ?_, ?_, ?_, ?_⟩
  · exact h1 50000 150000 (by norm_num [defaultInputs]) (by norm_num [defaultInputs])
      (by norm_num [defaultInputs]) (by norm_num [defaultInputs])
      (by norm_num [defaultInputs]) (by norm_num)
  · exact h2 25 35 (by norm_num)
  · exact h3 5 30 (by norm_num)
  · exact h4 0 1500 (by norm_num)

/-! ### Tier cascade lemmas (claims C1 and C3) -/

/-- Downgrade order on tiers: larger rank means worse. -/
def tierRank : AffordabilityTier → ℕ
  | .affordable => 0
  | .stretch => 1
  | .unaffordable => 2
  | .unknown => 3

lemma baseDtiTier_ne_unknown (d : ℚ) (i : AffordabilityInputs) :
    baseDtiTier d i ≠ .unknown := by
  unfold baseDtiTier
  split_ifs <;> simp

lemma baseDtiTier_cases (d : ℚ) (i : AffordabilityInputs) :
    baseDtiTier d i = .affordable ∨ baseDtiTier d i = .stretch ∨
      baseDtiTier d i = .unaffordable := by
  unfold baseDtiTier
  split_ifs <;> simp

/-- Shape of `getAffordabilityTier` in the spending-included case. -/
lemma tier_spending_eq (hp y : ℚ) (i : AffordabilityInputs)
    (hI : i.annualIncome = some y) (hy : ¬ y ≤ 0)
    (hs : i.includeSpending = true) (hsp : 0 < i.monthlySpending) :
    getAffordabilityTier (some hp) i =
      (let totalDebts := (calculateFullMonthlyPayment hp i).total + i.monthlyDebts
       let tier := baseDtiTier (totalDebts / (y / 12)) i
       let remainingCashFlow := y / 12 - totalDebts - i.monthlySpending
       let cashFlowPct := remainingCashFlow / (y / 12)
       let tier1 : AffordabilityTier :=
         if remainingCashFlow < 0 then .unaffordable
         else if remainingCashFlow < 500 then .unaffordable
         else if cashFlowPct < 0.15 ∧ tier = .affordable then .stretch
         else tier
       if cashFlowPct < 0.25 ∧ tier1 = .stretch then .unaffordable else tier1) := by
  unfold getAffordabilityTier
  rw [hI]
  dsimp only
  rw [if_neg hy, if_pos (⟨hs, hsp⟩ : i.includeSpending = true ∧ 0 < i.monthlySpending)]

/-- Shape of `getAffordabilityTier` in the no-spending case. -/
lemma tier_no_spending_eq (hp y : ℚ) (i : AffordabilityInputs)
    (hI : i.annualIncome = some y) (hy : ¬ y ≤ 0)
    (hns : ¬ (i.includeSpending = true ∧ 0 < i.monthlySpending)) :
    getAffordabilityTier (some hp) i =
      baseDtiTier (((calculateFullMonthlyPayment hp i).total + i.monthlyDebts) / (y / 12)) i := by
  unfold getAffordabilityTier
  rw [hI]
  dsimp only
  rw [if_neg hy, if_neg hns]

lemma tier_none_price (i : AffordabilityInputs) : getAffordabilityTier none i = .unknown := by
  unfold getAffordabilityTier
  rcases i.annualIncome with _ | y <;> rfl

lemma tier_pos_ne_unknown (hp y : ℚ) (i : AffordabilityInputs)
    (hI : i.annualIncome = some y) (hy : ¬ y ≤ 0) :
    getAffordabilityTier (some hp) i ≠ .unknown := by
  by_cases hs : i.includeSpending = true ∧ 0 < i.monthlySpending
  · rw [tier_spending_eq hp y i hI hy hs.1 hs.2]
    dsimp only
    rcases baseDtiTier_cases (((calculateFullMonthlyPayment hp i).total + i.monthlyDebts)
      / (y / 12)) i with hb | hb | hb <;> rw [hb] <;> split_ifs <;> simp
  · rw [tier_no_spending_eq hp y i hI hy hs]
    exact baseDtiTier_ne_unknown _ _

/-- C3: `getAffordabilityTier` is a total function whose result is `unknown`
exactly when the home price is null or the income is null or non-positive; in
every other case the result is one of the three real tiers. -/
theorem C3_tier_total (homePrice : Option ℚ) (i : AffordabilityInputs) :
    (getAffordabilityTier homePrice i = .unknown ↔
      homePrice = none ∨ i.annualIncome = none ∨
        ∃ y : ℚ, i.annualIncome = some y ∧ y ≤ 0) ∧
    (∀ hp y : ℚ, homePrice = some hp → i.annualIncome = some y → 0 < y →
      getAffordabilityTier homePrice i = .affordable ∨
      getAffordabilityTier homePrice i = .stretch ∨
      getAffordabilityTier homePrice i = .unaffordable) := by
  constructor
  · constructor
    · intro h
      rcases homePrice with _ | hp
      · exact Or.inl rfl
      · rcases hI : i.annualIncome with _ | y
        · exact Or.inr (Or.inl rfl)
        · by_cases hy : y ≤ 0
          · exact Or.inr (Or.inr ⟨y, rfl, hy⟩)
          · exact absurd h (tier_pos_ne_unknown hp y i hI hy)
    · intro h
      rcases h with h | h | ⟨y, hI, hy⟩
      · rw [h, tier_none_price]
      · rcases homePrice with _ | hp
        · exact tier_none_price i
        · unfold getAffordabilityTier
          rw [h]
      · rcases homePrice with _ | hp
        · exact tier_none_price i
        · unfold getAffordabilityTier
          rw [hI]
          dsimp only
          rw [if_pos hy]
  · intro hp y hhp hI hy
    rw [hhp]
    have h := tier_pos_ne_unknown hp y i hI (not_le.2 hy)
    rcases hr : getAffordabilityTier (some hp) i with _ | _ | _ | _
    · exact Or.inl rfl
    · exact Or.inr (Or.inl rfl)
    · exact Or.inr (Or.inr rfl)
    · exact absurd hr h

theorem C3_tier_total_witness :
    getAffordabilityTier (some 200000) { defaultInputs with annualIncome := some 0 } = .unknown ∧
    (getAffordabilityTier (some 200000) defaultInputs = .affordable ∨
     getAffordabilityTier (some 200000) defaultInputs = .stretch ∨
     getAffordabilityTier (some 200000) defaultInputs = .unaffordable) := by
  constructor
  · exact (C3_tier_total (some 200000) { defaultInputs with annualIncome := some 0 }).1.2
      (Or.inr (Or.inr ⟨0, rfl, le_rfl⟩))
  · exact (C3_tier_total (some 200000) defaultInputs).2 200000 47000 rfl rfl (by norm_num)

/-- Inputs of the C1 example: defaults with annual income 60000, monthly
spending 3500 and spending included. -/
def c1ExampleInputs : AffordabilityInputs :=
  { defaultInputs with
      annualIncome := some 60000
      monthlySpending := 3500
      includeSpending := true }

lemma tier_spending_downgrade_only (hp y : ℚ) (i : AffordabilityInputs)
    (hI : i.annualIncome = some y) (hy : 0 < y)
    (hs : i.includeSpending = true) (hsp : 0 < i.monthlySpending) :
    tierRank (baseDtiTier (((calculateFullMonthlyPayment hp i).total + i.monthlyDebts)
        / (y / 12)) i)
      ≤ tierRank (getAffordabilityTier (some hp) i) := by
  rw [tier_spending_eq hp y i hI (not_le.2 hy) hs hsp]
  dsimp only
  rcases baseDtiTier_cases (((calculateFullMonthlyPayment hp i).total + i.monthlyDebts)
      / (y / 12)) i with hb | hb | hb <;> rw [hb] <;> split_ifs <;> simp_all [tierRank]

lemma tier_spending_cascade (hp y : ℚ) (i : AffordabilityInputs)
    (hI : i.annualIncome = some y) (hy : 0 < y)
    (hs : i.includeSpending = true) (hsp : 0 < i.monthlySpending)
    (hbase : baseDtiTier (((calculateFullMonthlyPayment hp i).total + i.monthlyDebts)
        / (y / 12)) i = .affordable)
    (hpct : (y / 12 - ((calculateFullMonthlyPayment hp i).total + i.monthlyDebts)
        - i.monthlySpending) / (y / 12) < 0.15) :
    getAffordabilityTier (some hp) i = .unaffordable := by
  rw [tier_spending_eq hp y i hI (not_le.2 hy) hs hsp]
  dsimp only
  rw [hbase]
  split_ifs <;>
    first
      | rfl
      | exact absurd (⟨hpct, rfl⟩ :
          (y / 12 - ((calculateFullMonthlyPayment hp i).total + i.monthlyDebts)
            - i.monthlySpending) / (y / 12) < 0.15 ∧
          AffordabilityTier.affordable = AffordabilityTier.affordable) (by assumption)
      | exact absurd (⟨by linarith, rfl⟩ :
          (y / 12 - ((calculateFullMonthlyPayment hp i).total + i.monthlyDebts)
            - i.monthlySpending) / (y / 12) < 0.25 ∧
          AffordabilityTier.stretch = AffordabilityTier.stretch) (by assumption)

/-- C1: when spending is included and positive, the cash-flow step of
`getAffordabilityTier` only ever moves the tier downward (never toward
`affordable`); a base tier of `affordable` with cash-flow percentage below
0.15 cascades through `stretch` to `unaffordable` within the same call,
because the 0.25 check is not an `else if`; in particular a 120000 home with
annual income 60000, monthly spending 3500, spending included and the default
remaining inputs is classified `unaffordable`. -/
theorem C1_cashflow_cascade :
    (∀ (hp y : ℚ) (i : AffordabilityInputs), i.annualIncome = some y → 0 < y →
      i.includeSpending = true → 0 < i.monthlySpending →
      tierRank (baseDtiTier (((calculateFullMonthlyPayment hp i).total + i.monthlyDebts)
          / (y / 12)) i)
        ≤ tierRank (getAffordabilityTier (some hp) i)) ∧
    (∀ (hp y : ℚ) (i : AffordabilityInputs), i.annualIncome = some y → 0 < y →
      i.includeSpending = true → 0 < i.monthlySpending →
      baseDtiTier (((calculateFullMonthlyPayment hp i).total + i.monthlyDebts)
          / (y / 12)) i = .affordable →
      (y / 12 - ((calculateFullMonthlyPayment hp i).total + i.monthlyDebts)
          - i.monthlySpending) / (y / 12) < 0.15 →
      getAffordabilityTier (some hp) i = .unaffordable) ∧
    getAffordabilityTier (some 120000) c1ExampleInputs = .unaffordable := by
  refine ⟨fun hp y i h1 h2 h3 h4 => tier_spending_downgrade_only hp y i h1 h2 h3 h4,
    fun hp y i h1 h2 h3 h4 h5 h6 => tier_spending_cascade hp y i h1 h2 h3 h4 h5 h6, ?_⟩
  norm_num [getAffordabilityTier, c1ExampleInputs, defaultInputs, baseDtiTier,
    calculateFullMonthlyPayment, calculateMonthlyPayment, PMI_RATE]

set_option maxRecDepth 100000 in
theorem C1_cashflow_cascade_witness :
    baseDtiTier (((calculateFullMonthlyPayment 120000 c1ExampleInputs).total
        + c1ExampleInputs.monthlyDebts) / (60000 / 12)) c1ExampleInputs = .affordable ∧
    (60000 / 12 - ((calculateFullMonthlyPayment 120000 c1ExampleInputs).total
        + c1ExampleInputs.monthlyDebts) - c1ExampleInputs.monthlySpending) / (60000 / 12)
      < 0.15 ∧
    getAffordabilityTier (some 120000) c1ExampleInputs = .unaffordable ∧
    tierRank (baseDtiTier (((calculateFullMonthlyPayment 120000 c1ExampleInputs).total
        + c1ExampleInputs.monthlyDebts) / (60000 / 12)) c1ExampleInputs)
      ≤ tierRank (getAffordabilityTier (some 120000) c1ExampleInputs) := by
  have hb : baseDtiTier (((calculateFullMonthlyPayment 120000 c1ExampleInputs).total
      + c1ExampleInputs.monthlyDebts) / (60000 / 12)) c1ExampleInputs = .affordable := by
    norm_num [baseDtiTier, c1ExampleInputs, defaultInputs,
      calculateFullMonthlyPayment, calculateMonthlyPayment, PMI_RATE]
  have hc : (60000 / 12 - ((calculateFullMonthlyPayment 120000 c1ExampleInputs).total
      + c1ExampleInputs.monthlyDebts) - c1ExampleInputs.monthlySpending) / (60000 / 12)
      < (0.15 : ℚ) := by
    norm_num [c1ExampleInputs, defaultInputs,
      calculateFullMonthlyPayment, calculateMonthlyPayment, PMI_RATE]
  refine ⟨hb, hc, ?_, ?_⟩
  · exact C1_cashflow_cascade.2.1 120000 60000 c1ExampleInputs rfl (by norm_num) rfl
      (by norm_num [c1ExampleInputs, defaultInputs]) hb hc
  · exact C1_cashflow_cascade.1 120000 60000 c1ExampleInputs rfl (by norm_num) rfl
      (by norm_num [c1ExampleInputs, defaultInputs])

/-- C5: the PMI component of `calculateFullMonthlyPayment` equals
`loanAmount * 0.007 / 12` exactly when `downPaymentPct < 20` and is 0 when
`downPaymentPct ≥ 20`, with no phase-in; for any positive price it is positive
at 19% down and zero at 20% down. -/
theorem C5_pmi_threshold (hp : ℚ) (i : AffordabilityInputs) :
    (i.downPaymentPct < 20 →
      (calculateFullMonthlyPayment hp i).pmi
        = hp * (1 - i.downPaymentPct / 100) * 0.007 / 12) ∧
    (20 ≤ i.downPaymentPct → (calculateFullMonthlyPayment hp i).pmi = 0) ∧
    (0 < hp →
      0 < (calculateFullMonthlyPayment hp { i with downPaymentPct := 19 }).pmi ∧
      (calculateFullMonthlyPayment hp { i with downPaymentPct := 20 }).pmi = 0) := by
  refine ⟨?_, ?_, ?_⟩
  · intro h
    unfold calculateFullMonthlyPayment
    dsimp only
    rw [if_pos h]
    norm_num [PMI_RATE]
  · intro h
    unfold calculateFullMonthlyPayment
    dsimp only
    rw [if_neg (not_lt.2 h)]
  · intro h
    constructor
    · unfold calculateFullMonthlyPayment
      dsimp only
      rw [if_pos (by norm_num : (19 : ℚ) < 20)]
      have h81 : (0 : ℚ) < hp * (1 - 19 / 100) := by nlinarith
      have hrate : (0 : ℚ) < PMI_RATE := by norm_num [PMI_RATE]
      have hprod : (0 : ℚ) < hp * (1 - 19 / 100) * PMI_RATE := mul_pos h81 hrate
      linarith
    · unfold calculateFullMonthlyPayment
      dsimp only
      rw [if_neg (by norm_num : ¬ (20 : ℚ) < 20)]

theorem C5_pmi_threshold_witness :
    (calculateFullMonthlyPayment 300000 { defaultInputs with downPaymentPct := 10 }).pmi
        = 300000 * (1 - 10 / 100) * 0.007 / 12 ∧
    (calculateFullMonthlyPayment 300000 defaultInputs).pmi = 0 ∧
    0 < (calculateFullMonthlyPayment 300000
        { defaultInputs with downPaymentPct := 19 }).pmi ∧
    (calculateFullMonthlyPayment 300000
        { defaultInputs with downPaymentPct := 20 }).pmi = 0 := by
  obtain ⟨h1, h2, h3⟩ := C5_pmi_threshold 300000 defaultInputs
  obtain ⟨h1a, -, -⟩ := C5_pmi_threshold 300000 { defaultInputs with downPaymentPct := 10 }
  obtain ⟨h3a, h3b⟩ := h3 (by norm_num)
  exact ⟨h1a (by norm_num [defaultInputs]), h2 (by norm_num [defaultInputs]), h3a, h3b⟩

lemma calculateMonthlyPayment_pos_eq (p r : ℚ) (n : ℕ) (hp : ¬ p ≤ 0) (hr : ¬ r ≤ 0) :
    calculateMonthlyPayment p r n
      = p * (r / 100 / 12) * (1 + r / 100 / 12) ^ (n * 12)
          / ((1 + r / 100 / 12) ^ (n * 12) - 1) := by
  unfold calculateMonthlyPayment
  rw [if_neg hp, if_neg hr]

/-- C8: for every positive principal and rate, the 15-year monthly payment
exceeds the 30-year one, while the total paid over the 15-year loan is less
than over the 30-year loan. -/
theorem C8_term_tradeoff (p r : ℚ) (hp : 0 < p) (hr : 0 < r) :
    calculateMonthlyPayment p r 30 < calculateMonthlyPayment p r 15 ∧
    calculateMonthlyPayment p r 15 * 15 * 12 < calculateMonthlyPayment p r 30 * 30 * 12 := by
  have hnp : ¬ p ≤ 0 := not_le.2 hp
  have hnr : ¬ r ≤ 0 := not_le.2 hr
  rw [calculateMonthlyPayment_pos_eq p r 30 hnp hnr,
    calculateMonthlyPayment_pos_eq p r 15 hnp hnr]
  have hmr : (0 : ℚ) < r / 100 / 12 := by linarith
  have hx1 : (1 : ℚ) < 1 + r / 100 / 12 := by linarith
  have h360 : (1 + r / 100 / 12) ^ (30 * 12)
      = ((1 + r / 100 / 12) ^ (15 * 12)) ^ 2 := by
    rw [← pow_mul]
  rw [h360]
  obtain ⟨X, hXdef⟩ : ∃ X : ℚ, X = (1 + r / 100 / 12) ^ (15 * 12) := ⟨_, rfl⟩
  rw [← hXdef]
  have hX1 : (1 : ℚ) < X := by
    rw [hXdef]
    exact one_lt_pow₀ hx1 (by norm_num)
  clear hXdef h360
  have hXpos : (0 : ℚ) < X := by linarith
  have hd1 : (0 : ℚ) < X - 1 := by linarith
  have hd2 : (0 : ℚ) < X ^ 2 - 1 := by nlinarith
  constructor
  · rw [div_lt_div_iff₀ hd2 hd1]
    nlinarith [mul_pos (mul_pos (mul_pos hp hmr) hXpos) hd1]
  · have e1 : p * (r / 100 / 12) * X / (X - 1) * 15 * 12
        = p * (r / 100 / 12) * X * 180 / (X - 1) := by
      ring
    have e2 : p * (r / 100 / 12) * X ^ 2 / (X ^ 2 - 1) * 30 * 12
        = p * (r / 100 / 12) * X ^ 2 * 360 / (X ^ 2 - 1) := by
      ring
    rw [e1, e2, div_lt_div_iff₀ hd1 hd2]
    nlinarith [mul_pos (mul_pos (mul_pos (mul_pos hp hmr) hXpos) hd1) hd1]

theorem C8_term_tradeoff_witness :
    calculateMonthlyPayment 200000 (13 / 2) 30 < calculateMonthlyPayment 200000 (13 / 2) 15 ∧
    calculateMonthlyPayment 200000 (13 / 2) 15 * 15 * 12
      < calculateMonthlyPayment 200000 (13 / 2) 30 * 30 * 12 :=
  C8_term_tradeoff 200000 (13 / 2) (by norm_num) (by norm_num)

/-! ### Housing data model (housingData.ts) -/

/-- Fair-market-rent record by bedroom count, from the raw ZIP data. -/
structure Fmr where
  br0 : Option ℚ
  br1 : Option ℚ
  br2 : Option ℚ
  br3 : Option ℚ
  br4 : Option ℚ
deriving DecidableEq, Repr

/-- `ZipRecord` (housingData.ts lines 6-18): one raw record per ZIP code. -/
structure ZipRecord where
  name : Option String
  state : Option String
  medianHomeValue : Option ℚ
  medianRent : Option ℚ
  fmr : Option Fmr
deriving DecidableEq, Repr

/-- `HousingDataEntry`: the join of a ZipRecord with its centroid. -/
structure HousingDataEntry where
  zip : String
  name : Option String
  state : Option String
  lat : ℚ
  lon : ℚ
  medianHomeValue : Option ℚ
  medianRent : Option ℚ
  fmr : Option Fmr
deriving DecidableEq, Repr

/-- `median` (housingData.ts lines 71-76): sort a copy ascending; odd length
takes the middle element, even length averages the two middle elements,
empty gives null. -/
def median (values : List ℚ) : Option ℚ :=
  if values.length = 0 then none
  else
    let sorted := values.insertionSort (· ≤ ·)
    let mid := sorted.length / 2
    if sorted.length % 2 = 1 then some (sorted.getD mid 0)
    else some ((sorted.getD (mid - 1) 0 + sorted.getD mid 0) / 2)

/-- `HousingStats` (aggregate over a set of entries).  The `meta` field of the
source is a pass-through of a module-level fetch cache and stays outside the
modelled core. -/
structure HousingStats where
  zipCount : ℕ
  medianHomeValue : Option ℚ
  medianRent : Option ℚ
  minHomeValue : Option ℚ
  maxHomeValue : Option ℚ
  minRent : Option ℚ
  maxRent : Option ℚ
  entries : List HousingDataEntry
deriving DecidableEq, Repr

/-- `buildStats` (housingData.ts lines 78-93): aggregates over the non-null
values of each field; `zipCount` counts every entry; `entries` is kept whole.
`Math.min(...xs)`/`Math.max(...xs)` guarded by emptiness are `List.min?` and
`List.max?`. -/
def buildStats (entries : List HousingDataEntry) : HousingStats :=
  let homeValues := (entries.map (fun e => e.medianHomeValue)).filterMap id
  let rents := (entries.map (fun e => e.medianRent)).filterMap id
  { zipCount := entries.length
    medianHomeValue := median homeValues
    medianRent := median rents
    minHomeValue := homeValues.min?
    maxHomeValue := homeValues.max?
    minRent := rents.min?
    maxRent := rents.max?
    entries := entries }

/-- A bare entry used in concrete examples: only zip and home value vary. -/
def plainEntry (z : String) (v : Option ℚ) : HousingDataEntry :=
  { zip := z, name := none, state := none, lat := 0, lon := 0,
    medianHomeValue := v, medianRent := none, fmr := none }

/-- C7: `buildStats` counts every entry in `zipCount`, keeps the entry list
whole, computes each aggregate over only the non-null values of its field
(null when there are none, so the empty list gives a zero-ZIP all-null stats
object), and on home values [100000, null, 300000] yields zipCount 3, median
200000, min 100000, max 300000. -/
theorem C7_buildStats (entries : List HousingDataEntry) :
    ((buildStats entries).zipCount = entries.length ∧
     (buildStats entries).entries = entries) ∧
    ((buildStats entries).medianHomeValue
        = median ((entries.map (fun e => e.medianHomeValue)).filterMap id) ∧
     (buildStats entries).minHomeValue
        = ((entries.map (fun e => e.medianHomeValue)).filterMap id).min? ∧
     (buildStats entries).maxHomeValue
        = ((entries.map (fun e => e.medianHomeValue)).filterMap id).max? ∧
     (buildStats entries).medianRent
        = median ((entries.map (fun e => e.medianRent)).filterMap id) ∧
     (buildStats entries).minRent
        = ((entries.map (fun e => e.medianRent)).filterMap id).min? ∧
     (buildStats entries).maxRent
        = ((entries.map (fun e => e.medianRent)).filterMap id).max?) ∧
    ((entries.map (fun e => e.medianHomeValue)).filterMap id = [] →
      (buildStats entries).medianHomeValue = none ∧
      (buildStats entries).minHomeValue = none ∧
      (buildStats entries).maxHomeValue = none) ∧
    buildStats [] = ⟨0, none, none, none, none, none, none, []⟩ ∧
    (buildStats [plainEntry "a" (some 100000), plainEntry "b" none,
        plainEntry "c" (some 300000)]).zipCount = 3 ∧
    (buildStats [plainEntry "a" (some 100000), plainEntry "b" none,
        plainEntry "c" (some 300000)]).medianHomeValue = some 200000 ∧
    (buildStats [plainEntry "a" (some 100000), plainEntry "b" none,
        plainEntry "c" (some 300000)]).minHomeValue = some 100000 ∧
    (buildStats [plainEntry "a" (some 100000), plainEntry "b" none,
        plainEntry "c" (some 300000)]).maxHomeValue = some 300000 := by
  refine ⟨⟨rfl, rfl⟩, ⟨rfl, rfl, rfl, rfl, rfl, rfl⟩, ?_, rfl, rfl, ?_, ?_, ?_⟩
  · intro h
    refine ⟨?_, ?_, ?_⟩ <;> simp [buildStats, h, median]
  · norm_num [buildStats, plainEntry, median, List.insertionSort, List.orderedInsert,
      List.filterMap, List.getD]
  · norm_num [buildStats, plainEntry, List.min?, List.filterMap, min_def]
  · norm_num [buildStats, plainEntry, List.max?, List.filterMap, max_def]

theorem C7_buildStats_witness :
    (buildStats []).zipCount = 0 ∧ (buildStats []).medianHomeValue = none ∧
    (buildStats []).minHomeValue = none ∧ (buildStats []).maxHomeValue = none := by
  obtain ⟨-, -, h3, -⟩ := C7_buildStats []
  obtain ⟨ha, hb, hc⟩ := h3 (by simp)
  exact ⟨rfl, ha, hb, hc⟩

/-! ### Nationwide aggregation (housingData.ts lines 158-244) -/

/-- One feature of the ZIP-centroid table: `properties.ZCTA5CE20` and
`geometry.coordinates = [lon, lat]`. -/
structure CentroidFeature where
  zip : String
  lon : ℚ
  lat : ℚ
deriving DecidableEq, Repr

/-- The `centroidMap` built by `getAffordableNationwide` (lines 167-171):
`Map.set` per feature, so a later feature for the same ZIP wins. -/
def buildCentroidMap (features : List CentroidFeature) : String → Option (ℚ × ℚ) :=
  features.foldl (fun m f => fun z => if z = f.zip then some (f.lat, f.lon) else m z)
    (fun _ => none)

/-- `data.state || 'Unknown'`: a missing or empty state string becomes the
`"Unknown"` bucket. -/
def stateCodeOf (data : ZipRecord) : String :=
  match data.state with
  | none => "Unknown"
  | some s => if s = "" then "Unknown" else s

/-- Per-state accumulator of the nationwide loop. -/
structure StateInfo where
  entries : List HousingDataEntry
  affordable : ℕ
  stretch : ℕ
  unaffordable : ℕ
  total : ℕ
deriving DecidableEq, Repr

def emptyStateInfo : StateInfo := ⟨[], 0, 0, 0, 0⟩

/-- `stateMap.get`: first (and only) binding of a key in the insertion-ordered
association list modelling the JS `Map`. -/
def lookupState : List (String × StateInfo) → String → Option StateInfo
  | [], _ => none
  | p :: rest, c => if p.1 = c then some p.2 else lookupState rest c

/-- `if (!stateMap.has(code)) stateMap.set(code, empty)`: append a fresh
bucket if the key is absent, keeping insertion order. -/
def ensureState : List (String × StateInfo) → String → List (String × StateInfo)
  | [], c => [(c, emptyStateInfo)]
  | p :: rest, c => if p.1 = c then p :: rest else p :: ensureState rest c

/-- In-place mutation of the bucket at a key, keeping its position. -/
def modifyState : List (String × StateInfo) → String → (StateInfo → StateInfo) →
    List (String × StateInfo)
  | [], _, _ => []
  | p :: rest, c, f =>
      if p.1 = c then (p.1, f p.2) :: modifyState rest c f
      else p :: modifyState rest c f

/-- The entry built for a centroid-matched ZIP record (lines 181-190). -/
def mkEntry (zip : String) (data : ZipRecord) (lat lon : ℚ) : HousingDataEntry :=
  { zip := zip, name := data.name, state := data.state, lat := lat, lon := lon,
    medianHomeValue := data.medianHomeValue, medianRent := data.medianRent,
    fmr := data.fmr }

/-- Body of the `for (const [zip, data] of Object.entries(housingData))` loop
(housingData.ts lines 177-214): skip a ZIP without a centroid; always ensure
the state bucket exists; for a non-null home value bump the total and the
counter of its tier, pushing the entry to the state bucket and to `allEntries`
only for the `affordable` and `stretch` tiers. -/
def nationwideStep (inputs : AffordabilityInputs) (centroidMap : String → Option (ℚ × ℚ))
    (acc : List HousingDataEntry × List (String × StateInfo)) (r : String × ZipRecord) :
    List HousingDataEntry × List (String × StateInfo) :=
  match centroidMap r.1 with
  | none => acc
  | some (lat, lon) =>
    let entry := mkEntry r.1 r.2 lat lon
    let tier := getAffordabilityTier r.2.medianHomeValue inputs
    let stateCode := stateCodeOf r.2
    let m := ensureState acc.2 stateCode
    match r.2.medianHomeValue with
    | none => (acc.1, m)
    | some _ =>
      if tier = .affordable then
        (acc.1 ++ [entry], modifyState m stateCode (fun s =>
          { s with total := s.total + 1, affordable := s.affordable + 1,
                   entries := s.entries ++ [entry] }))
      else if tier = .stretch then
        (acc.1 ++ [entry], modifyState m stateCode (fun s =>
          { s with total := s.total + 1, stretch := s.stretch + 1,
                   entries := s.entries ++ [entry] }))
      else
        (acc.1, modifyState m stateCode (fun s =>
          { s with total := s.total + 1, unaffordable := s.unaffordable + 1 }))

/-- Per-state rollup consumed by the UI. -/
structure StateAffordability where
  state : String
  stateName : String
  totalZips : ℕ
  affordableCount : ℕ
  stretchCount : ℕ
  unaffordableCount : ℕ
  pctAffordable : ℤ
  medianHomeValue : Option ℚ
  medianRent : Option ℚ
deriving DecidableEq, Repr

/-- The `STATE_NAMES` table (housingData.ts lines 96-108). -/
def STATE_NAMES : List (String × String) :=
  [("AL", "Alabama"), ("AK", "Alaska"), ("AZ", "Arizona"), ("AR", "Arkansas"),
   ("CA", "California"), ("CO", "Colorado"), ("CT", "Connecticut"),
   ("DE", "Delaware"), ("DC", "District of Columbia"), ("FL", "Florida"),
   ("GA", "Georgia"), ("HI", "Hawaii"), ("ID", "Idaho"), ("IL", "Illinois"),
   ("IN", "Indiana"), ("IA", "Iowa"), ("KS", "Kansas"), ("KY", "Kentucky"),
   ("LA", "Louisiana"), ("ME", "Maine"), ("MD", "Maryland"),
   ("MA", "Massachusetts"), ("MI", "Michigan"), ("MN", "Minnesota"),
   ("MS", "Mississippi"), ("MO", "Missouri"), ("MT", "Montana"),
   ("NE", "Nebraska"), ("NV", "Nevada"), ("NH", "New Hampshire"),
   ("NJ", "New Jersey"), ("NM", "New Mexico"), ("NY", "New York"),
   ("NC", "North Carolina"), ("ND", "North Dakota"), ("OH", "Ohio"),
   ("OK", "Oklahoma"), ("OR", "Oregon"), ("PA", "Pennsylvania"),
   ("RI", "Rhode Island"), ("SC", "South Carolina"), ("SD", "South Dakota"),
   ("TN", "Tennessee"), ("TX", "Texas"), ("UT", "Utah"), ("VT", "Vermont"),
   ("VA", "Virginia"), ("WA", "Washington"), ("WV", "West Virginia"),
   ("WI", "Wisconsin"), ("WY", "Wyoming"), ("PR", "Puerto Rico")]

/-- `STATE_NAMES[stateCode] || stateCode`. -/
def stateNameOf (code : String) : String := (STATE_NAMES.lookup code).getD code

/-- The `states.push({...})` record of the summary loop (lines 223-233). -/
def mkStateAff (code : String) (info : StateInfo) : StateAffordability :=
  { state := code
    stateName := stateNameOf code
    totalZips := info.total
    affordableCount := info.affordable
    stretchCount := info.stretch
    unaffordableCount := info.unaffordable
    pctAffordable := round ((((info.affordable : ℚ) + info.stretch) / info.total) * 100)
    medianHomeValue := median ((info.entries.map (fun e => e.medianHomeValue)).filterMap id)
    medianRent := median ((info.entries.map (fun e => e.medianRent)).filterMap id) }

/-- Descending order on `pctAffordable`, the comparator of the final sort. -/
def pctGE (a b : StateAffordability) : Prop := b.pctAffordable ≤ a.pctAffordable

instance : DecidableRel pctGE := fun a b =>
  inferInstanceAs (Decidable (b.pctAffordable ≤ a.pctAffordable))

instance : IsTotal StateAffordability pctGE :=
  ⟨fun a b => le_total b.pctAffordable a.pctAffordable⟩

instance : IsTrans StateAffordability pctGE :=
  ⟨fun _ _ _ hab hbc => le_trans hbc hab⟩

/-- Return record of `getAffordableNationwide`. -/
structure NationwideResult where
  states : List StateAffordability
  allEntries : List HousingDataEntry
  stats : HousingStats
deriving Repr

/-- `getAffordableNationwide` (housingData.ts lines 158-244): loop over the
raw records, build the per-state tallies, emit one summary per state other
than the `"Unknown"` bucket and the zero-total states, and sort descending by
`pctAffordable` (JS `Array.prototype.sort` is stable and `insertionSort` is
its stable model). -/
def getAffordableNationwide (inputs : AffordabilityInputs)
    (housingData : List (String × ZipRecord)) (centroids : List CentroidFeature) :
    NationwideResult :=
  let centroidMap := buildCentroidMap centroids
  let acc := housingData.foldl (nationwideStep inputs centroidMap) ([], [])
  let states := acc.2.filterMap (fun p =>
    if p.1 = "Unknown" ∨ p.2.total = 0 then none else some (mkStateAff p.1 p.2))
  { states := states.insertionSort pctGE
    allEntries := acc.1
    stats := buildStats acc.1 }

/-! ### Association-list lemmas for the state map -/

lemma lookupState_ensure_self (m : List (String × StateInfo)) (c : String) :
    lookupState (ensureState m c) c = some ((lookupState m c).getD emptyStateInfo) := by
  induction m with
  | nil => simp [ensureState, lookupState]
  | cons p rest ih =>
      by_cases h : p.1 = c
      · simp [ensureState, lookupState, h]
      · simp [ensureState, lookupState, h, ih]

lemma lookupState_ensure_ne (m : List (String × StateInfo)) (c c' : String)
    (h : c' ≠ c) : lookupState (ensureState m c) c' = lookupState m c' := by
  induction m with
  | nil =>
      have hcc : ¬ c = c' := fun he => h he.symm
      simp [ensureState, lookupState, hcc]
  | cons p rest ih =>
      by_cases hp : p.1 = c
      · simp [ensureState, hp]
      · simp [ensureState, lookupState, hp, ih]

lemma lookupState_modify_self (m : List (String × StateInfo)) (c : String)
    (f : StateInfo → StateInfo) :
    lookupState (modifyState m c f) c = (lookupState m c).map f := by
  induction m with
  | nil => simp [modifyState, lookupState]
  | cons p rest ih =>
      by_cases h : p.1 = c
      · simp [modifyState, lookupState, h]
      · simp [modifyState, lookupState, h, ih]

lemma lookupState_modify_ne (m : List (String × StateInfo)) (c c' : String)
    (f : StateInfo → StateInfo) (h : c' ≠ c) :
    lookupState (modifyState m c f) c' = lookupState m c' := by
  induction m with
  | nil => simp [modifyState, lookupState]
  | cons p rest ih =>
      have hcc : ¬ c = c' := fun he => h he.symm
      have hcc2 : ¬ c' = c := h
      by_cases hp : p.1 = c
      · simp [modifyState, lookupState, hp, hcc, ih]
      · by_cases hc : p.1 = c'
        · simp [modifyState, lookupState, hp, hc, hcc2]
        · simp [modifyState, lookupState, hp, hc, ih]

lemma mem_ensureState (m : List (String × StateInfo)) (c : String)
    (p : String × StateInfo) (hp : p ∈ ensureState m c) :
    p ∈ m ∨ p = (c, emptyStateInfo) := by
  induction m with
  | nil =>
      simp only [ensureState, List.mem_singleton] at hp
      exact Or.inr hp
  | cons q rest ih =>
      by_cases h : q.1 = c
      · simp only [ensureState, if_pos h] at hp
        exact Or.inl hp
      · simp only [ensureState, if_neg h, List.mem_cons] at hp
        rcases hp with hp | hp
        · exact Or.inl (by rw [hp]; exact List.mem_cons_self q rest)
        · rcases ih hp with h1 | h1
          · exact Or.inl (List.mem_cons_of_mem q h1)
          · exact Or.inr h1

lemma mem_modifyState (m : List (String × StateInfo)) (c : String)
    (f : StateInfo → StateInfo) (p : String × StateInfo) (hp : p ∈ modifyState m c f) :
    p ∈ m ∨ ∃ q ∈ m, p = (q.1, f q.2) := by
  induction m with
  | nil =>
      simp only [modifyState, List.not_mem_nil] at hp
  | cons q rest ih =>
      by_cases h : q.1 = c
      · simp only [modifyState, if_pos h, List.mem_cons] at hp
        rcases hp with hp | hp
        · exact Or.inr ⟨q, List.mem_cons_self q rest, hp⟩
        · rcases ih hp with h1 | ⟨q', hq', he⟩
          · exact Or.inl (List.mem_cons_of_mem q h1)
          · exact Or.inr ⟨q', List.mem_cons_of_mem q hq', he⟩
      · simp only [modifyState, if_neg h, List.mem_cons] at hp
        rcases hp with hp | hp
        · exact Or.inl (by rw [hp]; exact List.mem_cons_self q rest)
        · rcases ih hp with h1 | ⟨q', hq', he⟩
          · exact Or.inl (List.mem_cons_of_mem q h1)
          · exact Or.inr ⟨q', List.mem_cons_of_mem q hq', he⟩

lemma keys_modifyState (m : List (String × StateInfo)) (c : String)
    (f : StateInfo → StateInfo) :
    (modifyState m c f).map Prod.fst = m.map Prod.fst := by
  induction m with
  | nil => simp [modifyState]
  | cons p rest ih =>
      by_cases h : p.1 = c <;> simp [modifyState, h, ih]

lemma keys_ensureState_nodup (m : List (String × StateInfo)) (c : String)
    (h : (m.map Prod.fst).Nodup) : ((ensureState m c).map Prod.fst).Nodup := by
  induction m with
  | nil => simp [ensureState]
  | cons p rest ih =>
      by_cases hp : p.1 = c
      · simpa [ensureState, hp] using h
      · simp only [List.map_cons, List.nodup_cons] at h
        have hrest := ih h.2
        simp only [ensureState, if_neg hp, List.map_cons, List.nodup_cons]
        refine ⟨?_, hrest⟩
        intro hmem
        rcases List.mem_map.1 hmem with ⟨q, hq, hqe⟩
        rcases mem_ensureState rest c q hq with hq1 | hq1
        · exact h.1 (List.mem_map.2 ⟨q, hq1, hqe⟩)
        · rw [hq1] at hqe
          exact hp hqe.symm

lemma lookupState_of_mem (m : List (String × StateInfo))
    (hnd : (m.map Prod.fst).Nodup) (p : String × StateInfo) (hp : p ∈ m) :
    lookupState m p.1 = some p.2 := by
  induction m with
  | nil => simp at hp
  | cons q rest ih =>
      simp only [List.map_cons, List.nodup_cons] at hnd
      rcases List.mem_cons.1 hp with hp1 | hp1
      · rw [hp1]
        simp [lookupState]
      · have hne : q.1 ≠ p.1 := by
          intro he
          exact hnd.1 (List.mem_map.2 ⟨p, hp1, he.symm⟩)
        simp only [lookupState, if_neg (fun he => hne he)]
        exact ih hnd.2 hp1

/-! ### Invariants of the nationwide fold -/

/-- The ZIPs counted by a state's `totalZips`: centroid-matched records of
that state with a non-null `medianHomeValue`. -/
def zipCounted (centroidMap : String → Option (ℚ × ℚ)) (c : String)
    (r : String × ZipRecord) : Bool :=
  (centroidMap r.1).isSome && decide (stateCodeOf r.2 = c) && r.2.medianHomeValue.isSome

/-- The running `total` of a state bucket (0 when absent). -/
def totalOf (m : List (String × StateInfo)) (c : String) : ℕ :=
  match lookupState m c with
  | none => 0
  | some s => s.total

lemma totalOf_ensure (m : List (String × StateInfo)) (c0 c : String) :
    totalOf (ensureState m c0) c = totalOf m c := by
  by_cases h : c = c0
  · subst h
    rw [totalOf, lookupState_ensure_self]
    cases h2 : lookupState m c <;> simp [totalOf, h2, emptyStateInfo]
  · rw [totalOf, lookupState_ensure_ne m c0 c h, totalOf]

lemma totalOf_bump (m : List (String × StateInfo)) (c0 c : String)
    (f : StateInfo → StateInfo) (hf : ∀ s, (f s).total = s.total + 1) :
    totalOf (modifyState (ensureState m c0) c0 f) c
      = if c = c0 then totalOf m c + 1 else totalOf m c := by
  by_cases h : c = c0
  · subst h
    rw [if_pos rfl, totalOf, lookupState_modify_self, lookupState_ensure_self]
    cases h2 : lookupState m c <;> simp [totalOf, h2, hf, emptyStateInfo]
  · rw [if_neg h, totalOf, lookupState_modify_ne _ _ _ _ h,
      lookupState_ensure_ne _ _ _ h, totalOf]

/-- Every bucket's total equals the sum of its three tier counters. -/
def sumInv (m : List (String × StateInfo)) : Prop :=
  ∀ p ∈ m, p.2.total = p.2.affordable + p.2.stretch + p.2.unaffordable

lemma sumInv_ensure (m : List (String × StateInfo)) (c : String) (h : sumInv m) :
    sumInv (ensureState m c) := by
  intro p hp
  rcases mem_ensureState m c p hp with h1 | h1
  · exact h p h1
  · rw [h1]
    rfl

lemma sumInv_modify (m : List (String × StateInfo)) (c : String)
    (f : StateInfo → StateInfo)
    (hf : ∀ s : StateInfo, s.total = s.affordable + s.stretch + s.unaffordable →
      (f s).total = (f s).affordable + (f s).stretch + (f s).unaffordable)
    (h : sumInv m) : sumInv (modifyState m c f) := by
  intro p hp
  rcases mem_modifyState m c f p hp with h1 | ⟨q, hq, he⟩
  · exact h p h1
  · rw [he]
    exact hf q.2 (h q hq)

lemma nationwideStep_inv (inputs : AffordabilityInputs)
    (cm : String → Option (ℚ × ℚ)) (l : List (String × ZipRecord))
    (acc : List HousingDataEntry × List (String × StateInfo)) (r : String × ZipRecord)
    (h1 : (acc.2.map Prod.fst).Nodup) (h2 : sumInv acc.2)
    (h3 : ∀ c, totalOf acc.2 c = l.countP (zipCounted cm c)) :
    ((nationwideStep inputs cm acc r).2.map Prod.fst).Nodup ∧
    sumInv (nationwideStep inputs cm acc r).2 ∧
    (∀ c, totalOf (nationwideStep inputs cm acc r).2 c
      = (l ++ [r]).countP (zipCounted cm c)) := by
  unfold nationwideStep
  cases hcm : cm r.1 with
  | none =>
      refine ⟨h1, h2, fun c => ?_⟩
      rw [List.countP_append, h3 c]
      simp [zipCounted, hcm]
  | some coords =>
      obtain ⟨lat, lon⟩ := coords
      dsimp only
      cases hmv : r.2.medianHomeValue with
      | none =>
          refine ⟨keys_ensureState_nodup _ _ h1, sumInv_ensure _ _ h2, fun c => ?_⟩
          rw [totalOf_ensure, List.countP_append, h3 c]
          simp [zipCounted, hmv]
      | some v =>
          dsimp only
          have hcount : ∀ c, (l ++ [r]).countP (zipCounted cm c)
              = (if c = stateCodeOf r.2 then l.countP (zipCounted cm c) + 1
                 else l.countP (zipCounted cm c)) := by
            intro c
            rw [List.countP_append]
            by_cases hc : c = stateCodeOf r.2
            · simp [zipCounted, hcm, hmv, hc, List.countP_cons]
            · have hc2 : ¬ stateCodeOf r.2 = c := fun he => hc he.symm
              simp [zipCounted, hcm, hmv, hc, hc2, List.countP_cons]
          split_ifs with ht hs <;>
            refine ⟨(by rw [keys_modifyState]; exact keys_ensureState_nodup _ _ h1),
              sumInv_modify _ _ _ (fun s hsum => by simp only [hsum]; omega)
                (sumInv_ensure _ _ h2), fun c => ?_⟩ <;>
            rw [totalOf_bump _ _ _ _ (fun s => rfl), hcount c, h3 c]

lemma foldl_nationwide_inv (inputs : AffordabilityInputs)
    (cm : String → Option (ℚ × ℚ)) :
    ∀ (hd l : List (String × ZipRecord))
      (acc : List HousingDataEntry × List (String × StateInfo)),
    (acc.2.map Prod.fst).Nodup → sumInv acc.2 →
    (∀ c, totalOf acc.2 c = l.countP (zipCounted cm c)) →
    ((hd.foldl (nationwideStep inputs cm) acc).2.map Prod.fst).Nodup ∧
    sumInv (hd.foldl (nationwideStep inputs cm) acc).2 ∧
    (∀ c, totalOf (hd.foldl (nationwideStep inputs cm) acc).2 c
      = (l ++ hd).countP (zipCounted cm c))
  | [], l, acc, h1, h2, h3 => ⟨h1, h2, by simpa using h3⟩
  | r :: hd, l, acc, h1, h2, h3 => by
      obtain ⟨g1, g2, g3⟩ := nationwideStep_inv inputs cm l acc r h1 h2 h3
      have hres := foldl_nationwide_inv inputs cm hd (l ++ [r])
        (nationwideStep inputs cm acc r) g1 g2 g3
      simpa [List.append_assoc] using hres

/-- C10 invariant on an entry: non-null home value, tier affordable or stretch. -/
def entryOk (inputs : AffordabilityInputs) (e : HousingDataEntry) : Prop :=
  e.medianHomeValue ≠ none ∧
  (getAffordabilityTier e.medianHomeValue inputs = .affordable ∨
   getAffordabilityTier e.medianHomeValue inputs = .stretch)

lemma nationwideStep_entries (inputs : AffordabilityInputs)
    (cm : String → Option (ℚ × ℚ))
    (acc : List HousingDataEntry × List (String × StateInfo)) (r : String × ZipRecord)
    (h : ∀ e ∈ acc.1, entryOk inputs e) :
    ∀ e ∈ (nationwideStep inputs cm acc r).1, entryOk inputs e := by
  unfold nationwideStep
  cases hcm : cm r.1 with
  | none => exact h
  | some coords =>
      obtain ⟨lat, lon⟩ := coords
      dsimp only
      cases hmv : r.2.medianHomeValue with
      | none => exact h
      | some v =>
          have hval : (mkEntry r.1 r.2 lat lon).medianHomeValue = some v := by
            rw [mkEntry]
            exact hmv
          split_ifs with ht hs
          · intro e he
            rcases List.mem_append.1 he with he | he
            · exact h e he
            · rw [List.mem_singleton] at he
              subst he
              refine ⟨by rw [hval]; exact fun hx => Option.noConfusion hx, Or.inl ?_⟩
              rw [hval]
              exact ht
          · intro e he
            rcases List.mem_append.1 he with he | he
            · exact h e he
            · rw [List.mem_singleton] at he
              subst he
              refine ⟨by rw [hval]; exact fun hx => Option.noConfusion hx, Or.inr ?_⟩
              rw [hval]
              exact hs
          · exact h

lemma foldl_nationwide_entries (inputs : AffordabilityInputs)
    (cm : String → Option (ℚ × ℚ)) :
    ∀ (hd : List (String × ZipRecord))
      (acc : List HousingDataEntry × List (String × StateInfo)),
    (∀ e ∈ acc.1, entryOk inputs e) →
    ∀ e ∈ (hd.foldl (nationwideStep inputs cm) acc).1, entryOk inputs e
  | [], _, h => h
  | r :: hd, acc, h =>
      foldl_nationwide_entries inputs cm hd (nationwideStep inputs cm acc r)
        (nationwideStep_entries inputs cm acc r h)

/-! ### Claims C6, C9, C10 -/

/-- Example inputs for the state-aggregation example: income 60000 with a
zero rate, tax and insurance, so the three tier thresholds are 630000 and
810000. -/
def c6ExInputs : AffordabilityInputs :=
  { defaultInputs with
      annualIncome := some 60000
      interestRate := 0
      propertyTaxRate := 0
      annualInsurance := 0 }

def nyRecord (v : ℚ) : ZipRecord :=
  { name := none, state := some "NY", medianHomeValue := some v,
    medianRent := none, fmr := none }

def c6ExRecords : List (String × ZipRecord) :=
  [("10001", nyRecord 500000), ("10002", nyRecord 700000), ("10003", nyRecord 900000)]

def c6ExCentroids : List CentroidFeature :=
  [⟨"10001", -74, 40⟩, ⟨"10002", -74, 40⟩, ⟨"10003", -74, 40⟩]

lemma c6_example_eval :
    ((getAffordableNationwide c6ExInputs c6ExRecords c6ExCentroids).states.map
      (fun s => s.pctAffordable)) = [67] := by
  norm_num [getAffordableNationwide, c6ExInputs, c6ExRecords, c6ExCentroids, defaultInputs,
    nyRecord, buildCentroidMap, nationwideStep, mkEntry, stateCodeOf, ensureState,
    modifyState, getAffordabilityTier, baseDtiTier, calculateFullMonthlyPayment,
    calculateMonthlyPayment, PMI_RATE, mkStateAff, List.insertionSort, List.orderedInsert,
    emptyStateInfo, round_eq]

/-- C6: every state summary of `getAffordableNationwide` satisfies
`pctAffordable = round(100 * (affordableCount + stretchCount) / totalZips)`;
`totalZips` counts exactly the centroid-matched ZIPs of that state with a
non-null `medianHomeValue` and equals the sum of the three tier counts; the
missing-state bucket and zero-total states are omitted; the list is sorted
descending by `pctAffordable`; and three ZIPs of one state with tiers
affordable, stretch, unaffordable give `pctAffordable = 67`. -/
theorem C6_state_aggregation (inputs : AffordabilityInputs)
    (records : List (String × ZipRecord)) (centroids : List CentroidFeature) :
    (∀ s ∈ (getAffordableNationwide inputs records centroids).states,
      s.pctAffordable
          = round ((((s.affordableCount : ℚ) + s.stretchCount) / s.totalZips) * 100) ∧
      s.totalZips = s.affordableCount + s.stretchCount + s.unaffordableCount ∧
      s.state ≠ "Unknown" ∧ 0 < s.totalZips ∧
      s.totalZips = records.countP (zipCounted (buildCentroidMap centroids) s.state)) ∧
    List.Sorted pctGE (getAffordableNationwide inputs records centroids).states ∧
    ((getAffordableNationwide c6ExInputs c6ExRecords c6ExCentroids).states.map
      (fun s => s.pctAffordable)) = [67] := by
  obtain ⟨hnd, hsum, htot⟩ := foldl_nationwide_inv inputs (buildCentroidMap centroids)
    records [] ([], []) (by simp) (fun p hp => absurd hp (List.not_mem_nil p))
    (fun c => by simp [totalOf, lookupState])
  refine ⟨?_, ?_, c6_example_eval⟩
  · intro s hs
    have hs0 : s ∈ (records.foldl (nationwideStep inputs (buildCentroidMap centroids))
        ([], [])).2.filterMap (fun p =>
          if p.1 = "Unknown" ∨ p.2.total = 0 then none else some (mkStateAff p.1 p.2)) :=
      (List.perm_insertionSort pctGE _).mem_iff.1 hs
    rw [List.mem_filterMap] at hs0
    obtain ⟨p, hp, hif⟩ := hs0
    by_cases hguard : p.1 = "Unknown" ∨ p.2.total = 0
    · rw [if_pos hguard] at hif
      exact Option.noConfusion hif
    · rw [if_neg hguard] at hif
      push_neg at hguard
      obtain ⟨hU, h0⟩ := hguard
      rw [Option.some_inj] at hif
      subst hif
      refine ⟨rfl, hsum p hp, hU, Nat.pos_of_ne_zero h0, ?_⟩
      have hlook := lookupState_of_mem _ hnd p hp
      have htp := htot p.1
      rw [totalOf, hlook] at htp
      simpa using htp
  · exact List.sorted_insertionSort pctGE _

theorem C6_state_aggregation_witness :
    ∃ s ∈ (getAffordableNationwide c6ExInputs c6ExRecords c6ExCentroids).states,
      s.pctAffordable
          = round ((((s.affordableCount : ℚ) + s.stretchCount) / s.totalZips) * 100) ∧
      s.totalZips = s.affordableCount + s.stretchCount + s.unaffordableCount ∧
      s.state ≠ "Unknown" ∧ 0 < s.totalZips := by
  have h := C6_state_aggregation c6ExInputs c6ExRecords c6ExCentroids
  have hne : (getAffordableNationwide c6ExInputs c6ExRecords c6ExCentroids).states ≠ [] := by
    intro he
    have := h.2.2
    rw [he] at this
    exact List.noConfusion this
  obtain ⟨s, hs⟩ := List.exists_mem_of_ne_nil _ hne
  obtain ⟨h1, h2, h3, h4, -⟩ := h.1 s hs
  exact ⟨s, hs, h1, h2, h3, h4⟩

/-- Marker record of `getAffordableForIsochrone`. -/
structure ZipMarker where
  zip : String
  lat : ℚ
  lon : ℚ
  tier : AffordabilityTier
  medianHomeValue : Option ℚ
  medianRent : Option ℚ
deriving DecidableEq, Repr

/-- The marker built from one joined entry (unnamed part 009 lines 187-197). -/
def mkIsoMarker (e : HousingDataEntry) (affordability : AffordabilityInputs) : ZipMarker :=
  { zip := e.zip, lat := e.lat, lon := e.lon,
    tier := getAffordabilityTier e.medianHomeValue affordability,
    medianHomeValue := e.medianHomeValue, medianRent := e.medianRent }

/-- `getAffordableForIsochrone` (unnamed part 009 lines 178-203): the
isochrone-scoped join itself (data fetch plus turf point-in-polygon) is an
external collaborator, so `stats` stands for the awaited result of
`getHousingForIsochrone`; the function classifies every joined entry and
keeps as markers exactly those whose tier is not `unknown`, while the stats
(and their `entries`) are returned unchanged. -/
def getAffordableForIsochrone (stats : HousingStats)
    (affordability : AffordabilityInputs) : HousingStats × List ZipMarker :=
  (stats, (stats.entries.map (fun e => mkIsoMarker e affordability)).filter
    (fun marker => decide (marker.tier ≠ .unknown)))

/-- C9: the returned marker list contains exactly the markers of those
entries of the returned stats whose tier is not `unknown` — every marker's
tier is affordable, stretch or unaffordable — while the stats keep all joined
entries, including the `unknown` ones. -/
theorem C9_isochrone_markers (stats : HousingStats) (aff : AffordabilityInputs) :
    (getAffordableForIsochrone stats aff).1 = stats ∧
    (∀ marker ∈ (getAffordableForIsochrone stats aff).2,
      (∃ e ∈ stats.entries, marker = mkIsoMarker e aff) ∧
      (marker.tier = .affordable ∨ marker.tier = .stretch ∨
        marker.tier = .unaffordable)) ∧
    (∀ e ∈ stats.entries,
      (getAffordabilityTier e.medianHomeValue aff ≠ .unknown →
        mkIsoMarker e aff ∈ (getAffordableForIsochrone stats aff).2) ∧
      (getAffordabilityTier e.medianHomeValue aff = .unknown →
        mkIsoMarker e aff ∉ (getAffordableForIsochrone stats aff).2)) := by
  refine ⟨rfl, ?_, ?_⟩
  · intro marker hm
    simp only [getAffordableForIsochrone, List.mem_filter, List.mem_map,
      decide_eq_true_eq] at hm
    obtain ⟨⟨e, he, hme⟩, hne⟩ := hm
    refine ⟨⟨e, he, hme.symm⟩, ?_⟩
    cases hmt : marker.tier
    · exact Or.inl rfl
    · exact Or.inr (Or.inl rfl)
    · exact Or.inr (Or.inr rfl)
    · exact absurd hmt hne
  · intro e he
    constructor
    · intro hne
      simp only [getAffordableForIsochrone, List.mem_filter, List.mem_map,
        decide_eq_true_eq]
      exact ⟨⟨e, he, rfl⟩, hne⟩
    · intro hu hmem
      simp only [getAffordableForIsochrone, List.mem_filter, List.mem_map,
        decide_eq_true_eq] at hmem
      exact hmem.2 hu

def c9Stats : HousingStats :=
  buildStats [plainEntry "a" (some 100000), plainEntry "b" none]

theorem C9_isochrone_markers_witness :
    (getAffordableForIsochrone c9Stats c6ExInputs).1 = c9Stats ∧
    mkIsoMarker (plainEntry "a" (some 100000)) c6ExInputs
      ∈ (getAffordableForIsochrone c9Stats c6ExInputs).2 ∧
    mkIsoMarker (plainEntry "b" none) c6ExInputs
      ∉ (getAffordableForIsochrone c9Stats c6ExInputs).2 := by
  have h := C9_isochrone_markers c9Stats c6ExInputs
  have hmem1 : plainEntry "a" (some 100000) ∈ c9Stats.entries := by
    simp [c9Stats, buildStats]
  have hmem2 : plainEntry "b" none ∈ c9Stats.entries := by
    simp [c9Stats, buildStats]
  refine ⟨h.1, (h.2.2 _ hmem1).1 ?_, (h.2.2 _ hmem2).2 ?_⟩
  · have : getAffordabilityTier (plainEntry "a" (some 100000)).medianHomeValue c6ExInputs
        = .affordable := by
      norm_num [getAffordabilityTier, plainEntry, c6ExInputs, defaultInputs, baseDtiTier,
        calculateFullMonthlyPayment, calculateMonthlyPayment, PMI_RATE]
    rw [this]
    exact fun hx => AffordabilityTier.noConfusion hx
  · exact tier_none_price c6ExInputs

/-- Marker record of the STATE_CLICK reducer case (useAppReducer.ts). -/
structure StateClickMarker where
  lat : ℚ
  lon : ℚ
  zip : String
  tier : AffordabilityTier
deriving DecidableEq, Repr

/-- The STATE_CLICK handler (useAppReducer.ts lines 119-138): re-filter
`allNationwideEntries` by state and recompute each tier, collapsing anything
that is neither affordable nor stretch to unaffordable. -/
def stateClickMarkers (allNationwideEntries : List HousingDataEntry)
    (stateCode : String) (affordability : AffordabilityInputs) : List StateClickMarker :=
  (allNationwideEntries.filter (fun e => decide (e.state = some stateCode))).map (fun e =>
    { lat := e.lat, lon := e.lon, zip := e.zip,
      tier :=
        if getAffordabilityTier e.medianHomeValue affordability = .affordable then
          .affordable
        else if getAffordabilityTier e.medianHomeValue affordability = .stretch then
          .stretch
        else .unaffordable })

lemma allEntries_eq_foldl (inputs : AffordabilityInputs)
    (records : List (String × ZipRecord)) (centroids : List CentroidFeature) :
    (getAffordableNationwide inputs records centroids).allEntries
      = (records.foldl (nationwideStep inputs (buildCentroidMap centroids)) ([], [])).1 :=
  rfl

/-- C10: every entry of `allEntries` has a non-null home value and is
classified affordable or stretch under the inputs of the call, so the
STATE_CLICK drill-down built from `allEntries` under the same inputs only
ever produces affordable or stretch markers. -/
theorem C10_allEntries_only_affordable (inputs : AffordabilityInputs)
    (records : List (String × ZipRecord)) (centroids : List CentroidFeature) :
    (∀ e ∈ (getAffordableNationwide inputs records centroids).allEntries,
      e.medianHomeValue ≠ none ∧
      (getAffordabilityTier e.medianHomeValue inputs = .affordable ∨
       getAffordabilityTier e.medianHomeValue inputs = .stretch)) ∧
    (∀ code : String,
      ∀ marker ∈ stateClickMarkers
          (getAffordableNationwide inputs records centroids).allEntries code inputs,
        marker.tier = .affordable ∨ marker.tier = .stretch) := by
  have hmain : ∀ e ∈ (getAffordableNationwide inputs records centroids).allEntries,
      entryOk inputs e := by
    rw [allEntries_eq_foldl]
    exact foldl_nationwide_entries inputs (buildCentroidMap centroids) records ([], [])
      (fun e he => absurd he (List.not_mem_nil e))
  refine ⟨fun e he => hmain e he, ?_⟩
  intro code marker hm
  simp only [stateClickMarkers, List.mem_map, List.mem_filter, decide_eq_true_eq] at hm
  obtain ⟨e, ⟨he, hst⟩, hme⟩ := hm
  obtain ⟨-, htier⟩ := hmain e he
  rcases htier with h | h
  · left
    rw [← hme]
    simp [h]
  · right
    rw [← hme]
    simp [h]

theorem C10_allEntries_only_affordable_witness :
    mkEntry "10001" (nyRecord 500000) 40 (-74)
      ∈ (getAffordableNationwide c6ExInputs c6ExRecords c6ExCentroids).allEntries ∧
    (mkEntry "10001" (nyRecord 500000) 40 (-74)).medianHomeValue ≠ none ∧
    (getAffordabilityTier (mkEntry "10001" (nyRecord 500000) 40 (-74)).medianHomeValue
        c6ExInputs = .affordable ∨
     getAffordabilityTier (mkEntry "10001" (nyRecord 500000) 40 (-74)).medianHomeValue
        c6ExInputs = .stretch) := by
  have hmem : mkEntry "10001" (nyRecord 500000) 40 (-74)
      ∈ (getAffordableNationwide c6ExInputs c6ExRecords c6ExCentroids).allEntries := by
    rw [allEntries_eq_foldl]
    have hne1 : AffordabilityTier.stretch ≠ AffordabilityTier.affordable := by decide
    have hne2 : AffordabilityTier.unaffordable ≠ AffordabilityTier.affordable := by decide
    have hne3 : AffordabilityTier.unaffordable ≠ AffordabilityTier.stretch := by decide
    have hNY : ("NY" : String) ≠ "" := by decide
    norm_num [c6ExRecords, c6ExCentroids, c6ExInputs, defaultInputs, nyRecord,
      buildCentroidMap, nationwideStep, mkEntry, stateCodeOf, ensureState, modifyState,
      getAffordabilityTier, baseDtiTier, calculateFullMonthlyPayment,
      calculateMonthlyPayment, PMI_RATE, emptyStateInfo, hne1, hne2, hne3, hNY]
  have h := (C10_allEntries_only_affordable c6ExInputs c6ExRecords c6ExCentroids).1
    _ hmem
  exact ⟨hmem, h.1, h.2⟩

end Housing
